import Mathlib

/-!
# Wireshark E100 and Interlink dissectors

A shallow embedding of `epan/dissectors/packet-e100.c` and
`epan/dissectors/packet-interlink.c`.

The two dissectors are translated statement by statement.  The library they
call (`tvbuff`, `proto_tree`, column and dissector-table routines) is not part
of the two files; it is modelled from the specification's ByteView,
FieldDecoder, result-sink and DispatchRegistry contracts, and every such
definition says so in its doc comment.

Machine integers are natural numbers with explicit reduction modulo `2 ^ w`
where the C type can wrap; a `guint32` handed to a `gint` parameter is read as
a two's complement integer.
-/

namespace Wireshark

/-! ## Bytes, buffers and exceptions -/

/-- One octet of captured data. -/
abbrev guint8 := Fin 256

/-- Typed errors of the decoding core (spec section 7). `OutOfBounds`: a read or
slice touched bytes beyond the captured data. `UnboundDependency`: a handler
that was never wired is used. -/
inductive Exn where
  | OutOfBounds
  | UnboundDependency
  deriving DecidableEq, Repr

/-- Modelled from the spec: the ByteView of section 3 (`tvbuff_t`, declared in
`epan/tvbuff.h`, is not in the two files). `data` holds the captured bytes, so
the captured length is `data.length`; `reported_length` is what the wire
claims. -/
structure tvbuff_t where
  data : List guint8
  reported_length : Nat
  deriving DecidableEq, Repr

/-- Modelled from the spec: `capturedLength()` of ByteView. -/
def tvb_captured_length (tvb : tvbuff_t) : Nat := tvb.data.length

/-- Modelled from the spec: `reportedLength()` of ByteView. -/
def tvb_reported_length (tvb : tvbuff_t) : Nat := tvb.reported_length

/-- Modelled from the spec: the bounds rule of ByteView, `offset + length` must
not exceed the captured length. -/
def tvb_bytes_exist (tvb : tvbuff_t) (offset length : Nat) : Bool :=
  decide (offset + length ≤ tvb_captured_length tvb)

/-- Modelled from the spec: the raw bytes of a window, failing with
`OutOfBounds` under the ByteView rule. -/
def tvb_get_bytes (tvb : tvbuff_t) (offset length : Nat) : Except Exn (List guint8) :=
  if tvb_bytes_exist tvb offset length then
    .ok ((tvb.data.drop offset).take length)
  else
    .error Exn.OutOfBounds

/-- Big-endian value of a byte string. -/
def be_uint (bs : List guint8) : Nat :=
  bs.foldl (fun acc b => acc * 256 + b.val) 0

/-- Little-endian value of a byte string. -/
def le_uint (bs : List guint8) : Nat :=
  be_uint bs.reverse

/-- Modelled from the spec: `readUint(offset, 1, _)` of ByteView. -/
def tvb_get_guint8 (tvb : tvbuff_t) (offset : Nat) : Except Exn Nat :=
  (tvb_get_bytes tvb offset 1).map be_uint

/-- Modelled from the spec: `readUint(offset, 4, Big)` of ByteView. -/
def tvb_get_ntohl (tvb : tvbuff_t) (offset : Nat) : Except Exn Nat :=
  (tvb_get_bytes tvb offset 4).map be_uint

/-- C unsigned subtraction on `guint` (32 bits): the difference wraps modulo
`2 ^ 32`. -/
def guint_sub (a b : Nat) : Nat := (a + 2 ^ 32 - b) % 2 ^ 32

/-- A `guint32` value handed to a parameter of type `gint`: the same 32 bits
read as a two's complement number. -/
def guint32_to_gint (n : Nat) : Int :=
  if n % 2 ^ 32 < 2 ^ 31 then ((n % 2 ^ 32 : Nat) : Int)
  else ((n % 2 ^ 32 : Nat) : Int) - 2 ^ 32

/-- Modelled from the spec: the reported length of a sub-window (section 4.4):
the length the caller gives, or, for the `gint` value `-1` ("not given"), what
is left of the parent's reported length behind the offset. -/
def subset_reported_length (tvb : tvbuff_t) (backing_offset : Nat) (reported_length : Int) :
    Nat :=
  if reported_length = -1 then guint_sub (tvb_reported_length tvb) backing_offset
  else reported_length.toNat

/-- Modelled from the spec: `tvb_new_subset_length_caplen` of `epan/tvbuff.c`,
the `slice(offset, length)` of ByteView (section 4.1) with the reported length
of the sub-window set by the caller (section 4.4); fails with `OutOfBounds` when
`offset + length` exceeds the captured length. The result keeps the invariant
of section 3, `reported_length >= captured_length`: its captured length is cut
to its reported length. The two lengths are `gint` parameters: `-1` stands for
"to the end of the buffer", and a length below `-1` is a bounds error; every
bounds error is the one `OutOfBounds` of section 7. -/
def tvb_new_subset_length_caplen (tvb : tvbuff_t) (backing_offset : Nat)
    (backing_length reported_length : Int) : Except Exn tvbuff_t :=
  if reported_length < -1 then .error Exn.OutOfBounds
  else if backing_length < -1 then .error Exn.OutOfBounds
  else
    (tvb_get_bytes tvb backing_offset
      (if backing_length = -1 then tvb_captured_length tvb - backing_offset
        else backing_length.toNat)).map fun bs =>
      { data := bs.take (subset_reported_length tvb backing_offset reported_length),
        reported_length := subset_reported_length tvb backing_offset reported_length }

/-- Modelled from the spec: `sliceRemaining(offset)` of ByteView, everything
from `offset` to the end of the buffer; fails with `OutOfBounds` when `offset`
lies beyond the captured data. -/
def tvb_new_subset_remaining (tvb : tvbuff_t) (backing_offset : Nat) : Except Exn tvbuff_t :=
  (tvb_get_bytes tvb backing_offset (tvb_captured_length tvb - backing_offset)).map
    (fun bs => { data := bs, reported_length := tvb_reported_length tvb - backing_offset })

/-! ## Registered fields -/

/-- Field types used by the two registration tables. -/
inductive ftenum where
  | FT_PROTOCOL
  | FT_UINT8
  | FT_UINT16
  | FT_UINT32
  | FT_IPv4
  | FT_ABSOLUTE_TIME
  | FT_STRING
  | FT_BOOLEAN
  deriving DecidableEq, Repr

/-- Encodings passed by the two dissectors. -/
inductive Encoding where
  | ENC_NA
  | ENC_BIG_ENDIAN
  | ENC_LITTLE_ENDIAN
  | ENC_ASCII
  | ENC_TIME_SECS_USECS_BIG_ENDIAN
  deriving DecidableEq, Repr

/-- The protocol and field handles (`proto_*`, `hf_*`) of both files. -/
inductive Hf where
  | proto_e100
  | hf_e100_header
  | hf_e100_port
  | hf_e100_seq
  | hf_e100_ip
  | hf_e100_mon_pkt_id
  | hf_e100_pkt_ts
  | hf_e100_bytes_cap
  | hf_e100_bytes_orig
  | proto_interlink
  | hf_interlink_id
  | hf_interlink_version
  | hf_interlink_cmd
  | hf_interlink_seq
  | hf_interlink_flags
  | hf_interlink_flags_req_ack
  | hf_interlink_flags_inc_ack_port
  | hf_interlink_block_type
  | hf_interlink_block_version
  | hf_interlink_block_length
  deriving DecidableEq, Repr

/-- The field type column of `proto_register_e100` and
`proto_register_interlink`. -/
def hf_type : Hf → ftenum
  | .proto_e100 => .FT_PROTOCOL
  | .hf_e100_header => .FT_UINT8
  | .hf_e100_port => .FT_UINT8
  | .hf_e100_seq => .FT_UINT16
  | .hf_e100_ip => .FT_IPv4
  | .hf_e100_mon_pkt_id => .FT_UINT32
  | .hf_e100_pkt_ts => .FT_ABSOLUTE_TIME
  | .hf_e100_bytes_cap => .FT_UINT32
  | .hf_e100_bytes_orig => .FT_UINT32
  | .proto_interlink => .FT_PROTOCOL
  | .hf_interlink_id => .FT_STRING
  | .hf_interlink_version => .FT_UINT16
  | .hf_interlink_cmd => .FT_UINT16
  | .hf_interlink_seq => .FT_UINT16
  | .hf_interlink_flags => .FT_UINT16
  | .hf_interlink_flags_req_ack => .FT_BOOLEAN
  | .hf_interlink_flags_inc_ack_port => .FT_BOOLEAN
  | .hf_interlink_block_type => .FT_UINT8
  | .hf_interlink_block_version => .FT_UINT8
  | .hf_interlink_block_length => .FT_UINT16

/-- The bitmask column of the two registration tables. -/
def hf_bitmask : Hf → Nat
  | .hf_interlink_flags_req_ack => 0x0001
  | .hf_interlink_flags_inc_ack_port => 0x0002
  | _ => 0x0

/-- Subtree indices (`ett_*`) of both files. -/
inductive Ett where
  | ett_e100
  | ett_interlink
  | ett_interlink_header
  | ett_interlink_flags
  | ett_interlink_block
  deriving DecidableEq, Repr

/-- A node of the result tree: the tree handed in by the caller or a subtree
opened under an `ett_*` index. -/
inductive TreeNode where
  | top
  | sub (ett : Ett)
  deriving DecidableEq, Repr

/-- A `proto_tree *`; `none` is the NULL tree. -/
abbrev proto_tree := Option TreeNode

/-- A `proto_item *`; `none` is the NULL item, otherwise the tree it hangs in. -/
abbrev proto_item := Option TreeNode

/-- Decoded scalar values (spec section 3, DecodedHeader). -/
inductive Value where
  | none
  | uint (n : Nat)
  | ipv4 (addr : List guint8)
  | abstime (secs usecs : Nat)
  | string (bs : List guint8)
  | boolean (b : Bool)
  deriving DecidableEq, Repr

/-- Columns written by the two dissectors. -/
inductive Column where
  | COL_PROTOCOL
  | COL_INFO
  deriving DecidableEq, Repr

/-- A `dissector_handle_t`; `none` is NULL, otherwise the identity of a
registered dissector. -/
abbrev dissector_handle_t := Option Nat

/-- What a dissector reports to its surroundings, in program order: column
writes, tree items, subtrees, and calls of the next dissector. -/
inductive Event where
  | col_set_str (col : Column) (s : String)
  | col_clear (col : Column)
  | col_append_fstr (col : Column) (fmt : String) (args : List Nat)
  | item (parent : TreeNode) (hf : Hf) (start length : Nat) (v : Value)
  | subtree (parent : TreeNode) (ett : Ett) (start length : Nat) (label : String)
  | call (handle : Nat) (tvb : tvbuff_t) (tree : proto_tree)
  deriving DecidableEq, Repr

/-! ## The dissection monad -/

/-- The outcome of running dissector code: the events emitted up to the point
where it returned or raised, and the value or the exception. -/
structure Dissect (α : Type) where
  sink : List Event
  result : Except Exn α

namespace Dissect

/-- Return without emitting. -/
def ret {α : Type} (a : α) : Dissect α := ⟨[], .ok a⟩

/-- Sequencing: an exception stops the run and keeps what was emitted. -/
def seq {α β : Type} (m : Dissect α) (f : α → Dissect β) : Dissect β :=
  match m.result with
  | .ok a => ⟨m.sink ++ (f a).sink, (f a).result⟩
  | .error e => ⟨m.sink, .error e⟩

instance : Monad Dissect where
  pure := ret
  bind := seq

/-- Emit one event. -/
def emit (e : Event) : Dissect Unit := ⟨[e], .ok ()⟩

/-- Run a read that may raise. -/
def lift {α : Type} (r : Except Exn α) : Dissect α := ⟨[], r⟩

end Dissect

/-! ## Result tree and column routines -/

/-- Modelled from the spec: `FieldDecoder.decode` (section 4.2) for the field
types registered by the two files. Integers take `length` bytes in the given
byte order, a timestamp is two halves of `length / 2` bytes (seconds, then
microseconds), a string is exactly `length` bytes. -/
def decode (tvb : tvbuff_t) (ft : ftenum) (start length : Nat) (enc : Encoding) :
    Except Exn Value :=
  (tvb_get_bytes tvb start length).map fun bs =>
    match ft with
    | .FT_PROTOCOL => Value.none
    | .FT_UINT8 | .FT_UINT16 | .FT_UINT32 =>
      match enc with
      | .ENC_LITTLE_ENDIAN => Value.uint (le_uint bs)
      | _ => Value.uint (be_uint bs)
    | .FT_IPv4 => Value.ipv4 bs
    | .FT_ABSOLUTE_TIME =>
      Value.abstime (be_uint (bs.take (length / 2))) (be_uint (bs.drop (length / 2)))
    | .FT_STRING => Value.string bs
    | .FT_BOOLEAN => Value.boolean (decide (be_uint bs ≠ 0))

/-- The unsigned value carried by a decoded field. -/
def Value.toUInt : Value → Nat
  | .uint n => n
  | _ => 0

/-- Modelled from the spec: reporting one field to the result sink
(`proto_tree_add_item` of `epan/proto.h`). A protocol item is an interior node
without decoded data; every other field is decoded first, so a short buffer
raises `OutOfBounds` before anything is reported; the item is reported only
when a tree is present. -/
def proto_tree_add_item (tree : proto_tree) (hf : Hf) (tvb : tvbuff_t)
    (start length : Nat) (enc : Encoding) : Dissect proto_item :=
  if hf_type hf = ftenum.FT_PROTOCOL then
    match tree with
    | some t => do
      Dissect.emit (Event.item t hf start length Value.none)
      pure (some t)
    | Option.none => pure Option.none
  else do
    let v ← Dissect.lift (decode tvb (hf_type hf) start length enc)
    match tree with
    | some t => do
      Dissect.emit (Event.item t hf start length v)
      pure (some t)
    | Option.none => pure Option.none

/-- Modelled from the spec: `proto_tree_add_item_ret_uint`, which reports the
field like `proto_tree_add_item` and hands the decoded unsigned value back to
the caller, with or without a tree. -/
def proto_tree_add_item_ret_uint (tree : proto_tree) (hf : Hf) (tvb : tvbuff_t)
    (start length : Nat) (enc : Encoding) : Dissect Nat := do
  let v ← Dissect.lift (decode tvb (hf_type hf) start length enc)
  match tree with
  | some t => do
    Dissect.emit (Event.item t hf start length v)
    pure v.toUInt
  | Option.none => pure v.toUInt

/-- Modelled from the spec: `proto_item_add_subtree`; the subtree of a NULL item
is NULL. -/
def proto_item_add_subtree (ti : proto_item) (ett : Ett) : proto_tree :=
  ti.map fun _ => TreeNode.sub ett

/-- Modelled from the spec: `proto_tree_add_subtree`, an interior text node
with its own subtree; NULL when the parent is NULL. -/
def proto_tree_add_subtree (tree : proto_tree) (start length : Nat) (ett : Ett)
    (label : String) : Dissect proto_tree :=
  match tree with
  | some t => do
    Dissect.emit (Event.subtree t ett start length label)
    pure (some (TreeNode.sub ett))
  | Option.none => pure Option.none

/-- Modelled from the spec: the 2-byte bitmask field of section 4.4
(`proto_tree_add_bitmask`): the whole value is reported, then one boolean per
listed flag, true exactly when the value has a bit of the flag's registered
mask. -/
def proto_tree_add_bitmask (tree : proto_tree) (tvb : tvbuff_t) (offset : Nat)
    (hf : Hf) (ett : Ett) (flags : List Hf) (enc : Encoding) : Dissect Unit := do
  let v ← Dissect.lift (decode tvb (hf_type hf) offset 2 enc)
  match tree with
  | some t => do
    Dissect.emit (Event.item t hf offset 2 v)
    Dissect.emit (Event.subtree t ett offset 2 "")
    flags.forM fun f =>
      Dissect.emit (Event.item (TreeNode.sub ett) f offset 2
        (Value.boolean (decide (v.toUInt &&& hf_bitmask f ≠ 0))))
  | Option.none => pure ()

/-- Modelled from the spec: invoking a handler on the payload view
(`call_dissector`); a handler that was never wired raises
`UnboundDependency`. -/
def call_dissector (handle : dissector_handle_t) (tvb : tvbuff_t) (tree : proto_tree) :
    Dissect Unit :=
  match handle with
  | some h => Dissect.emit (Event.call h tvb tree)
  | Option.none => Dissect.lift (.error Exn.UnboundDependency)

/-- Modelled from the spec: the DispatchRegistry of section 4.5 as seen by the
dissectors after initialisation: the handles wired by the two handoff routines
and the `interlink.type_version` table of registered (key, handler) entries. -/
structure Registry where
  eth_handle : dissector_handle_t
  data_handle : dissector_handle_t
  subdissector_table : List (Nat × Nat)

/-- Modelled from the spec: exact-key lookup in a dissector table
(`dissector_get_uint_handle`), NULL when the key is not registered. -/
def dissector_get_uint_handle (table : List (Nat × Nat)) (key : Nat) : dissector_handle_t :=
  table.lookup key

/-! ## packet-e100.c -/

/-- E100 encapsulated packet offsets. -/
structure e100_encap where
  offset : Nat
  len : Nat
  deriving DecidableEq, Repr

def e100_header_ver : e100_encap := ⟨0, 1⟩
def e100_port_recv : e100_encap := ⟨1, 1⟩
def e100_seq : e100_encap := ⟨2, 2⟩
def e100_ip : e100_encap := ⟨4, 4⟩
def e100_mon_pkt_id : e100_encap := ⟨8, 4⟩
def e100_ts : e100_encap := ⟨12, 8⟩
def e100_bytes_cap : e100_encap := ⟨20, 4⟩
def e100_bytes_orig : e100_encap := ⟨24, 4⟩
def e100_encap_len : Nat := 28

/-- The function `dissect_e100`: the three heuristic tests, evaluated left to
right with the short circuit of `||`, then the header fields, the payload
sub-buffer and the Ethernet dissector. Returns the number of bytes consumed,
`0` for "not one of our packets". The two `guint32` lengths reach the `gint`
parameters of `tvb_new_subset_length_caplen` through C's implicit conversion. -/
def dissect_e100 (reg : Registry) (tvb : tvbuff_t) (tree : proto_tree) : Dissect Nat :=
  if tvb_captured_length tvb < e100_encap_len then pure 0 else do
  let ver ← Dissect.lift (tvb_get_guint8 tvb e100_header_ver.offset)
  if ver ≠ 1 then pure 0 else do
  let cap ← Dissect.lift (tvb_get_ntohl tvb e100_bytes_cap.offset)
  if cap ≠ guint_sub (tvb_reported_length tvb) e100_encap_len then pure 0 else do
  Dissect.emit (Event.col_set_str Column.COL_PROTOCOL "e100")
  Dissect.emit (Event.col_set_str Column.COL_INFO "E100 Encapsulated Packet")
  let ti ← proto_tree_add_item tree Hf.proto_e100 tvb 0 e100_encap_len Encoding.ENC_NA
  let e100_tree := proto_item_add_subtree ti Ett.ett_e100
  let _ ← proto_tree_add_item e100_tree Hf.hf_e100_header tvb
    e100_header_ver.offset e100_header_ver.len Encoding.ENC_BIG_ENDIAN
  let _ ← proto_tree_add_item e100_tree Hf.hf_e100_port tvb
    e100_port_recv.offset e100_port_recv.len Encoding.ENC_BIG_ENDIAN
  let _ ← proto_tree_add_item e100_tree Hf.hf_e100_seq tvb
    e100_seq.offset e100_seq.len Encoding.ENC_BIG_ENDIAN
  let _ ← proto_tree_add_item e100_tree Hf.hf_e100_ip tvb
    e100_ip.offset e100_ip.len Encoding.ENC_BIG_ENDIAN
  let _ ← proto_tree_add_item e100_tree Hf.hf_e100_mon_pkt_id tvb
    e100_mon_pkt_id.offset e100_mon_pkt_id.len Encoding.ENC_BIG_ENDIAN
  let _ ← proto_tree_add_item e100_tree Hf.hf_e100_pkt_ts tvb
    e100_ts.offset e100_ts.len Encoding.ENC_TIME_SECS_USECS_BIG_ENDIAN
  let bytes_captured ← proto_tree_add_item_ret_uint e100_tree Hf.hf_e100_bytes_cap tvb
    e100_bytes_cap.offset e100_bytes_cap.len Encoding.ENC_BIG_ENDIAN
  let bytes_original ← proto_tree_add_item_ret_uint e100_tree Hf.hf_e100_bytes_orig tvb
    e100_bytes_orig.offset e100_bytes_orig.len Encoding.ENC_BIG_ENDIAN
  let next_tvb ← Dissect.lift
    (tvb_new_subset_length_caplen tvb e100_encap_len (guint32_to_gint bytes_captured)
      (guint32_to_gint bytes_original))
  call_dissector reg.eth_handle next_tvb tree
  pure (tvb_captured_length tvb)

/-- The function `dissect_e100_heur`. -/
def dissect_e100_heur (reg : Registry) (tvb : tvbuff_t) (tree : proto_tree) : Dissect Bool := do
  let r ← dissect_e100 reg tvb tree
  pure (decide (r > 0))

/-! ## packet-interlink.c -/

/-- The function `dissect_interlink`. -/
def dissect_interlink (reg : Registry) (tvb : tvbuff_t) (tree : proto_tree) : Dissect Nat := do
  let mut offset := 0
  Dissect.emit (Event.col_set_str Column.COL_PROTOCOL "INTERLINK")
  Dissect.emit (Event.col_clear Column.COL_INFO)
  let il_item ← proto_tree_add_item tree Hf.proto_interlink tvb 0 16 Encoding.ENC_NA
  let il_tree := proto_item_add_subtree il_item Ett.ett_interlink
  let ilh_tree ← proto_tree_add_subtree il_tree 0 12 Ett.ett_interlink_header "Interlink Header"
  if ilh_tree.isSome then
    let _ ← proto_tree_add_item ilh_tree Hf.hf_interlink_id tvb offset 4 Encoding.ENC_ASCII
    offset := offset + 4
    let _ ← proto_tree_add_item ilh_tree Hf.hf_interlink_version tvb offset 2
      Encoding.ENC_LITTLE_ENDIAN
    offset := offset + 2
    let _ ← proto_tree_add_item ilh_tree Hf.hf_interlink_cmd tvb offset 2
      Encoding.ENC_LITTLE_ENDIAN
    offset := offset + 2
    let _ ← proto_tree_add_item ilh_tree Hf.hf_interlink_seq tvb offset 2
      Encoding.ENC_LITTLE_ENDIAN
    offset := offset + 2
  else
    offset := offset + 10
  if ilh_tree.isSome then
    let flags := [Hf.hf_interlink_flags_req_ack, Hf.hf_interlink_flags_inc_ack_port]
    proto_tree_add_bitmask ilh_tree tvb offset Hf.hf_interlink_flags Ett.ett_interlink_flags
      flags Encoding.ENC_LITTLE_ENDIAN
  offset := offset + 2
  let ilb_tree ← proto_tree_add_subtree il_tree offset 4 Ett.ett_interlink_block "Block Header"
  let ilb_type ← Dissect.lift (tvb_get_guint8 tvb offset)
  let ilb_version ← Dissect.lift (tvb_get_guint8 tvb (offset + 1))
  let type_version := (ilb_type <<< 8 ||| ilb_version) % 2 ^ 16
  Dissect.emit (Event.col_append_fstr Column.COL_INFO "Type: %d, Version: %d"
    [ilb_type, ilb_version])
  if ilb_tree.isSome then
    let _ ← proto_tree_add_item ilb_tree Hf.hf_interlink_block_type tvb offset 1
      Encoding.ENC_BIG_ENDIAN
    offset := offset + 1
    let _ ← proto_tree_add_item ilb_tree Hf.hf_interlink_block_version tvb offset 1
      Encoding.ENC_BIG_ENDIAN
    offset := offset + 1
    let _ ← proto_tree_add_item ilb_tree Hf.hf_interlink_block_length tvb offset 2
      Encoding.ENC_LITTLE_ENDIAN
    offset := offset + 2
  else
    offset := offset + 4
  let next_tvb ← Dissect.lift (tvb_new_subset_remaining tvb offset)
  let mut handle := dissector_get_uint_handle reg.subdissector_table type_version
  if handle = Option.none then handle := reg.data_handle
  call_dissector handle next_tvb tree
  pure (tvb_captured_length tvb)

/-- The function `dissect_interlink_heur`. -/
def dissect_interlink_heur (reg : Registry) (tvb : tvbuff_t) (tree : proto_tree) :
    Dissect Bool :=
  if !tvb_bytes_exist tvb 0 4 then pure false else do
  let b0 ← Dissect.lift (tvb_get_guint8 tvb 0)
  if b0 ≠ 'I'.toNat then pure false else do
  let b1 ← Dissect.lift (tvb_get_guint8 tvb 1)
  if b1 ≠ 'L'.toNat then pure false else do
  let b2 ← Dissect.lift (tvb_get_guint8 tvb 2)
  if b2 ≠ 'N'.toNat then pure false else do
  let b3 ← Dissect.lift (tvb_get_guint8 tvb 3)
  if b3 ≠ 'K'.toNat then pure false else do
  let _ ← dissect_interlink reg tvb tree
  pure true

/-! ## Vocabulary of the statements -/

/-- The byte at index `i` of the captured data, as a number (`0` beyond the
end). -/
def byte_at (tvb : tvbuff_t) (i : Nat) : Nat := (tvb.data.getD i 0).val

/-- The big-endian 16-bit value at offset `i`, written out byte by byte. -/
def be16_at (tvb : tvbuff_t) (i : Nat) : Nat :=
  byte_at tvb i * 256 + byte_at tvb (i + 1)

/-- The big-endian 32-bit value at offset `i`, written out byte by byte. -/
def be32_at (tvb : tvbuff_t) (i : Nat) : Nat :=
  byte_at tvb i * 2 ^ 24 + byte_at tvb (i + 1) * 2 ^ 16 + byte_at tvb (i + 2) * 2 ^ 8
    + byte_at tvb (i + 3)

/-- The little-endian 16-bit value at offset `i`, written out byte by byte. -/
def le16_at (tvb : tvbuff_t) (i : Nat) : Nat :=
  byte_at tvb i + byte_at tvb (i + 1) * 256

/-- A buffer as the capture layer hands it over (spec section 6): the captured
length never exceeds the reported length, and lengths are `guint` values. -/
def tvb_wf (tvb : tvbuff_t) : Prop :=
  tvb_captured_length tvb ≤ tvb_reported_length tvb ∧ tvb_reported_length tvb < 2 ^ 32

instance (tvb : tvbuff_t) : Decidable (tvb_wf tvb) := by
  unfold tvb_wf
  infer_instance

/-- The three checks of the FixedCaptureEnvelope matcher in the words of spec
section 4.3: at least 28 captured bytes, byte 0 equal to 1, and the big-endian
32-bit value at offset 20 equal to the reported length minus 28. -/
def e100_matcher (tvb : tvbuff_t) : Prop :=
  28 ≤ tvb_captured_length tvb ∧ byte_at tvb 0 = 1 ∧
    be32_at tvb 20 = tvb_reported_length tvb - 28

instance (tvb : tvbuff_t) : Decidable (e100_matcher tvb) := by
  unfold e100_matcher
  infer_instance

/-- The checks of the FramedEnvelope matcher in the words of spec section 4.3:
four bytes are available and they spell "ILNK". -/
def interlink_matcher (tvb : tvbuff_t) : Prop :=
  4 ≤ tvb_captured_length tvb ∧ byte_at tvb 0 = 73 ∧ byte_at tvb 1 = 76 ∧
    byte_at tvb 2 = 78 ∧ byte_at tvb 3 = 75

instance (tvb : tvbuff_t) : Decidable (interlink_matcher tvb) := by
  unfold interlink_matcher
  infer_instance

/-- The low eight bits of a number as a byte. -/
def low_byte (n : Nat) : guint8 := ⟨n % 256, Nat.mod_lt n (by decide)⟩

/-- The 28-byte FixedCaptureEnvelope header in the words of spec sections 3 and
6: version 1 at offset 0, port at 1, sequence at 2 (2 bytes), IPv4 address at 4,
monitor id at 8, seconds at 12, microseconds at 16, bytes captured at 20, bytes
original at 24, all big-endian. -/
def spec_e100_header (port seq : Nat) (ip0 ip1 ip2 ip3 : guint8)
    (mon secs usecs cap orig : Nat) : List guint8 :=
  [ low_byte 1, low_byte port,
    low_byte (seq / 2 ^ 8), low_byte seq,
    ip0, ip1, ip2, ip3,
    low_byte (mon / 2 ^ 24), low_byte (mon / 2 ^ 16), low_byte (mon / 2 ^ 8), low_byte mon,
    low_byte (secs / 2 ^ 24), low_byte (secs / 2 ^ 16), low_byte (secs / 2 ^ 8), low_byte secs,
    low_byte (usecs / 2 ^ 24), low_byte (usecs / 2 ^ 16), low_byte (usecs / 2 ^ 8),
    low_byte usecs,
    low_byte (cap / 2 ^ 24), low_byte (cap / 2 ^ 16), low_byte (cap / 2 ^ 8), low_byte cap,
    low_byte (orig / 2 ^ 24), low_byte (orig / 2 ^ 16), low_byte (orig / 2 ^ 8), low_byte orig ]

/-- The items `dissect_e100` adds to a present tree for the header. -/
def e100_header_items (tvb : tvbuff_t) (t : TreeNode) : List Event :=
  [ Event.item t Hf.proto_e100 0 28 Value.none,
    Event.item (TreeNode.sub Ett.ett_e100) Hf.hf_e100_header 0 1 (Value.uint (byte_at tvb 0)),
    Event.item (TreeNode.sub Ett.ett_e100) Hf.hf_e100_port 1 1 (Value.uint (byte_at tvb 1)),
    Event.item (TreeNode.sub Ett.ett_e100) Hf.hf_e100_seq 2 2 (Value.uint (be16_at tvb 2)),
    Event.item (TreeNode.sub Ett.ett_e100) Hf.hf_e100_ip 4 4
      (Value.ipv4 ((tvb.data.drop 4).take 4)),
    Event.item (TreeNode.sub Ett.ett_e100) Hf.hf_e100_mon_pkt_id 8 4 (Value.uint (be32_at tvb 8)),
    Event.item (TreeNode.sub Ett.ett_e100) Hf.hf_e100_pkt_ts 12 8
      (Value.abstime (be32_at tvb 12) (be32_at tvb 16)),
    Event.item (TreeNode.sub Ett.ett_e100) Hf.hf_e100_bytes_cap 20 4
      (Value.uint (be32_at tvb 20)),
    Event.item (TreeNode.sub Ett.ett_e100) Hf.hf_e100_bytes_orig 24 4
      (Value.uint (be32_at tvb 24)) ]

/-- Everything `dissect_e100` emits before it slices the payload: the two
column writes, then the header items when a tree is present. -/
def e100_header_trace (tvb : tvbuff_t) (tree : proto_tree) : List Event :=
  [ Event.col_set_str Column.COL_PROTOCOL "e100",
    Event.col_set_str Column.COL_INFO "E100 Encapsulated Packet" ] ++
  (match tree with
   | some t => e100_header_items tvb t
   | Option.none => [])

/-- The last three statements of `dissect_e100` on their own: slice the payload
at offset 28 with the two decoded lengths, call the Ethernet dissector, return
the captured length. -/
def e100_payload_stage (reg : Registry) (tvb : tvbuff_t) (tree : proto_tree) : Dissect Nat :=
  Dissect.seq
    (Dissect.lift (tvb_new_subset_length_caplen tvb 28 (guint32_to_gint (be32_at tvb 20))
      (guint32_to_gint (be32_at tvb 24))))
    fun next_tvb => Dissect.seq (call_dissector reg.eth_handle next_tvb tree)
      fun _ => Dissect.ret (tvb_captured_length tvb)

/-- When the payload slice of `dissect_e100` goes through: bytes captured, read
as a signed 32-bit number, is not negative and the window of that length at
offset 28 lies within the captured data, and bytes original, read as a signed
32-bit number, is at least `-1`. -/
def e100_slice_good (tvb : tvbuff_t) : Prop :=
  be32_at tvb 20 < 2 ^ 31 ∧ 28 + be32_at tvb 20 ≤ tvb_captured_length tvb ∧
    (be32_at tvb 24 < 2 ^ 31 ∨ be32_at tvb 24 = 2 ^ 32 - 1)

instance (tvb : tvbuff_t) : Decidable (e100_slice_good tvb) := by
  unfold e100_slice_good
  infer_instance

/-- The reported length of the payload view of `dissect_e100`: bytes original,
and for the bit pattern 0xFFFFFFFF what is left of the buffer's reported length
behind the header. -/
def e100_view_reported (tvb : tvbuff_t) : Nat :=
  if be32_at tvb 24 = 2 ^ 32 - 1 then guint_sub (tvb_reported_length tvb) 28
  else be32_at tvb 24

/-- The payload view of `dissect_e100`: the bytes from offset 28 on, at most
bytes captured of them and at most as many as the view's reported length. -/
def e100_view (tvb : tvbuff_t) : tvbuff_t :=
  ⟨((tvb.data.drop 28).take (be32_at tvb 20)).take (e100_view_reported tvb),
    e100_view_reported tvb⟩

/-- The frame of the round trip of spec section 8: the header of
`spec_e100_header` followed by the payload, with reported length 28 plus bytes
captured. -/
def spec_e100_frame (port seq : Nat) (ip0 ip1 ip2 ip3 : guint8)
    (mon secs usecs cap orig : Nat) (payload : List guint8) : tvbuff_t :=
  ⟨spec_e100_header port seq ip0 ip1 ip2 ip3 mon secs usecs cap orig ++ payload, 28 + cap⟩

/-- What the round trip is to show for the header fields given: the two column
texts and the nine items under the tree node, each with its field, window and
value. -/
def spec_e100_items (t : TreeNode) (port seq : Nat) (ip0 ip1 ip2 ip3 : guint8)
    (mon secs usecs cap orig : Nat) : List Event :=
  [ Event.col_set_str Column.COL_PROTOCOL "e100",
    Event.col_set_str Column.COL_INFO "E100 Encapsulated Packet",
    Event.item t Hf.proto_e100 0 28 Value.none,
    Event.item (TreeNode.sub Ett.ett_e100) Hf.hf_e100_header 0 1 (Value.uint 1),
    Event.item (TreeNode.sub Ett.ett_e100) Hf.hf_e100_port 1 1 (Value.uint port),
    Event.item (TreeNode.sub Ett.ett_e100) Hf.hf_e100_seq 2 2 (Value.uint seq),
    Event.item (TreeNode.sub Ett.ett_e100) Hf.hf_e100_ip 4 4 (Value.ipv4 [ip0, ip1, ip2, ip3]),
    Event.item (TreeNode.sub Ett.ett_e100) Hf.hf_e100_mon_pkt_id 8 4 (Value.uint mon),
    Event.item (TreeNode.sub Ett.ett_e100) Hf.hf_e100_pkt_ts 12 8 (Value.abstime secs usecs),
    Event.item (TreeNode.sub Ett.ett_e100) Hf.hf_e100_bytes_cap 20 4 (Value.uint cap),
    Event.item (TreeNode.sub Ett.ett_e100) Hf.hf_e100_bytes_orig 24 4 (Value.uint orig) ]

/-- The reported length of the payload view for bytes captured `cap` and bytes
original `orig` on a frame of reported length `28 + cap`: `orig`, and for the
bit pattern 0xFFFFFFFF what the frame reports behind its header, `cap`. -/
def spec_view_reported (cap orig : Nat) : Nat :=
  if orig = 2 ^ 32 - 1 then cap else orig

/-- The dispatch key as `dissect_interlink` computes it from the block type at
offset 12 and the block version at offset 13, stored in a `guint16`. -/
def interlink_key (tvb : tvbuff_t) : Nat :=
  (byte_at tvb 12 <<< 8 ||| byte_at tvb 13) % 2 ^ 16

/-- Handler resolution as in `dissect_interlink`: the table entry of the key,
and `data_handle` when the table has none. -/
def interlink_resolve (reg : Registry) (key : Nat) : dissector_handle_t :=
  match dissector_get_uint_handle reg.subdissector_table key with
  | some h => some h
  | Option.none => reg.data_handle

/-- The items `dissect_interlink` adds to a present tree, with the column text
between them in program order. -/
def interlink_header_items (tvb : tvbuff_t) (t : TreeNode) : List Event :=
  [ Event.item t Hf.proto_interlink 0 16 Value.none,
    Event.subtree (TreeNode.sub Ett.ett_interlink) Ett.ett_interlink_header 0 12
      "Interlink Header",
    Event.item (TreeNode.sub Ett.ett_interlink_header) Hf.hf_interlink_id 0 4
      (Value.string (tvb.data.take 4)),
    Event.item (TreeNode.sub Ett.ett_interlink_header) Hf.hf_interlink_version 4 2
      (Value.uint (le16_at tvb 4)),
    Event.item (TreeNode.sub Ett.ett_interlink_header) Hf.hf_interlink_cmd 6 2
      (Value.uint (le16_at tvb 6)),
    Event.item (TreeNode.sub Ett.ett_interlink_header) Hf.hf_interlink_seq 8 2
      (Value.uint (le16_at tvb 8)),
    Event.item (TreeNode.sub Ett.ett_interlink_header) Hf.hf_interlink_flags 10 2
      (Value.uint (le16_at tvb 10)),
    Event.subtree (TreeNode.sub Ett.ett_interlink_header) Ett.ett_interlink_flags 10 2 "",
    Event.item (TreeNode.sub Ett.ett_interlink_flags) Hf.hf_interlink_flags_req_ack 10 2
      (Value.boolean (decide (le16_at tvb 10 &&& 0x0001 ≠ 0))),
    Event.item (TreeNode.sub Ett.ett_interlink_flags) Hf.hf_interlink_flags_inc_ack_port 10 2
      (Value.boolean (decide (le16_at tvb 10 &&& 0x0002 ≠ 0))),
    Event.subtree (TreeNode.sub Ett.ett_interlink) Ett.ett_interlink_block 12 4 "Block Header",
    Event.col_append_fstr Column.COL_INFO "Type: %d, Version: %d"
      [byte_at tvb 12, byte_at tvb 13],
    Event.item (TreeNode.sub Ett.ett_interlink_block) Hf.hf_interlink_block_type 12 1
      (Value.uint (byte_at tvb 12)),
    Event.item (TreeNode.sub Ett.ett_interlink_block) Hf.hf_interlink_block_version 13 1
      (Value.uint (byte_at tvb 13)),
    Event.item (TreeNode.sub Ett.ett_interlink_block) Hf.hf_interlink_block_length 14 2
      (Value.uint (le16_at tvb 14)) ]

/-- Everything `dissect_interlink` emits before it slices the payload. -/
def interlink_header_trace (tvb : tvbuff_t) (tree : proto_tree) : List Event :=
  [ Event.col_set_str Column.COL_PROTOCOL "INTERLINK",
    Event.col_clear Column.COL_INFO ] ++
  (match tree with
   | some t => interlink_header_items tvb t
   | Option.none =>
     [ Event.col_append_fstr Column.COL_INFO "Type: %d, Version: %d"
         [byte_at tvb 12, byte_at tvb 13] ])

/-- The last statements of `dissect_interlink` on their own: slice the rest of
the buffer at offset 16, resolve the handler, call it, return the captured
length. -/
def interlink_payload_stage (reg : Registry) (tvb : tvbuff_t) (tree : proto_tree) :
    Dissect Nat :=
  Dissect.seq (Dissect.lift (tvb_new_subset_remaining tvb 16))
    fun next_tvb =>
      Dissect.seq (call_dissector (interlink_resolve reg (interlink_key tvb)) next_tvb tree)
        fun _ => Dissect.ret (tvb_captured_length tvb)

/-- The buffer with the bytes from offset `off` on overwritten by `bs`; the
lengths stay as they are. -/
def tvb_patch (tvb : tvbuff_t) (off : Nat) (bs : List guint8) : tvbuff_t :=
  ⟨tvb.data.take off ++ bs ++ tvb.data.drop (off + bs.length), tvb.reported_length⟩

/-- Whether an event is a call of the next dissector. -/
def Event.isCall : Event → Bool
  | .call _ _ _ => true
  | _ => false

/-- The frame of the spec's example (section 8): magic "ILNK", version 3,
command 1, sequence 7, flags 0x0003, block type 5, block version 2, a block
length, then the payload 0xAA 0xBB. -/
def spec_interlink_example (len0 len1 : guint8) : tvbuff_t :=
  ⟨[73, 76, 78, 75, 3, 0, 1, 0, 7, 0, 3, 0, 5, 2, len0, len1, 0xAA, 0xBB], 18⟩

/-- The condition of the `if` at the head of `dissect_e100` on its own, with the
short circuit of `||`: true means "not one of our packets". -/
def e100_heuristic_test (tvb : tvbuff_t) : Except Exn Bool :=
  if tvb_captured_length tvb < e100_encap_len then .ok true else do
  let ver ← tvb_get_guint8 tvb e100_header_ver.offset
  if ver ≠ 1 then .ok true else do
  let cap ← tvb_get_ntohl tvb e100_bytes_cap.offset
  pure (decide (cap ≠ guint_sub (tvb_reported_length tvb) e100_encap_len))

/-- The three checks of `dissect_e100` with the two value checks swapped: the
length check, then the size check, then the version check. -/
def e100_heuristic_test_values_swapped (tvb : tvbuff_t) : Except Exn Bool :=
  if tvb_captured_length tvb < e100_encap_len then .ok true else do
  let cap ← tvb_get_ntohl tvb e100_bytes_cap.offset
  if cap ≠ guint_sub (tvb_reported_length tvb) e100_encap_len then .ok true else do
  let ver ← tvb_get_guint8 tvb e100_header_ver.offset
  pure (decide (ver ≠ 1))

/-- The three checks of `dissect_e100` with the version check put before the
length check. -/
def e100_heuristic_test_read_first (tvb : tvbuff_t) : Except Exn Bool := do
  let ver ← tvb_get_guint8 tvb e100_header_ver.offset
  if ver ≠ 1 then .ok true else
  if tvb_captured_length tvb < e100_encap_len then .ok true else do
  let cap ← tvb_get_ntohl tvb e100_bytes_cap.offset
  pure (decide (cap ≠ guint_sub (tvb_reported_length tvb) e100_encap_len))

/-- The two tests at the head of `dissect_interlink_heur` on their own, with the
short circuit of `||`: true means that the function returns false. -/
def interlink_heuristic_test (tvb : tvbuff_t) : Except Exn Bool :=
  if !tvb_bytes_exist tvb 0 4 then .ok true else do
  let b0 ← tvb_get_guint8 tvb 0
  if b0 ≠ 'I'.toNat then .ok true else do
  let b1 ← tvb_get_guint8 tvb 1
  if b1 ≠ 'L'.toNat then .ok true else do
  let b2 ← tvb_get_guint8 tvb 2
  if b2 ≠ 'N'.toNat then .ok true else do
  let b3 ← tvb_get_guint8 tvb 3
  pure (decide (b3 ≠ 'K'.toNat))

/-- The field and window of a tree item; nothing for any other event. -/
def Event.window : Event → Option (Hf × Nat × Nat)
  | .item _ hf start length _ => some (hf, start, length)
  | _ => Option.none

/-- The handler and view of a call of the next dissector; nothing for any other
event. -/
def Event.callTarget : Event → Option (Nat × tvbuff_t)
  | .call handle tvb _ => some (handle, tvb)
  | _ => Option.none

/-- The descriptors of the E100 schema in the order of their declaration. -/
def e100_schema : List e100_encap :=
  [e100_header_ver, e100_port_recv, e100_seq, e100_ip, e100_mon_pkt_id, e100_ts,
    e100_bytes_cap, e100_bytes_orig]

/-- The eight fields of the Interlink header and block header. -/
def interlink_fields : List Hf :=
  [Hf.hf_interlink_id, Hf.hf_interlink_version, Hf.hf_interlink_cmd, Hf.hf_interlink_seq,
    Hf.hf_interlink_flags, Hf.hf_interlink_block_type, Hf.hf_interlink_block_version,
    Hf.hf_interlink_block_length]

/-- The windows of those items of a sink that belong to the given fields. -/
def field_windows (fields : List Hf) (sink : List Event) : List (Nat × Nat) :=
  ((sink.filterMap Event.window).filter fun w => fields.contains w.1).map fun w => w.2

namespace Dissect

/-- Put already emitted events in front of a run. -/
def prepend {α : Type} (s : List Event) (m : Dissect α) : Dissect α :=
  ⟨s ++ m.sink, m.result⟩

end Dissect

/-! ## The dissection monad, lemmas -/

namespace Dissect

theorem bind_eq {α β : Type} (m : Dissect α) (f : α → Dissect β) :
    (m >>= f) = Dissect.seq m f := rfl

theorem pure_eq {α : Type} (a : α) : (pure a : Dissect α) = Dissect.ret a := rfl

theorem seq_mk_ok {α β : Type} (s : List Event) (a : α) (f : α → Dissect β) :
    Dissect.seq ⟨s, .ok a⟩ f = prepend s (f a) := rfl

theorem seq_mk_error {α β : Type} (s : List Event) (e : Exn) (f : α → Dissect β) :
    Dissect.seq (⟨s, .error e⟩ : Dissect α) f = ⟨s, .error e⟩ := rfl

theorem seq_ret {α β : Type} (a : α) (f : α → Dissect β) :
    Dissect.seq (ret a) f = f a := by
  simp [ret, seq]

theorem seq_emit {β : Type} (e : Event) (f : Unit → Dissect β) :
    Dissect.seq (emit e) f = prepend [e] (f ()) := rfl

theorem seq_lift_ok {α β : Type} (a : α) (f : α → Dissect β) :
    Dissect.seq (lift (.ok a)) f = f a := by
  simp [lift, seq]

theorem seq_lift_error {α β : Type} (e : Exn) (f : α → Dissect β) :
    Dissect.seq (lift (.error e : Except Exn α)) f = ⟨[], .error e⟩ := rfl

theorem seq_prepend {α β : Type} (s : List Event) (m : Dissect α) (f : α → Dissect β) :
    Dissect.seq (prepend s m) f = prepend s (Dissect.seq m f) := by
  obtain ⟨ms, mr⟩ := m
  cases mr <;> simp [prepend, seq]

theorem prepend_prepend {α : Type} (s s' : List Event) (m : Dissect α) :
    prepend s (prepend s' m) = prepend (s ++ s') m := by
  simp [prepend]

theorem prepend_mk {α : Type} (s s' : List Event) (r : Except Exn α) :
    prepend s ⟨s', r⟩ = ⟨s ++ s', r⟩ := rfl

theorem prepend_ret {α : Type} (s : List Event) (a : α) :
    prepend s (ret a) = ⟨s, .ok a⟩ := by simp [prepend, ret]

end Dissect

/-! ## Buffer reads, lemmas -/

theorem take_drop_succ {α : Type} (d : α) (l : List α) (i n : Nat) (h : i < l.length) :
    (l.drop i).take (n + 1) = l.getD i d :: (l.drop (i + 1)).take n := by
  rw [List.drop_eq_getElem_cons h, List.take_succ_cons, List.getD_eq_getElem l d h]

theorem tvb_get_bytes_ok (tvb : tvbuff_t) (off len : Nat) (h : off + len ≤ tvb.data.length) :
    tvb_get_bytes tvb off len = .ok ((tvb.data.drop off).take len) := by
  simp [tvb_get_bytes, tvb_bytes_exist, tvb_captured_length, h]

theorem tvb_get_bytes_error (tvb : tvbuff_t) (off len : Nat) (h : tvb.data.length < off + len) :
    tvb_get_bytes tvb off len = .error Exn.OutOfBounds := by
  simp [tvb_get_bytes, tvb_bytes_exist, tvb_captured_length, h]

theorem be_uint_window1 (tvb : tvbuff_t) (i : Nat) (h : i + 1 ≤ tvb.data.length) :
    be_uint ((tvb.data.drop i).take 1) = byte_at tvb i := by
  rw [take_drop_succ 0 _ _ _ (by omega)]
  simp [be_uint, byte_at]

theorem be_uint_window2 (tvb : tvbuff_t) (i : Nat) (h : i + 2 ≤ tvb.data.length) :
    be_uint ((tvb.data.drop i).take 2) = be16_at tvb i := by
  rw [take_drop_succ 0 _ _ _ (by omega), take_drop_succ 0 _ _ _ (by omega)]
  simp [be_uint, be16_at, byte_at]

theorem be_uint_window4 (tvb : tvbuff_t) (i : Nat) (h : i + 4 ≤ tvb.data.length) :
    be_uint ((tvb.data.drop i).take 4) = be32_at tvb i := by
  rw [take_drop_succ 0 _ _ _ (by omega), take_drop_succ 0 _ _ _ (by omega),
    take_drop_succ 0 _ _ _ (by omega), take_drop_succ 0 _ _ _ (by omega)]
  simp [be_uint, be32_at, byte_at]
  ring

theorem le_uint_window2 (tvb : tvbuff_t) (i : Nat) (h : i + 2 ≤ tvb.data.length) :
    le_uint ((tvb.data.drop i).take 2) = le16_at tvb i := by
  rw [take_drop_succ 0 _ _ _ (by omega), take_drop_succ 0 _ _ _ (by omega)]
  simp [le_uint, be_uint, le16_at, byte_at]
  ring

theorem tvb_get_guint8_ok (tvb : tvbuff_t) (i : Nat) (h : i + 1 ≤ tvb.data.length) :
    tvb_get_guint8 tvb i = .ok (byte_at tvb i) := by
  simp [tvb_get_guint8, tvb_get_bytes_ok tvb i 1 h, Except.map, be_uint_window1 tvb i h]

theorem tvb_get_ntohl_ok (tvb : tvbuff_t) (i : Nat) (h : i + 4 ≤ tvb.data.length) :
    tvb_get_ntohl tvb i = .ok (be32_at tvb i) := by
  simp [tvb_get_ntohl, tvb_get_bytes_ok tvb i 4 h, Except.map, be_uint_window4 tvb i h]

theorem byte_at_lt (tvb : tvbuff_t) (i : Nat) : byte_at tvb i < 256 := by
  simp [byte_at]

theorem be32_at_lt (tvb : tvbuff_t) (i : Nat) : be32_at tvb i < 2 ^ 32 := by
  have h0 := byte_at_lt tvb i
  have h1 := byte_at_lt tvb (i + 1)
  have h2 := byte_at_lt tvb (i + 2)
  have h3 := byte_at_lt tvb (i + 3)
  unfold be32_at
  omega

theorem guint_sub_eq (a b : Nat) (hb : b ≤ a) (ha : a < 2 ^ 32) : guint_sub a b = a - b := by
  unfold guint_sub
  omega

/-! ## packet-e100.c, lemmas -/

theorem dissect_e100_reject_short (reg : Registry) (tvb : tvbuff_t) (tree : proto_tree)
    (h : tvb.data.length < 28) : dissect_e100 reg tvb tree = ⟨[], .ok 0⟩ := by
  simp [dissect_e100, tvb_captured_length, e100_encap_len, h, Dissect.pure_eq, Dissect.ret]

theorem dissect_e100_reject_version (reg : Registry) (tvb : tvbuff_t) (tree : proto_tree)
    (h : 28 ≤ tvb.data.length) (h0 : byte_at tvb 0 ≠ 1) :
    dissect_e100 reg tvb tree = ⟨[], .ok 0⟩ := by
  have hlt : ¬ tvb.data.length < 28 := by omega
  simp [dissect_e100, tvb_captured_length, e100_encap_len, hlt, Dissect.pure_eq, Dissect.ret,
    Dissect.bind_eq, e100_header_ver, tvb_get_guint8_ok tvb 0 (by omega), Dissect.seq_lift_ok, h0]

theorem dissect_e100_reject_size (reg : Registry) (tvb : tvbuff_t) (tree : proto_tree)
    (h : 28 ≤ tvb.data.length) (h0 : byte_at tvb 0 = 1)
    (hc : be32_at tvb 20 ≠ guint_sub tvb.reported_length 28) :
    dissect_e100 reg tvb tree = ⟨[], .ok 0⟩ := by
  have hlt : ¬ tvb.data.length < 28 := by omega
  simp [dissect_e100, tvb_captured_length, e100_encap_len, hlt, Dissect.pure_eq, Dissect.ret,
    Dissect.bind_eq, e100_header_ver, tvb_get_guint8_ok tvb 0 (by omega), Dissect.seq_lift_ok, h0,
    e100_bytes_cap, tvb_get_ntohl_ok tvb 20 (by omega), tvb_reported_length, hc]

theorem ts_halves (tvb : tvbuff_t) (h : 28 ≤ tvb.data.length) :
    be_uint (((tvb.data.drop 12).take 8).take 4) = be32_at tvb 12 ∧
    be_uint (((tvb.data.drop 12).take 8).drop 4) = be32_at tvb 16 := by
  constructor
  · rw [List.take_take]
    simpa using be_uint_window4 tvb 12 (by omega)
  · rw [List.drop_take, List.drop_drop]
    simpa using be_uint_window4 tvb 16 (by omega)

/-- Past the heuristic test `dissect_e100` is the header trace followed by the
payload stage. -/
theorem dissect_e100_accept (reg : Registry) (tvb : tvbuff_t) (tree : proto_tree)
    (h : 28 ≤ tvb.data.length) (h0 : byte_at tvb 0 = 1)
    (hc : be32_at tvb 20 = guint_sub tvb.reported_length 28) :
    dissect_e100 reg tvb tree =
      Dissect.prepend (e100_header_trace tvb tree) (e100_payload_stage reg tvb tree) := by
  have hlt : ¬ tvb.data.length < 28 := by omega
  have hts := ts_halves tvb h
  have w0 : be_uint (List.take 1 tvb.data) = byte_at tvb 0 := by
    simpa using be_uint_window1 tvb 0 (by omega)
  have w1 : be_uint (List.take 1 tvb.data.tail) = byte_at tvb 1 := by
    simpa using be_uint_window1 tvb 1 (by omega)
  cases tree with
  | none =>
    simp [dissect_e100, tvb_captured_length, e100_encap_len, hlt, Dissect.pure_eq,
      Dissect.bind_eq, e100_header_ver, tvb_get_guint8_ok tvb 0 (by omega), Dissect.seq_lift_ok, h0,
      e100_bytes_cap, tvb_get_ntohl_ok tvb 20 (by omega), tvb_reported_length, hc.symm,
      Dissect.seq_emit, proto_tree_add_item, hf_type, proto_item_add_subtree, Dissect.seq_ret,
      decode, Except.map, e100_port_recv, e100_seq, e100_ip, e100_mon_pkt_id, e100_ts,
      e100_bytes_orig, proto_tree_add_item_ret_uint,
      tvb_get_bytes_ok tvb 0 1 (by omega), tvb_get_bytes_ok tvb 1 1 (by omega),
      tvb_get_bytes_ok tvb 2 2 (by omega), tvb_get_bytes_ok tvb 4 4 (by omega),
      tvb_get_bytes_ok tvb 8 4 (by omega), tvb_get_bytes_ok tvb 12 8 (by omega),
      tvb_get_bytes_ok tvb 20 4 (by omega), tvb_get_bytes_ok tvb 24 4 (by omega),
      be_uint_window4 tvb 20 (by omega), be_uint_window4 tvb 24 (by omega), Value.toUInt,
      e100_header_trace, e100_payload_stage, Dissect.prepend_prepend]
  | some t =>
    simp [dissect_e100, tvb_captured_length, e100_encap_len, hlt, Dissect.pure_eq,
      Dissect.bind_eq, e100_header_ver, tvb_get_guint8_ok tvb 0 (by omega), Dissect.seq_lift_ok, h0,
      e100_bytes_cap, tvb_get_ntohl_ok tvb 20 (by omega), tvb_reported_length, hc.symm,
      Dissect.seq_emit, proto_tree_add_item, hf_type, proto_item_add_subtree, Dissect.seq_ret,
      decode, Except.map, e100_port_recv, e100_seq, e100_ip, e100_mon_pkt_id, e100_ts,
      e100_bytes_orig, proto_tree_add_item_ret_uint,
      tvb_get_bytes_ok tvb 0 1 (by omega), tvb_get_bytes_ok tvb 1 1 (by omega),
      tvb_get_bytes_ok tvb 2 2 (by omega), tvb_get_bytes_ok tvb 4 4 (by omega),
      tvb_get_bytes_ok tvb 8 4 (by omega), tvb_get_bytes_ok tvb 12 8 (by omega),
      tvb_get_bytes_ok tvb 20 4 (by omega), tvb_get_bytes_ok tvb 24 4 (by omega),
      be_uint_window1 tvb 0 (by omega), be_uint_window1 tvb 1 (by omega),
      be_uint_window2 tvb 2 (by omega), be_uint_window4 tvb 8 (by omega),
      be_uint_window4 tvb 20 (by omega), be_uint_window4 tvb 24 (by omega), Value.toUInt,
      e100_header_trace, e100_header_items, e100_payload_stage, Dissect.prepend_prepend,
      hts.1, hts.2, Dissect.seq_prepend, w0, w1]

theorem guint32_to_gint_small (n : Nat) (h : n < 2 ^ 31) : guint32_to_gint n = (n : Int) := by
  have h1 : n % 2 ^ 32 = n := Nat.mod_eq_of_lt (by omega)
  simp only [guint32_to_gint, h1]
  rw [if_pos h]

theorem guint32_to_gint_minus_one : guint32_to_gint (2 ^ 32 - 1) = -1 := by
  decide

theorem guint32_to_gint_neg (n : Nat) (h1 : 2 ^ 31 ≤ n) (h2 : n < 2 ^ 32 - 1) :
    guint32_to_gint n < -1 := by
  have h3 : n % 2 ^ 32 = n := Nat.mod_eq_of_lt (by omega)
  have h4 : ¬ n < 2 ^ 31 := by omega
  simp only [guint32_to_gint, h3]
  rw [if_neg h4]
  omega

/-- The slice with both lengths given and the window within the captured
data. -/
theorem tvb_new_subset_length_caplen_ok (tvb : tvbuff_t) (off bl rl : Nat)
    (h : off + bl ≤ tvb.data.length) :
    tvb_new_subset_length_caplen tvb off (bl : Int) (rl : Int) =
      .ok ⟨((tvb.data.drop off).take bl).take rl, rl⟩ := by
  have h1 : ¬ ((rl : Int) < -1) := by omega
  have h2 : ¬ ((bl : Int) < -1) := by omega
  have h3 : ¬ ((rl : Int) = -1) := by omega
  have h4 : ¬ ((bl : Int) = -1) := by omega
  simp only [tvb_new_subset_length_caplen, subset_reported_length, if_neg h1, if_neg h2,
    if_neg h3, if_neg h4, Int.toNat_ofNat, tvb_get_bytes_ok tvb off bl h, Except.map]

/-- The slice with the length given and the reported length left to the
parent. -/
theorem tvb_new_subset_length_caplen_ok_rest (tvb : tvbuff_t) (off bl : Nat)
    (h : off + bl ≤ tvb.data.length) :
    tvb_new_subset_length_caplen tvb off (bl : Int) (-1) =
      .ok ⟨((tvb.data.drop off).take bl).take (guint_sub tvb.reported_length off),
        guint_sub tvb.reported_length off⟩ := by
  have h1 : ¬ ((-1 : Int) < -1) := by omega
  have h2 : ¬ ((bl : Int) < -1) := by omega
  have h4 : ¬ ((bl : Int) = -1) := by omega
  simp only [tvb_new_subset_length_caplen, subset_reported_length, if_neg h1, if_neg h2,
    if_neg h4, if_true, Int.toNat_ofNat, tvb_get_bytes_ok tvb off bl h, Except.map,
    tvb_reported_length]

/-- The slice with a window that runs past the captured data. -/
theorem tvb_new_subset_length_caplen_oob (tvb : tvbuff_t) (off bl : Nat) (rl : Int)
    (h : tvb.data.length < off + bl) :
    tvb_new_subset_length_caplen tvb off (bl : Int) rl = .error Exn.OutOfBounds := by
  have h2 : ¬ ((bl : Int) < -1) := by omega
  have h4 : ¬ ((bl : Int) = -1) := by omega
  by_cases h1 : rl < -1
  · simp only [tvb_new_subset_length_caplen, if_pos h1]
  · simp only [tvb_new_subset_length_caplen, if_neg h1, if_neg h2, if_neg h4, Int.toNat_ofNat,
      tvb_get_bytes_error tvb off bl h, Except.map]

/-- The slice with a reported length below `-1`. -/
theorem tvb_new_subset_length_caplen_bad_reported (tvb : tvbuff_t) (off : Nat) (bl rl : Int)
    (h : rl < -1) : tvb_new_subset_length_caplen tvb off bl rl = .error Exn.OutOfBounds := by
  simp only [tvb_new_subset_length_caplen, if_pos h]

/-- The slice with a length below `-1`. -/
theorem tvb_new_subset_length_caplen_bad_length (tvb : tvbuff_t) (off : Nat) (bl rl : Int)
    (h : bl < -1) : tvb_new_subset_length_caplen tvb off bl rl = .error Exn.OutOfBounds := by
  by_cases h1 : rl < -1
  · simp only [tvb_new_subset_length_caplen, if_pos h1]
  · simp only [tvb_new_subset_length_caplen, if_neg h1, if_pos h]

/-- Every view the slice returns has a reported length at least its captured
length. -/
theorem tvb_new_subset_length_caplen_invariant (tvb : tvbuff_t) (off : Nat) (bl rl : Int)
    (v : tvbuff_t) (h : tvb_new_subset_length_caplen tvb off bl rl = .ok v) :
    tvb_captured_length v ≤ tvb_reported_length v := by
  unfold tvb_new_subset_length_caplen at h
  by_cases h1 : rl < -1
  · rw [if_pos h1] at h
    cases h
  · rw [if_neg h1] at h
    by_cases h2 : bl < -1
    · rw [if_pos h2] at h
      cases h
    · rw [if_neg h2] at h
      cases hb : tvb_get_bytes tvb off
          (if bl = -1 then tvb_captured_length tvb - off else bl.toNat) with
      | error e =>
        rw [hb] at h
        cases h
      | ok bs =>
        rw [hb] at h
        simp only [Except.map] at h
        injection h with h
        subst h
        simp only [tvb_captured_length, tvb_reported_length, List.length_take]
        omega

/-- The payload slice of `dissect_e100` when it goes through. -/
theorem e100_slice_ok (tvb : tvbuff_t) (hg : e100_slice_good tvb) :
    tvb_new_subset_length_caplen tvb 28 (guint32_to_gint (be32_at tvb 20))
      (guint32_to_gint (be32_at tvb 24)) = .ok (e100_view tvb) := by
  obtain ⟨hcap, hfit, horig⟩ := hg
  simp only [tvb_captured_length] at hfit
  rw [guint32_to_gint_small _ hcap]
  rcases horig with ho | ho
  · have hne : be32_at tvb 24 ≠ 2 ^ 32 - 1 := by omega
    rw [guint32_to_gint_small _ ho, tvb_new_subset_length_caplen_ok tvb 28 _ _ hfit]
    simp only [e100_view, e100_view_reported, if_neg hne]
  · rw [ho, guint32_to_gint_minus_one, tvb_new_subset_length_caplen_ok_rest tvb 28 _ hfit]
    simp only [e100_view, e100_view_reported, ho, if_true, tvb_reported_length]

/-- The payload slice of `dissect_e100` when it does not go through. -/
theorem e100_slice_raise (tvb : tvbuff_t) (hcap : be32_at tvb 20 < 2 ^ 32 - 1)
    (hg : ¬ e100_slice_good tvb) :
    tvb_new_subset_length_caplen tvb 28 (guint32_to_gint (be32_at tvb 20))
      (guint32_to_gint (be32_at tvb 24)) = .error Exn.OutOfBounds := by
  have h24 := be32_at_lt tvb 24
  by_cases ho : be32_at tvb 24 < 2 ^ 31 ∨ be32_at tvb 24 = 2 ^ 32 - 1
  · by_cases hc : be32_at tvb 20 < 2 ^ 31
    · have hfit : tvb.data.length < 28 + be32_at tvb 20 := by
        by_contra hcon
        exact hg ⟨hc, by simp only [tvb_captured_length]; omega, ho⟩
      rw [guint32_to_gint_small _ hc]
      exact tvb_new_subset_length_caplen_oob tvb 28 _ _ hfit
    · exact tvb_new_subset_length_caplen_bad_length tvb 28 _ _
        (guint32_to_gint_neg _ (by omega) hcap)
  · exact tvb_new_subset_length_caplen_bad_reported tvb 28 _ _
      (guint32_to_gint_neg _ (by omega) (by omega))

/-- The payload stage when the slice goes through and the Ethernet handle is
wired. -/
theorem e100_payload_stage_ok (reg : Registry) (tvb : tvbuff_t) (tree : proto_tree) (eth : Nat)
    (hg : e100_slice_good tvb) (hreg : reg.eth_handle = some eth) :
    e100_payload_stage reg tvb tree =
      ⟨[Event.call eth (e100_view tvb) tree], .ok tvb.data.length⟩ := by
  simp [e100_payload_stage, e100_slice_ok tvb hg, Dissect.seq_lift_ok, hreg, call_dissector,
    Dissect.seq_emit, Dissect.prepend_ret, tvb_captured_length]

/-- The payload stage when the slice does not go through. -/
theorem e100_payload_stage_oob (reg : Registry) (tvb : tvbuff_t) (tree : proto_tree)
    (hcap : be32_at tvb 20 < 2 ^ 32 - 1) (hg : ¬ e100_slice_good tvb) :
    e100_payload_stage reg tvb tree = ⟨[], .error Exn.OutOfBounds⟩ := by
  simp [e100_payload_stage, e100_slice_raise tvb hcap hg, Dissect.seq_lift_error]

/-- The heuristic wrapper in terms of the dissector's outcome. -/
theorem dissect_e100_heur_eq (reg : Registry) (tvb : tvbuff_t) (tree : proto_tree) :
    dissect_e100_heur reg tvb tree =
      Dissect.seq (dissect_e100 reg tvb tree) fun r => Dissect.ret (decide (r > 0)) := rfl

/-- The payload stage when the slice goes through but the Ethernet handle is
NULL. -/
theorem e100_payload_stage_unbound (reg : Registry) (tvb : tvbuff_t) (tree : proto_tree)
    (hg : e100_slice_good tvb) (hreg : reg.eth_handle = Option.none) :
    e100_payload_stage reg tvb tree = ⟨[], .error Exn.UnboundDependency⟩ := by
  simp [e100_payload_stage, e100_slice_ok tvb hg, Dissect.seq_lift_ok, hreg, call_dissector,
    Dissect.seq_lift_error]

/-- The payload stage never returns `0` on a buffer of at least 28 bytes. -/
theorem e100_payload_stage_ne_zero (reg : Registry) (tvb : tvbuff_t) (tree : proto_tree)
    (h : 28 ≤ tvb.data.length) (hcap : be32_at tvb 20 < 2 ^ 32 - 1) :
    (e100_payload_stage reg tvb tree).result ≠ .ok 0 := by
  by_cases hg : e100_slice_good tvb
  · cases hreg : reg.eth_handle with
    | none =>
      rw [e100_payload_stage_unbound reg tvb tree hg hreg]
      simp
    | some eth =>
      rw [e100_payload_stage_ok reg tvb tree eth hg hreg]
      intro hz
      injection hz with hz
      omega
  · rw [e100_payload_stage_oob reg tvb tree hcap hg]
    simp

/-- On a buffer the matcher accepted bytes captured is not 0xFFFFFFFF. -/
theorem e100_matched_cap_lt (tvb : tvbuff_t) (hwf : tvb_wf tvb) (hm : e100_matcher tvb) :
    be32_at tvb 20 < 2 ^ 32 - 1 := by
  obtain ⟨hle, h32⟩ := hwf
  obtain ⟨h28, _, hc⟩ := hm
  simp only [tvb_captured_length, tvb_reported_length] at hle h32 h28 hc
  omega

/-- On a buffer the matcher accepted the slice goes through exactly when the
buffer is not truncated, shorter than `2 ^ 31 + 28` bytes, and bytes original
is at least `-1` as a signed number. -/
theorem e100_slice_good_iff (tvb : tvbuff_t) (hwf : tvb_wf tvb) (hm : e100_matcher tvb) :
    e100_slice_good tvb ↔
      (tvb_captured_length tvb = tvb_reported_length tvb ∧
        tvb_captured_length tvb < 2 ^ 31 + 28 ∧
        (be32_at tvb 24 < 2 ^ 31 ∨ be32_at tvb 24 = 2 ^ 32 - 1)) := by
  obtain ⟨hle, h32⟩ := hwf
  obtain ⟨h28, _, hc⟩ := hm
  simp only [e100_slice_good, tvb_captured_length, tvb_reported_length] at hle h32 h28 hc ⊢
  constructor
  · rintro ⟨h1, h2, h3⟩
    exact ⟨by omega, by omega, h3⟩
  · rintro ⟨h1, h2, h3⟩
    exact ⟨by omega, by omega, h3⟩

/-- The matcher in the words of the spec against the test in the code. -/
theorem e100_matcher_iff (tvb : tvbuff_t) (hwf : tvb_wf tvb) :
    e100_matcher tvb ↔ (28 ≤ tvb.data.length ∧ byte_at tvb 0 = 1 ∧
      be32_at tvb 20 = guint_sub tvb.reported_length 28) := by
  obtain ⟨hle, h32⟩ := hwf
  simp only [tvb_captured_length, tvb_reported_length] at hle h32
  simp only [e100_matcher, tvb_captured_length, tvb_reported_length]
  constructor
  · rintro ⟨h, h0, hc⟩
    exact ⟨h, h0, by rw [guint_sub_eq _ _ (by omega) h32]; exact hc⟩
  · rintro ⟨h, h0, hc⟩
    exact ⟨h, h0, by rw [guint_sub_eq _ _ (by omega) h32] at hc; exact hc⟩

/-- A buffer the matcher turns down is answered with `0` and nothing else. -/
theorem dissect_e100_reject (reg : Registry) (tvb : tvbuff_t) (tree : proto_tree)
    (hwf : tvb_wf tvb) (hm : ¬ e100_matcher tvb) : dissect_e100 reg tvb tree = ⟨[], .ok 0⟩ := by
  rw [e100_matcher_iff tvb hwf] at hm
  by_cases h : 28 ≤ tvb.data.length
  · by_cases h0 : byte_at tvb 0 = 1
    · exact dissect_e100_reject_size reg tvb tree h h0 (fun hc => hm ⟨h, h0, hc⟩)
    · exact dissect_e100_reject_version reg tvb tree h h0
  · exact dissect_e100_reject_short reg tvb tree (by omega)

/-- A buffer the matcher lets through runs the header trace and the payload
stage. -/
theorem dissect_e100_matched (reg : Registry) (tvb : tvbuff_t) (tree : proto_tree)
    (hwf : tvb_wf tvb) (hm : e100_matcher tvb) :
    dissect_e100 reg tvb tree =
      Dissect.prepend (e100_header_trace tvb tree) (e100_payload_stage reg tvb tree) := by
  rw [e100_matcher_iff tvb hwf] at hm
  exact dissect_e100_accept reg tvb tree hm.1 hm.2.1 hm.2.2

theorem heur_of_reject (reg : Registry) (tvb : tvbuff_t) (tree : proto_tree)
    (h : dissect_e100 reg tvb tree = ⟨[], .ok 0⟩) :
    dissect_e100_heur reg tvb tree = ⟨[], .ok false⟩ := by
  rw [dissect_e100_heur_eq, h, Dissect.seq_mk_ok]
  simp [Dissect.prepend, Dissect.ret]

theorem heur_result (reg : Registry) (tvb : tvbuff_t) (tree : proto_tree) :
    (dissect_e100_heur reg tvb tree).result =
      (dissect_e100 reg tvb tree).result.map fun r => decide (r > 0) := by
  rw [dissect_e100_heur_eq]
  rcases hd : dissect_e100 reg tvb tree with ⟨s, r⟩
  cases r <;> simp [Dissect.seq, Dissect.ret, Except.map]

theorem low_byte_val (n : Nat) : (low_byte n).val = n % 256 := rfl

/-! ## packet-interlink.c, lemmas -/

theorem dissect_interlink_run (reg : Registry) (tvb : tvbuff_t) (tree : proto_tree)
    (h : 16 ≤ tvb.data.length) :
    dissect_interlink reg tvb tree =
      Dissect.prepend (interlink_header_trace tvb tree) (interlink_payload_stage reg tvb tree) := by
  have hstage : ∀ next_tvb : tvbuff_t,
      (if dissector_get_uint_handle reg.subdissector_table
            ((byte_at tvb 12 <<< 8 ||| byte_at tvb 13) % 65536) = Option.none then
          (call_dissector reg.data_handle next_tvb tree).seq fun _ =>
            Dissect.ret (tvb_captured_length tvb)
        else
          (call_dissector (dissector_get_uint_handle reg.subdissector_table
            ((byte_at tvb 12 <<< 8 ||| byte_at tvb 13) % 65536)) next_tvb tree).seq
            fun _ => Dissect.ret (tvb_captured_length tvb)) =
      (call_dissector (interlink_resolve reg (interlink_key tvb)) next_tvb tree).seq
        fun _ => Dissect.ret (tvb_captured_length tvb) := by
    intro next_tvb
    simp only [interlink_resolve, interlink_key]
    cases hl : dissector_get_uint_handle reg.subdissector_table
        ((byte_at tvb 12 <<< 8 ||| byte_at tvb 13) % 65536) <;> simp [hl]
  have hpar : ∀ n : Nat, (!decide (n % 2 = 0)) = decide (n % 2 = 1) := by
    intro n
    rcases Nat.mod_two_eq_zero_or_one n with h | h <;> simp [h]
  cases tree with
  | none =>
    simp [dissect_interlink, Dissect.pure_eq,
      Dissect.bind_eq,  Dissect.seq_lift_ok,
      Dissect.seq_emit, proto_tree_add_item, hf_type, proto_item_add_subtree, Dissect.seq_ret,
      proto_tree_add_subtree, Dissect.seq_prepend, Dissect.prepend_prepend,
      tvb_get_guint8_ok tvb 12 (by omega), tvb_get_guint8_ok tvb 13 (by omega),
      interlink_header_trace, interlink_payload_stage, hstage]
  | some t =>
    simp [dissect_interlink, Dissect.pure_eq,
      Dissect.bind_eq,  Dissect.seq_lift_ok,
      Dissect.seq_emit, proto_tree_add_item, hf_type, proto_item_add_subtree, Dissect.seq_ret,
      proto_tree_add_subtree, Dissect.seq_prepend, Dissect.prepend_prepend,
      tvb_get_guint8_ok tvb 12 (by omega), tvb_get_guint8_ok tvb 13 (by omega),
      decode, Except.map, proto_tree_add_bitmask,
      tvb_get_bytes_ok tvb 0 4 (by omega), tvb_get_bytes_ok tvb 4 2 (by omega),
      tvb_get_bytes_ok tvb 6 2 (by omega), tvb_get_bytes_ok tvb 8 2 (by omega),
      tvb_get_bytes_ok tvb 10 2 (by omega), tvb_get_bytes_ok tvb 12 1 (by omega),
      tvb_get_bytes_ok tvb 13 1 (by omega), tvb_get_bytes_ok tvb 14 2 (by omega),
      le_uint_window2 tvb 4 (by omega), le_uint_window2 tvb 6 (by omega),
      le_uint_window2 tvb 8 (by omega), le_uint_window2 tvb 10 (by omega),
      le_uint_window2 tvb 14 (by omega), be_uint_window1 tvb 12 (by omega),
      be_uint_window1 tvb 13 (by omega), Value.toUInt, hf_bitmask,
      interlink_header_trace, interlink_header_items, interlink_payload_stage, hstage, hpar]

theorem interlink_payload_stage_ok (reg : Registry) (tvb : tvbuff_t) (tree : proto_tree)
    (h : Nat) (h16 : 16 ≤ tvb.data.length)
    (hres : interlink_resolve reg (interlink_key tvb) = some h) :
    interlink_payload_stage reg tvb tree =
      ⟨[Event.call h ⟨tvb.data.drop 16, tvb.reported_length - 16⟩ tree],
        .ok tvb.data.length⟩ := by
  have hb : tvb_get_bytes tvb 16 (tvb.data.length - 16) = .ok (tvb.data.drop 16) := by
    rw [tvb_get_bytes_ok tvb 16 _ (by omega)]
    simp
  simp [interlink_payload_stage, tvb_new_subset_remaining, tvb_captured_length, hb,
    Except.map, Dissect.seq_lift_ok, hres, call_dissector, Dissect.seq_emit, Dissect.prepend_ret,
    tvb_reported_length]

theorem interlink_payload_stage_unbound (reg : Registry) (tvb : tvbuff_t) (tree : proto_tree)
    (h16 : 16 ≤ tvb.data.length)
    (hres : interlink_resolve reg (interlink_key tvb) = Option.none) :
    interlink_payload_stage reg tvb tree = ⟨[], .error Exn.UnboundDependency⟩ := by
  have hb : tvb_get_bytes tvb 16 (tvb.data.length - 16) = .ok (tvb.data.drop 16) := by
    rw [tvb_get_bytes_ok tvb 16 _ (by omega)]
    simp
  simp [interlink_payload_stage, tvb_new_subset_remaining, tvb_captured_length, hb,
    Except.map, Dissect.seq_lift_ok, hres, call_dissector, Dissect.seq_lift_error]

theorem tvb_get_guint8_error (tvb : tvbuff_t) (i : Nat) (h : tvb.data.length < i + 1) :
    tvb_get_guint8 tvb i = .error Exn.OutOfBounds := by
  simp [tvb_get_guint8, tvb_get_bytes_error tvb i 1 h, Except.map]

theorem tvb_new_subset_remaining_error (tvb : tvbuff_t) (off : Nat)
    (h : tvb.data.length < off) : tvb_new_subset_remaining tvb off = .error Exn.OutOfBounds := by
  simp [tvb_new_subset_remaining, tvb_captured_length,
    tvb_get_bytes_error tvb off (tvb.data.length - off) (by omega), Except.map]

/-- With fewer than 16 captured bytes `dissect_interlink` raises `OutOfBounds`,
with or without a tree. -/
theorem dissect_interlink_short (reg : Registry) (tvb : tvbuff_t) (tree : proto_tree)
    (h : tvb.data.length < 16) :
    ∃ s, dissect_interlink reg tvb tree = ⟨s, .error Exn.OutOfBounds⟩ := by
  cases tree with
  | none =>
    rcases (show tvb.data.length < 13 ∨ tvb.data.length = 13 ∨
        (14 ≤ tvb.data.length ∧ tvb.data.length < 16) by omega) with h1 | h1 | h1
    · simp [dissect_interlink, Dissect.pure_eq, Dissect.bind_eq, Dissect.seq_lift_ok,
      Dissect.seq_lift_error, Dissect.seq_emit, proto_tree_add_item, hf_type,
      proto_item_add_subtree, Dissect.seq_ret, proto_tree_add_subtree, Dissect.seq_prepend,
      Dissect.prepend_prepend, Dissect.prepend_mk, Dissect.seq_mk_error, Dissect.seq_mk_ok, decode, Except.map, proto_tree_add_bitmask,
        tvb_get_guint8_error tvb 12 (by omega)]
    · simp [dissect_interlink, Dissect.pure_eq, Dissect.bind_eq, Dissect.seq_lift_ok,
      Dissect.seq_lift_error, Dissect.seq_emit, proto_tree_add_item, hf_type,
      proto_item_add_subtree, Dissect.seq_ret, proto_tree_add_subtree, Dissect.seq_prepend,
      Dissect.prepend_prepend, Dissect.prepend_mk, Dissect.seq_mk_error, Dissect.seq_mk_ok, decode, Except.map, proto_tree_add_bitmask,
        tvb_get_guint8_ok tvb 12 (by omega),
        tvb_get_guint8_error tvb 13 (by omega)]
    · simp [dissect_interlink, Dissect.pure_eq, Dissect.bind_eq, Dissect.seq_lift_ok,
      Dissect.seq_lift_error, Dissect.seq_emit, proto_tree_add_item, hf_type,
      proto_item_add_subtree, Dissect.seq_ret, proto_tree_add_subtree, Dissect.seq_prepend,
      Dissect.prepend_prepend, Dissect.prepend_mk, Dissect.seq_mk_error, Dissect.seq_mk_ok, decode, Except.map, proto_tree_add_bitmask,
        tvb_get_guint8_ok tvb 12 (by omega),
        tvb_get_guint8_ok tvb 13 (by omega),
        tvb_new_subset_remaining_error tvb 16 (by omega)]
  | some t =>
    rcases (show tvb.data.length < 4 ∨ (4 ≤ tvb.data.length ∧ tvb.data.length < 6) ∨
        (6 ≤ tvb.data.length ∧ tvb.data.length < 8) ∨
        (8 ≤ tvb.data.length ∧ tvb.data.length < 10) ∨
        (10 ≤ tvb.data.length ∧ tvb.data.length < 12) ∨
        tvb.data.length = 12 ∨ tvb.data.length = 13 ∨
        (14 ≤ tvb.data.length ∧ tvb.data.length < 16) by omega)
      with h1 | h1 | h1 | h1 | h1 | h1 | h1 | h1
    · simp [dissect_interlink, Dissect.pure_eq, Dissect.bind_eq, Dissect.seq_lift_ok,
      Dissect.seq_lift_error, Dissect.seq_emit, proto_tree_add_item, hf_type,
      proto_item_add_subtree, Dissect.seq_ret, proto_tree_add_subtree, Dissect.seq_prepend,
      Dissect.prepend_prepend, Dissect.prepend_mk, Dissect.seq_mk_error, Dissect.seq_mk_ok, decode, Except.map, proto_tree_add_bitmask,
        tvb_get_bytes_error tvb 0 4 (by omega)]
    · simp [dissect_interlink, Dissect.pure_eq, Dissect.bind_eq, Dissect.seq_lift_ok,
      Dissect.seq_lift_error, Dissect.seq_emit, proto_tree_add_item, hf_type,
      proto_item_add_subtree, Dissect.seq_ret, proto_tree_add_subtree, Dissect.seq_prepend,
      Dissect.prepend_prepend, Dissect.prepend_mk, Dissect.seq_mk_error, Dissect.seq_mk_ok, decode, Except.map, proto_tree_add_bitmask,
        tvb_get_bytes_ok tvb 0 4 (by omega),
        tvb_get_bytes_error tvb 4 2 (by omega)]
    · simp [dissect_interlink, Dissect.pure_eq, Dissect.bind_eq, Dissect.seq_lift_ok,
      Dissect.seq_lift_error, Dissect.seq_emit, proto_tree_add_item, hf_type,
      proto_item_add_subtree, Dissect.seq_ret, proto_tree_add_subtree, Dissect.seq_prepend,
      Dissect.prepend_prepend, Dissect.prepend_mk, Dissect.seq_mk_error, Dissect.seq_mk_ok, decode, Except.map, proto_tree_add_bitmask,
        tvb_get_bytes_ok tvb 0 4 (by omega),
        tvb_get_bytes_ok tvb 4 2 (by omega),
        tvb_get_bytes_error tvb 6 2 (by omega)]
    · simp [dissect_interlink, Dissect.pure_eq, Dissect.bind_eq, Dissect.seq_lift_ok,
      Dissect.seq_lift_error, Dissect.seq_emit, proto_tree_add_item, hf_type,
      proto_item_add_subtree, Dissect.seq_ret, proto_tree_add_subtree, Dissect.seq_prepend,
      Dissect.prepend_prepend, Dissect.prepend_mk, Dissect.seq_mk_error, Dissect.seq_mk_ok, decode, Except.map, proto_tree_add_bitmask,
        tvb_get_bytes_ok tvb 0 4 (by omega),
        tvb_get_bytes_ok tvb 4 2 (by omega),
        tvb_get_bytes_ok tvb 6 2 (by omega),
        tvb_get_bytes_error tvb 8 2 (by omega)]
    · simp [dissect_interlink, Dissect.pure_eq, Dissect.bind_eq, Dissect.seq_lift_ok,
      Dissect.seq_lift_error, Dissect.seq_emit, proto_tree_add_item, hf_type,
      proto_item_add_subtree, Dissect.seq_ret, proto_tree_add_subtree, Dissect.seq_prepend,
      Dissect.prepend_prepend, Dissect.prepend_mk, Dissect.seq_mk_error, Dissect.seq_mk_ok, decode, Except.map, proto_tree_add_bitmask,
        tvb_get_bytes_ok tvb 0 4 (by omega),
        tvb_get_bytes_ok tvb 4 2 (by omega),
        tvb_get_bytes_ok tvb 6 2 (by omega),
        tvb_get_bytes_ok tvb 8 2 (by omega),
        tvb_get_bytes_error tvb 10 2 (by omega)]
    · simp [dissect_interlink, Dissect.pure_eq, Dissect.bind_eq, Dissect.seq_lift_ok,
      Dissect.seq_lift_error, Dissect.seq_emit, proto_tree_add_item, hf_type,
      proto_item_add_subtree, Dissect.seq_ret, proto_tree_add_subtree, Dissect.seq_prepend,
      Dissect.prepend_prepend, Dissect.prepend_mk, Dissect.seq_mk_error, Dissect.seq_mk_ok, decode, Except.map, proto_tree_add_bitmask,
        tvb_get_bytes_ok tvb 0 4 (by omega),
        tvb_get_bytes_ok tvb 4 2 (by omega),
        tvb_get_bytes_ok tvb 6 2 (by omega),
        tvb_get_bytes_ok tvb 8 2 (by omega),
        tvb_get_bytes_ok tvb 10 2 (by omega),
        tvb_get_guint8_error tvb 12 (by omega)]
    · simp [dissect_interlink, Dissect.pure_eq, Dissect.bind_eq, Dissect.seq_lift_ok,
      Dissect.seq_lift_error, Dissect.seq_emit, proto_tree_add_item, hf_type,
      proto_item_add_subtree, Dissect.seq_ret, proto_tree_add_subtree, Dissect.seq_prepend,
      Dissect.prepend_prepend, Dissect.prepend_mk, Dissect.seq_mk_error, Dissect.seq_mk_ok, decode, Except.map, proto_tree_add_bitmask,
        tvb_get_bytes_ok tvb 0 4 (by omega),
        tvb_get_bytes_ok tvb 4 2 (by omega),
        tvb_get_bytes_ok tvb 6 2 (by omega),
        tvb_get_bytes_ok tvb 8 2 (by omega),
        tvb_get_bytes_ok tvb 10 2 (by omega),
        tvb_get_guint8_ok tvb 12 (by omega),
        tvb_get_guint8_error tvb 13 (by omega)]
    · simp [dissect_interlink, Dissect.pure_eq, Dissect.bind_eq, Dissect.seq_lift_ok,
      Dissect.seq_lift_error, Dissect.seq_emit, proto_tree_add_item, hf_type,
      proto_item_add_subtree, Dissect.seq_ret, proto_tree_add_subtree, Dissect.seq_prepend,
      Dissect.prepend_prepend, Dissect.prepend_mk, Dissect.seq_mk_error, Dissect.seq_mk_ok, decode, Except.map, proto_tree_add_bitmask,
        tvb_get_bytes_ok tvb 0 4 (by omega),
        tvb_get_bytes_ok tvb 4 2 (by omega),
        tvb_get_bytes_ok tvb 6 2 (by omega),
        tvb_get_bytes_ok tvb 8 2 (by omega),
        tvb_get_bytes_ok tvb 10 2 (by omega),
        tvb_get_guint8_ok tvb 12 (by omega),
        tvb_get_guint8_ok tvb 13 (by omega),
        tvb_get_bytes_ok tvb 12 1 (by omega),
        tvb_get_bytes_ok tvb 13 1 (by omega),
        tvb_get_bytes_error tvb 14 2 (by omega)]

/-- The heuristic wrapper on a buffer that spells "ILNK". -/
theorem dissect_interlink_heur_match (reg : Registry) (tvb : tvbuff_t) (tree : proto_tree)
    (hm : interlink_matcher tvb) :
    dissect_interlink_heur reg tvb tree =
      Dissect.seq (dissect_interlink reg tvb tree) fun _ => Dissect.ret true := by
  obtain ⟨h4, h0, h1, h2, h3⟩ := hm
  simp only [tvb_captured_length] at h4
  simp [dissect_interlink_heur, tvb_bytes_exist, tvb_captured_length, h4, Dissect.bind_eq,
    Dissect.pure_eq, tvb_get_guint8_ok tvb 0 (by omega), tvb_get_guint8_ok tvb 1 (by omega),
    tvb_get_guint8_ok tvb 2 (by omega), tvb_get_guint8_ok tvb 3 (by omega), Dissect.seq_lift_ok,
    h0, h1, h2, h3]

/-- The heuristic wrapper on a buffer that does not spell "ILNK". -/
theorem dissect_interlink_heur_reject (reg : Registry) (tvb : tvbuff_t) (tree : proto_tree)
    (hm : ¬ interlink_matcher tvb) :
    dissect_interlink_heur reg tvb tree = ⟨[], .ok false⟩ := by
  by_cases h4 : 4 ≤ tvb.data.length
  · have hb : ¬ (byte_at tvb 0 = 73 ∧ byte_at tvb 1 = 76 ∧ byte_at tvb 2 = 78 ∧
        byte_at tvb 3 = 75) := fun hb => hm ⟨h4, hb⟩
    by_cases h0 : byte_at tvb 0 = 73
    · by_cases h1 : byte_at tvb 1 = 76
      · by_cases h2 : byte_at tvb 2 = 78
        · have h3 : byte_at tvb 3 ≠ 75 := fun h3 => hb ⟨h0, h1, h2, h3⟩
          simp [dissect_interlink_heur, tvb_bytes_exist, tvb_captured_length, h4, Dissect.bind_eq,
            Dissect.pure_eq, tvb_get_guint8_ok tvb 0 (by omega),
            tvb_get_guint8_ok tvb 1 (by omega), tvb_get_guint8_ok tvb 2 (by omega),
            tvb_get_guint8_ok tvb 3 (by omega), Dissect.seq_lift_ok, h0, h1, h2, h3, Dissect.ret]
        · simp [dissect_interlink_heur, tvb_bytes_exist, tvb_captured_length, h4, Dissect.bind_eq,
            Dissect.pure_eq, tvb_get_guint8_ok tvb 0 (by omega),
            tvb_get_guint8_ok tvb 1 (by omega), tvb_get_guint8_ok tvb 2 (by omega),
            Dissect.seq_lift_ok, h0, h1, h2, Dissect.ret]
      · simp [dissect_interlink_heur, tvb_bytes_exist, tvb_captured_length, h4, Dissect.bind_eq,
          Dissect.pure_eq, tvb_get_guint8_ok tvb 0 (by omega),
          tvb_get_guint8_ok tvb 1 (by omega), Dissect.seq_lift_ok, h0, h1, Dissect.ret]
    · simp [dissect_interlink_heur, tvb_bytes_exist, tvb_captured_length, h4, Dissect.bind_eq,
        Dissect.pure_eq, tvb_get_guint8_ok tvb 0 (by omega), Dissect.seq_lift_ok, h0,
        Dissect.ret]
  · simp [dissect_interlink_heur, tvb_bytes_exist, tvb_captured_length, h4, Dissect.pure_eq,
      Dissect.ret]

/-- Whatever the buffer, `dissect_interlink` starts by writing the protocol
column. -/
theorem dissect_interlink_sink_ne_nil (reg : Registry) (tvb : tvbuff_t) (tree : proto_tree) :
    (dissect_interlink reg tvb tree).sink ≠ [] := by
  simp [dissect_interlink, Dissect.bind_eq, Dissect.seq_emit, Dissect.prepend]

theorem Dissect.seq_result_error {α β : Type} (m : Dissect α) (f : α → Dissect β) (s : List Event)
    (e : Exn) (h : m = ⟨s, .error e⟩) : (Dissect.seq m f).result = .error e := by
  subst h
  rfl

theorem byte_at_window (l : List guint8) (off len rep rep' i : Nat) (hi : i < len) :
    byte_at ⟨(l.drop off).take len, rep⟩ i = byte_at ⟨l, rep'⟩ (off + i) := by
  simp [byte_at, List.getD_eq_getElem?_getD, List.getElem?_take, hi, List.getElem?_drop]

theorem tvb_patch_length (tvb : tvbuff_t) (off : Nat) (bs : List guint8)
    (h : off + bs.length ≤ tvb.data.length) :
    (tvb_patch tvb off bs).data.length = tvb.data.length := by
  simp [tvb_patch]
  omega

theorem tvb_patch_drop (tvb : tvbuff_t) (off k : Nat) (bs : List guint8)
    (h : off + bs.length ≤ tvb.data.length) (hk : off + bs.length ≤ k) :
    (tvb_patch tvb off bs).data.drop k = tvb.data.drop k := by
  have h1 : (tvb.data.take off ++ bs).length = off + bs.length := by
    simp
    omega
  have hk' : k = (tvb.data.take off ++ bs).length + (k - (off + bs.length)) := by omega
  simp only [tvb_patch]
  rw [hk', List.drop_append, List.drop_drop]
  congr 1
  omega

theorem tvb_patch_byte_before (tvb : tvbuff_t) (off i : Nat) (bs : List guint8)
    (h : off + bs.length ≤ tvb.data.length) (hi : i < off) :
    byte_at (tvb_patch tvb off bs) i = byte_at tvb i := by
  have h1 : i < (tvb.data.take off).length := by
    simp
    omega
  simp only [byte_at, tvb_patch, List.append_assoc]
  rw [List.getD_append _ _ _ _ h1]
  simp [List.getD_eq_getElem?_getD, List.getElem?_take, hi]

theorem tvb_patch_byte_after (tvb : tvbuff_t) (off i : Nat) (bs : List guint8)
    (h : off + bs.length ≤ tvb.data.length) (hi : off + bs.length ≤ i) :
    byte_at (tvb_patch tvb off bs) i = byte_at tvb i := by
  have hd := tvb_patch_drop tvb off i bs h hi
  have e1 : ∀ l : List guint8, l.getD i 0 = (l.drop i).getD 0 0 := by
    intro l
    simp [List.getD_eq_getElem?_getD, List.getElem?_drop]
  simp only [byte_at]
  rw [e1, e1 tvb.data, hd]

theorem tvb_patch_byte_first (tvb : tvbuff_t) (off : Nat) (x y : guint8)
    (h : off + 2 ≤ tvb.data.length) :
    byte_at (tvb_patch tvb off [x, y]) off = x.val ∧
    byte_at (tvb_patch tvb off [x, y]) (off + 1) = y.val := by
  have h1 : (tvb.data.take off).length = off := by
    simp
    omega
  constructor
  · simp only [byte_at, tvb_patch, List.append_assoc]
    rw [List.getD_append_right _ _ _ _ (by omega), h1]
    simp
  · simp only [byte_at, tvb_patch, List.append_assoc]
    rw [List.getD_append_right _ _ _ _ (by omega), h1]
    simp

theorem shl8_or (a b : Nat) (hb : b < 256) : a <<< 8 ||| b = a * 256 + b := by
  rw [Nat.shiftLeft_eq, Nat.mul_comm a, ← Nat.mul_add_lt_is_or (by simpa using hb) a]

theorem interlink_key_eq (tvb : tvbuff_t) :
    interlink_key tvb = byte_at tvb 12 * 256 + byte_at tvb 13 := by
  have h12 := byte_at_lt tvb 12
  have h13 := byte_at_lt tvb 13
  unfold interlink_key
  rw [shl8_or _ _ h13]
  omega

theorem and_two_ne_zero_iff (n : Nat) : n &&& 2 ≠ 0 ↔ n / 2 % 2 = 1 := by
  have h1 : n &&& 2 = (n % 4) &&& 2 := by
    have h3 : n &&& 3 = n % 4 := Nat.and_pow_two_sub_one_eq_mod n 2
    rw [← h3, Nat.and_assoc]
    rfl
  rw [h1]
  have h4 : n % 4 < 4 := Nat.mod_lt _ (by decide)
  have h5 : n / 2 % 2 = (n % 4) / 2 := by omega
  rw [h5]
  generalize n % 4 = r at h4 ⊢
  interval_cases r <;> decide

theorem e100_header_trace_no_call (tvb : tvbuff_t) (tree : proto_tree) :
    (e100_header_trace tvb tree).filter Event.isCall = [] := by
  cases tree <;> simp [e100_header_trace, e100_header_items, Event.isCall]

theorem interlink_header_trace_no_call (tvb : tvbuff_t) (tree : proto_tree) :
    (interlink_header_trace tvb tree).filter Event.isCall = [] := by
  cases tree <;> simp [interlink_header_trace, interlink_header_items, Event.isCall]

/-- The whole run of `dissect_interlink` on at least 16 bytes with a resolved
handler. -/
theorem dissect_interlink_ok (reg : Registry) (tvb : tvbuff_t) (tree : proto_tree) (h : Nat)
    (h16 : 16 ≤ tvb.data.length) (hres : interlink_resolve reg (interlink_key tvb) = some h) :
    dissect_interlink reg tvb tree =
      ⟨interlink_header_trace tvb tree ++
          [Event.call h ⟨tvb.data.drop 16, tvb.reported_length - 16⟩ tree],
        .ok tvb.data.length⟩ := by
  rw [dissect_interlink_run reg tvb tree h16, interlink_payload_stage_ok reg tvb tree h h16 hres]
  rfl

theorem spec_interlink_example_key (len0 len1 : guint8) :
    interlink_key (spec_interlink_example len0 len1) = 1282 := by
  rw [interlink_key_eq]
  simp [byte_at, spec_interlink_example]
  rfl

theorem lookup_some_mem (table : List (Nat × Nat)) (key h : Nat)
    (hl : table.lookup key = some h) : (key, h) ∈ table := by
  induction table with
  | nil => simp at hl
  | cons p ps ih =>
    obtain ⟨k, v⟩ := p
    by_cases hk : key = k
    · subst hk
      simp [List.lookup] at hl
      simp [hl]
    · have hb : (key == k) = false := by simpa using hk
      simp only [List.lookup, hb] at hl
      exact List.mem_cons_of_mem _ (ih hl)

theorem lookup_none_not_mem (table : List (Nat × Nat)) (key : Nat)
    (hl : table.lookup key = Option.none) (h : Nat) : (key, h) ∉ table := by
  induction table with
  | nil => simp
  | cons p ps ih =>
    obtain ⟨k, v⟩ := p
    by_cases hk : key = k
    · subst hk
      simp [List.lookup] at hl
    · have hb : (key == k) = false := by simpa using hk
      simp only [List.lookup, hb] at hl
      intro hmem
      rcases List.mem_cons.1 hmem with he | he
      · exact hk (by injection he)
      · exact ih hl he

/-! ## Further lemmas -/

theorem e100_heuristic_test_eq (tvb : tvbuff_t) :
    e100_heuristic_test tvb = .ok (decide (¬ (28 ≤ tvb.data.length ∧ byte_at tvb 0 = 1 ∧
      be32_at tvb 20 = guint_sub tvb.reported_length 28))) := by
  by_cases h : 28 ≤ tvb.data.length
  · have hlt : ¬ tvb.data.length < 28 := by omega
    by_cases h0 : byte_at tvb 0 = 1
    · simp [e100_heuristic_test, tvb_captured_length, e100_encap_len, hlt, e100_header_ver,
        tvb_get_guint8_ok tvb 0 (by omega), h0, e100_bytes_cap, tvb_get_ntohl_ok tvb 20 (by omega),
        tvb_reported_length, h, bind, Except.bind, pure, Except.pure]
    · simp [e100_heuristic_test, tvb_captured_length, e100_encap_len, hlt, e100_header_ver,
        tvb_get_guint8_ok tvb 0 (by omega), h0, bind, Except.bind]
  · have hlt : tvb.data.length < 28 := by omega
    simp [e100_heuristic_test, tvb_captured_length, e100_encap_len, hlt]

theorem interlink_heuristic_test_eq (tvb : tvbuff_t) :
    interlink_heuristic_test tvb = .ok (decide (¬ interlink_matcher tvb)) := by
  by_cases h4 : 4 ≤ tvb.data.length
  · by_cases h0 : byte_at tvb 0 = 73
    · by_cases h1 : byte_at tvb 1 = 76
      · by_cases h2 : byte_at tvb 2 = 78
        · simp [interlink_heuristic_test, interlink_matcher, tvb_bytes_exist, tvb_captured_length,
            h4, tvb_get_guint8_ok tvb 0 (by omega), tvb_get_guint8_ok tvb 1 (by omega),
            tvb_get_guint8_ok tvb 2 (by omega), tvb_get_guint8_ok tvb 3 (by omega), h0, h1, h2,
            bind, Except.bind, pure, Except.pure]
        · simp [interlink_heuristic_test, interlink_matcher, tvb_bytes_exist, tvb_captured_length,
            h4, tvb_get_guint8_ok tvb 0 (by omega), tvb_get_guint8_ok tvb 1 (by omega),
            tvb_get_guint8_ok tvb 2 (by omega), h0, h1, h2, bind, Except.bind]
      · simp [interlink_heuristic_test, interlink_matcher, tvb_bytes_exist, tvb_captured_length,
          h4, tvb_get_guint8_ok tvb 0 (by omega), tvb_get_guint8_ok tvb 1 (by omega), h0, h1,
          bind, Except.bind]
    · simp [interlink_heuristic_test, interlink_matcher, tvb_bytes_exist, tvb_captured_length,
        h4, tvb_get_guint8_ok tvb 0 (by omega), h0, bind, Except.bind]
  · simp [interlink_heuristic_test, interlink_matcher, tvb_bytes_exist, tvb_captured_length, h4]

/-- `dissect_e100` is its heuristic test followed by either `return 0` or the
header trace and payload stage. -/
theorem dissect_e100_factor (reg : Registry) (tvb : tvbuff_t) (tree : proto_tree) :
    dissect_e100 reg tvb tree =
      Dissect.seq (Dissect.lift (e100_heuristic_test tvb)) fun reject =>
        if reject then Dissect.ret 0
        else Dissect.prepend (e100_header_trace tvb tree) (e100_payload_stage reg tvb tree) := by
  rw [e100_heuristic_test_eq, Dissect.seq_lift_ok]
  by_cases hc : 28 ≤ tvb.data.length ∧ byte_at tvb 0 = 1 ∧
      be32_at tvb 20 = guint_sub tvb.reported_length 28
  · simp only [hc, not_true_eq_false, decide_False, Bool.false_eq_true, if_false, and_self]
    exact dissect_e100_accept reg tvb tree hc.1 hc.2.1 hc.2.2
  · simp only [hc, not_false_eq_true, decide_True, if_true]
    by_cases h : 28 ≤ tvb.data.length
    · by_cases h0 : byte_at tvb 0 = 1
      · exact dissect_e100_reject_size reg tvb tree h h0 (fun h2 => hc ⟨h, h0, h2⟩)
      · exact dissect_e100_reject_version reg tvb tree h h0
    · exact dissect_e100_reject_short reg tvb tree (by omega)

/-- `dissect_interlink_heur` is its heuristic test followed by either `return
false` or the call of `dissect_interlink`. -/
theorem dissect_interlink_heur_factor (reg : Registry) (tvb : tvbuff_t) (tree : proto_tree) :
    dissect_interlink_heur reg tvb tree =
      Dissect.seq (Dissect.lift (interlink_heuristic_test tvb)) fun reject =>
        if reject then Dissect.ret false
        else Dissect.seq (dissect_interlink reg tvb tree) fun _ => Dissect.ret true := by
  rw [interlink_heuristic_test_eq, Dissect.seq_lift_ok]
  by_cases hm : interlink_matcher tvb
  · simp only [hm, not_true_eq_false, decide_False, Bool.false_eq_true, if_false]
    exact dissect_interlink_heur_match reg tvb tree hm
  · simp only [hm, not_false_eq_true, decide_True, if_true]
    exact dissect_interlink_heur_reject reg tvb tree hm

/-- What a completed run of `dissect_interlink` looks like. -/
theorem dissect_interlink_completes (reg : Registry) (tvb : tvbuff_t) (tree : proto_tree)
    (n : Nat) (hok : (dissect_interlink reg tvb tree).result = .ok n) :
    16 ≤ tvb.data.length ∧ ∃ h, interlink_resolve reg (interlink_key tvb) = some h ∧
      dissect_interlink reg tvb tree =
        ⟨interlink_header_trace tvb tree ++
            [Event.call h ⟨tvb.data.drop 16, tvb.reported_length - 16⟩ tree],
          .ok tvb.data.length⟩ := by
  by_cases h16 : 16 ≤ tvb.data.length
  · refine ⟨h16, ?_⟩
    cases hres : interlink_resolve reg (interlink_key tvb) with
    | none =>
      rw [dissect_interlink_run reg tvb tree h16,
        interlink_payload_stage_unbound reg tvb tree h16 hres] at hok
      cases hok
    | some h => exact ⟨h, rfl, dissect_interlink_ok reg tvb tree h h16 hres⟩
  · obtain ⟨s, hs⟩ := dissect_interlink_short reg tvb tree (by omega)
    rw [hs] at hok
    cases hok

/-- What a completed run of `dissect_e100` on a matched buffer looks like. -/
theorem dissect_e100_completes (reg : Registry) (tvb : tvbuff_t) (tree : proto_tree) (n : Nat)
    (hwf : tvb_wf tvb) (hm : e100_matcher tvb)
    (hok : (dissect_e100 reg tvb tree).result = .ok n) :
    e100_slice_good tvb ∧ ∃ eth, reg.eth_handle = some eth ∧
      dissect_e100 reg tvb tree =
        ⟨e100_header_trace tvb tree ++ [Event.call eth (e100_view tvb) tree],
          .ok tvb.data.length⟩ := by
  have hd := dissect_e100_matched reg tvb tree hwf hm
  have hcap := e100_matched_cap_lt tvb hwf hm
  rw [hd] at hok
  by_cases hg : e100_slice_good tvb
  · refine ⟨hg, ?_⟩
    cases hreg : reg.eth_handle with
    | none =>
      rw [e100_payload_stage_unbound reg tvb tree hg hreg] at hok
      cases hok
    | some eth =>
      refine ⟨eth, rfl, ?_⟩
      rw [hd, e100_payload_stage_ok reg tvb tree eth hg hreg]
      rfl
  · rw [e100_payload_stage_oob reg tvb tree hcap hg] at hok
    cases hok

theorem shl8_or_inj (t1 v1 t2 v2 : Nat) (h1 : v1 < 256) (h2 : v2 < 256)
    (h : t1 <<< 8 ||| v1 = t2 <<< 8 ||| v2) : t1 = t2 ∧ v1 = v2 := by
  rw [shl8_or _ _ h1, shl8_or _ _ h2] at h
  omega

/-- Without a tree a buffer of fewer than 16 bytes makes `dissect_interlink`
raise with no item in the sink. -/
theorem dissect_interlink_short_no_tree (reg : Registry) (tvb : tvbuff_t)
    (h : tvb.data.length < 16) :
    ∃ s, dissect_interlink reg tvb Option.none = ⟨s, .error Exn.OutOfBounds⟩ ∧
      s.filterMap Event.window = [] := by
  rcases (show tvb.data.length < 13 ∨ tvb.data.length = 13 ∨
      (14 ≤ tvb.data.length ∧ tvb.data.length < 16) by omega) with h1 | h1 | h1
  · simp [dissect_interlink, Dissect.pure_eq, Dissect.bind_eq, Dissect.seq_lift_ok,
      Dissect.seq_lift_error, Dissect.seq_emit, proto_tree_add_item, hf_type,
      proto_item_add_subtree, Dissect.seq_ret, proto_tree_add_subtree, Dissect.seq_prepend,
      Dissect.prepend_prepend, Dissect.prepend_mk, Dissect.seq_mk_error, Dissect.seq_mk_ok,
      decode, Except.map, proto_tree_add_bitmask, Event.window,
        tvb_get_guint8_error tvb 12 (by omega)]
  · simp [dissect_interlink, Dissect.pure_eq, Dissect.bind_eq, Dissect.seq_lift_ok,
      Dissect.seq_lift_error, Dissect.seq_emit, proto_tree_add_item, hf_type,
      proto_item_add_subtree, Dissect.seq_ret, proto_tree_add_subtree, Dissect.seq_prepend,
      Dissect.prepend_prepend, Dissect.prepend_mk, Dissect.seq_mk_error, Dissect.seq_mk_ok,
      decode, Except.map, proto_tree_add_bitmask, Event.window,
        tvb_get_guint8_ok tvb 12 (by omega),
        tvb_get_guint8_error tvb 13 (by omega)]
  · simp [dissect_interlink, Dissect.pure_eq, Dissect.bind_eq, Dissect.seq_lift_ok,
      Dissect.seq_lift_error, Dissect.seq_emit, proto_tree_add_item, hf_type,
      proto_item_add_subtree, Dissect.seq_ret, proto_tree_add_subtree, Dissect.seq_prepend,
      Dissect.prepend_prepend, Dissect.prepend_mk, Dissect.seq_mk_error, Dissect.seq_mk_ok,
      decode, Except.map, proto_tree_add_bitmask, Event.window,
        tvb_get_guint8_ok tvb 12 (by omega),
        tvb_get_guint8_ok tvb 13 (by omega),
        tvb_new_subset_remaining_error tvb 16 (by omega)]

/-- With a tree a buffer of 4 to 15 bytes makes `dissect_interlink` raise with
the magic item already in the sink. -/
theorem dissect_interlink_short_tree (reg : Registry) (tvb : tvbuff_t) (t : TreeNode)
    (h4 : 4 ≤ tvb.data.length) (h : tvb.data.length < 16) :
    ∃ s, dissect_interlink reg tvb (some t) = ⟨s, .error Exn.OutOfBounds⟩ ∧
      Event.item (TreeNode.sub Ett.ett_interlink_header) Hf.hf_interlink_id 0 4
        (Value.string (tvb.data.take 4)) ∈ s := by
  rcases (show (4 ≤ tvb.data.length ∧ tvb.data.length < 6) ∨
      (6 ≤ tvb.data.length ∧ tvb.data.length < 8) ∨
      (8 ≤ tvb.data.length ∧ tvb.data.length < 10) ∨
      (10 ≤ tvb.data.length ∧ tvb.data.length < 12) ∨
      tvb.data.length = 12 ∨ tvb.data.length = 13 ∨
      (14 ≤ tvb.data.length ∧ tvb.data.length < 16) by omega)
    with h1 | h1 | h1 | h1 | h1 | h1 | h1
  · simp [dissect_interlink, Dissect.pure_eq, Dissect.bind_eq, Dissect.seq_lift_ok,
      Dissect.seq_lift_error, Dissect.seq_emit, proto_tree_add_item, hf_type,
      proto_item_add_subtree, Dissect.seq_ret, proto_tree_add_subtree, Dissect.seq_prepend,
      Dissect.prepend_prepend, Dissect.prepend_mk, Dissect.seq_mk_error, Dissect.seq_mk_ok,
      decode, Except.map, proto_tree_add_bitmask, Event.window,
        tvb_get_bytes_ok tvb 0 4 (by omega),
        tvb_get_bytes_error tvb 4 2 (by omega)]
  · simp [dissect_interlink, Dissect.pure_eq, Dissect.bind_eq, Dissect.seq_lift_ok,
      Dissect.seq_lift_error, Dissect.seq_emit, proto_tree_add_item, hf_type,
      proto_item_add_subtree, Dissect.seq_ret, proto_tree_add_subtree, Dissect.seq_prepend,
      Dissect.prepend_prepend, Dissect.prepend_mk, Dissect.seq_mk_error, Dissect.seq_mk_ok,
      decode, Except.map, proto_tree_add_bitmask, Event.window,
        tvb_get_bytes_ok tvb 0 4 (by omega),
        tvb_get_bytes_ok tvb 4 2 (by omega),
        tvb_get_bytes_error tvb 6 2 (by omega)]
  · simp [dissect_interlink, Dissect.pure_eq, Dissect.bind_eq, Dissect.seq_lift_ok,
      Dissect.seq_lift_error, Dissect.seq_emit, proto_tree_add_item, hf_type,
      proto_item_add_subtree, Dissect.seq_ret, proto_tree_add_subtree, Dissect.seq_prepend,
      Dissect.prepend_prepend, Dissect.prepend_mk, Dissect.seq_mk_error, Dissect.seq_mk_ok,
      decode, Except.map, proto_tree_add_bitmask, Event.window,
        tvb_get_bytes_ok tvb 0 4 (by omega),
        tvb_get_bytes_ok tvb 4 2 (by omega),
        tvb_get_bytes_ok tvb 6 2 (by omega),
        tvb_get_bytes_error tvb 8 2 (by omega)]
  · simp [dissect_interlink, Dissect.pure_eq, Dissect.bind_eq, Dissect.seq_lift_ok,
      Dissect.seq_lift_error, Dissect.seq_emit, proto_tree_add_item, hf_type,
      proto_item_add_subtree, Dissect.seq_ret, proto_tree_add_subtree, Dissect.seq_prepend,
      Dissect.prepend_prepend, Dissect.prepend_mk, Dissect.seq_mk_error, Dissect.seq_mk_ok,
      decode, Except.map, proto_tree_add_bitmask, Event.window,
        tvb_get_bytes_ok tvb 0 4 (by omega),
        tvb_get_bytes_ok tvb 4 2 (by omega),
        tvb_get_bytes_ok tvb 6 2 (by omega),
        tvb_get_bytes_ok tvb 8 2 (by omega),
        tvb_get_bytes_error tvb 10 2 (by omega)]
  · simp [dissect_interlink, Dissect.pure_eq, Dissect.bind_eq, Dissect.seq_lift_ok,
      Dissect.seq_lift_error, Dissect.seq_emit, proto_tree_add_item, hf_type,
      proto_item_add_subtree, Dissect.seq_ret, proto_tree_add_subtree, Dissect.seq_prepend,
      Dissect.prepend_prepend, Dissect.prepend_mk, Dissect.seq_mk_error, Dissect.seq_mk_ok,
      decode, Except.map, proto_tree_add_bitmask, Event.window,
        tvb_get_bytes_ok tvb 0 4 (by omega),
        tvb_get_bytes_ok tvb 4 2 (by omega),
        tvb_get_bytes_ok tvb 6 2 (by omega),
        tvb_get_bytes_ok tvb 8 2 (by omega),
        tvb_get_bytes_ok tvb 10 2 (by omega),
        tvb_get_guint8_error tvb 12 (by omega)]
  · simp [dissect_interlink, Dissect.pure_eq, Dissect.bind_eq, Dissect.seq_lift_ok,
      Dissect.seq_lift_error, Dissect.seq_emit, proto_tree_add_item, hf_type,
      proto_item_add_subtree, Dissect.seq_ret, proto_tree_add_subtree, Dissect.seq_prepend,
      Dissect.prepend_prepend, Dissect.prepend_mk, Dissect.seq_mk_error, Dissect.seq_mk_ok,
      decode, Except.map, proto_tree_add_bitmask, Event.window,
        tvb_get_bytes_ok tvb 0 4 (by omega),
        tvb_get_bytes_ok tvb 4 2 (by omega),
        tvb_get_bytes_ok tvb 6 2 (by omega),
        tvb_get_bytes_ok tvb 8 2 (by omega),
        tvb_get_bytes_ok tvb 10 2 (by omega),
        tvb_get_guint8_ok tvb 12 (by omega),
        tvb_get_guint8_error tvb 13 (by omega)]
  · simp [dissect_interlink, Dissect.pure_eq, Dissect.bind_eq, Dissect.seq_lift_ok,
      Dissect.seq_lift_error, Dissect.seq_emit, proto_tree_add_item, hf_type,
      proto_item_add_subtree, Dissect.seq_ret, proto_tree_add_subtree, Dissect.seq_prepend,
      Dissect.prepend_prepend, Dissect.prepend_mk, Dissect.seq_mk_error, Dissect.seq_mk_ok,
      decode, Except.map, proto_tree_add_bitmask, Event.window,
        tvb_get_bytes_ok tvb 0 4 (by omega),
        tvb_get_bytes_ok tvb 4 2 (by omega),
        tvb_get_bytes_ok tvb 6 2 (by omega),
        tvb_get_bytes_ok tvb 8 2 (by omega),
        tvb_get_bytes_ok tvb 10 2 (by omega),
        tvb_get_guint8_ok tvb 12 (by omega),
        tvb_get_guint8_ok tvb 13 (by omega),
        tvb_get_bytes_ok tvb 12 1 (by omega),
        tvb_get_bytes_ok tvb 13 1 (by omega),
        tvb_get_bytes_error tvb 14 2 (by omega)]

theorem interlink_payload_stage_no_window (reg : Registry) (tvb : tvbuff_t) (tree : proto_tree)
    (h16 : 16 ≤ tvb.data.length) :
    (interlink_payload_stage reg tvb tree).sink.filterMap Event.window = [] := by
  cases hres : interlink_resolve reg (interlink_key tvb) with
  | none =>
    rw [interlink_payload_stage_unbound reg tvb tree h16 hres]
    rfl
  | some h =>
    rw [interlink_payload_stage_ok reg tvb tree h h16 hres]
    rfl

theorem interlink_payload_stage_result (reg : Registry) (tvb : tvbuff_t) (t : TreeNode)
    (h16 : 16 ≤ tvb.data.length) :
    (interlink_payload_stage reg tvb (some t)).result =
      (interlink_payload_stage reg tvb Option.none).result ∧
    (interlink_payload_stage reg tvb (some t)).sink.filterMap Event.callTarget =
      (interlink_payload_stage reg tvb Option.none).sink.filterMap Event.callTarget := by
  cases hres : interlink_resolve reg (interlink_key tvb) with
  | none =>
    rw [interlink_payload_stage_unbound reg tvb _ h16 hres,
      interlink_payload_stage_unbound reg tvb _ h16 hres]
    exact ⟨rfl, rfl⟩
  | some h =>
    rw [interlink_payload_stage_ok reg tvb _ h h16 hres,
      interlink_payload_stage_ok reg tvb _ h h16 hres]
    exact ⟨rfl, rfl⟩

theorem interlink_header_trace_no_target (tvb : tvbuff_t) (tree : proto_tree) :
    (interlink_header_trace tvb tree).filterMap Event.callTarget = [] := by
  cases tree <;> simp [interlink_header_trace, interlink_header_items, Event.callTarget]

theorem e100_heuristic_test_values_swapped_eq (tvb : tvbuff_t) :
    e100_heuristic_test_values_swapped tvb =
      .ok (decide (¬ (28 ≤ tvb.data.length ∧ byte_at tvb 0 = 1 ∧
        be32_at tvb 20 = guint_sub tvb.reported_length 28))) := by
  by_cases h : 28 ≤ tvb.data.length
  · have hlt : ¬ tvb.data.length < 28 := by omega
    by_cases hc : be32_at tvb 20 = guint_sub tvb.reported_length 28
    · simp [e100_heuristic_test_values_swapped, tvb_captured_length, e100_encap_len, hlt,
        e100_header_ver, tvb_get_guint8_ok tvb 0 (by omega), hc.symm, e100_bytes_cap,
        tvb_get_ntohl_ok tvb 20 (by omega), tvb_reported_length, h, bind, Except.bind, pure,
        Except.pure]
    · simp [e100_heuristic_test_values_swapped, tvb_captured_length, e100_encap_len, hlt,
        e100_bytes_cap, tvb_get_ntohl_ok tvb 20 (by omega), tvb_reported_length, hc, bind,
        Except.bind]
  · have hlt : tvb.data.length < 28 := by omega
    simp [e100_heuristic_test_values_swapped, tvb_captured_length, e100_encap_len, hlt]

theorem heur_error (reg : Registry) (tvb : tvbuff_t) (tree : proto_tree) (e : Exn)
    (h : (dissect_e100 reg tvb tree).result = .error e) :
    (dissect_e100_heur reg tvb tree).result = .error e := by
  rw [heur_result, h]
  rfl

theorem e100_header_trace_no_target (tvb : tvbuff_t) (tree : proto_tree) :
    (e100_header_trace tvb tree).filterMap Event.callTarget = [] := by
  cases tree <;> simp [e100_header_trace, e100_header_items, Event.callTarget]

/-- Every view the payload stage of `dissect_e100` hands over has a reported
length at least its captured length. -/
theorem e100_payload_stage_targets (reg : Registry) (tvb : tvbuff_t) (tree : proto_tree)
    (h : Nat) (v : tvbuff_t)
    (hmem : (h, v) ∈ (e100_payload_stage reg tvb tree).sink.filterMap Event.callTarget) :
    tvb_new_subset_length_caplen tvb 28 (guint32_to_gint (be32_at tvb 20))
      (guint32_to_gint (be32_at tvb 24)) = .ok v := by
  unfold e100_payload_stage at hmem
  cases hs : tvb_new_subset_length_caplen tvb 28 (guint32_to_gint (be32_at tvb 20))
      (guint32_to_gint (be32_at tvb 24)) with
  | error e =>
    rw [hs, Dissect.seq_lift_error] at hmem
    simp at hmem
  | ok w =>
    rw [hs, Dissect.seq_lift_ok] at hmem
    cases hreg : reg.eth_handle with
    | none =>
      rw [hreg] at hmem
      simp [call_dissector, Dissect.seq_lift_error] at hmem
    | some eth =>
      rw [hreg] at hmem
      simp [call_dissector, Dissect.seq_emit, Dissect.prepend_ret, Event.callTarget] at hmem
      rw [hmem.2]

/-- In a table whose handlers are pairwise distinct a handler belongs to one
key only. -/
theorem table_key_of_handler (table : List (Nat × Nat)) (k1 k2 h : Nat)
    (hnd : (table.map Prod.snd).Nodup) (h1 : (k1, h) ∈ table) (h2 : (k2, h) ∈ table) :
    k1 = k2 := by
  induction table with
  | nil => simp at h1
  | cons p ps ih =>
    simp only [List.map_cons, List.nodup_cons, List.mem_map, not_exists, not_and] at hnd
    rcases List.mem_cons.1 h1 with e1 | m1
    · rcases List.mem_cons.1 h2 with e2 | m2
      · rw [← e1] at e2
        injection e2 with e2 _
        exact e2.symm
      · exact absurd (by rw [← e1]) (hnd.1 (k2, h) m2)
    · rcases List.mem_cons.1 h2 with e2 | m2
      · exact absurd (by rw [← e2]) (hnd.1 (k1, h) m1)
      · exact ih hnd.2 m1 m2

/-- The handlers `dissect_interlink` calls on a buffer of at least 16 bytes:
the one its key resolves to. -/
theorem dissect_interlink_targets (reg : Registry) (tvb : tvbuff_t) (tree : proto_tree)
    (h16 : 16 ≤ tvb.data.length) :
    (dissect_interlink reg tvb tree).sink.filterMap Event.callTarget =
      match interlink_resolve reg (interlink_key tvb) with
      | some h => [(h, ⟨tvb.data.drop 16, tvb.reported_length - 16⟩)]
      | Option.none => [] := by
  cases hres : interlink_resolve reg (interlink_key tvb) with
  | none =>
    rw [dissect_interlink_run reg tvb tree h16,
      interlink_payload_stage_unbound reg tvb tree h16 hres]
    simp [Dissect.prepend, interlink_header_trace_no_target]
  | some h =>
    rw [dissect_interlink_ok reg tvb tree h h16 hres]
    simp [List.filterMap_append, interlink_header_trace_no_target, Event.callTarget]

/-! ## Claim C1 -/

/-- Claim C1, as amended. E100 round trip: take the 28-byte header that encodes
version 1, port `P`, sequence `S`, the IPv4 address, monitor id `M`, timestamp
`(sec, usec)`, bytes captured `C` below `2 ^ 31` and bytes original `O`
big-endian at the schema offsets, followed by `C` payload bytes, with captured
length `28 + C` and reported length `28 + C` (the third heuristic test compares
bytes captured with the reported length minus 28), and the Ethernet handle
wired. When `O` is below `2 ^ 31` or is 0xFFFFFFFF, `dissect_e100` accepts and
returns `28 + C`, `dissect_e100_heur` returns true, the items carry exactly `P`,
`S`, the address, `M`, `(sec, usec)`, `C`, `O`, and the payload view handed to
the Ethernet handler, with or without a tree, has reported length `R` (`O`, and
`C` for 0xFFFFFFFF) and holds the first `R` payload bytes, so its captured
length is the smaller of `C` and `R`; for `C ≤ O < 2 ^ 31` that is the whole
payload with captured length `C` and reported length `O`. For every other `O`
the same items are reported and the payload slice then raises `OutOfBounds`. -/
theorem e100_round_trip (reg : Registry) (eth : Nat) (t : TreeNode) (P : Fin 256)
    (S : Fin 65536) (ip0 ip1 ip2 ip3 : guint8) (M sec usec C O : Fin 4294967296)
    (payload : List guint8)
    (hreg : reg.eth_handle = some eth) (hpay : payload.length = C.val)
    (hC : C.val < 2 ^ 31) :
    (O.val < 2 ^ 31 ∨ O.val = 2 ^ 32 - 1 →
      dissect_e100 reg (spec_e100_frame P S ip0 ip1 ip2 ip3 M sec usec C O payload) (some t) =
        ⟨spec_e100_items t P S ip0 ip1 ip2 ip3 M sec usec C O ++
          [Event.call eth
            ⟨payload.take (spec_view_reported C O), spec_view_reported C O⟩ (some t)],
          .ok (28 + C)⟩ ∧
      (dissect_e100_heur reg (spec_e100_frame P S ip0 ip1 ip2 ip3 M sec usec C O payload)
        (some t)).result = .ok true ∧
      dissect_e100 reg (spec_e100_frame P S ip0 ip1 ip2 ip3 M sec usec C O payload)
          Option.none =
        ⟨[ Event.col_set_str Column.COL_PROTOCOL "e100",
           Event.col_set_str Column.COL_INFO "E100 Encapsulated Packet",
           Event.call eth
             ⟨payload.take (spec_view_reported C O), spec_view_reported C O⟩ Option.none ],
          .ok (28 + C)⟩ ∧
      tvb_captured_length ⟨payload.take (spec_view_reported C O), spec_view_reported C O⟩ =
        min C.val (spec_view_reported C O) ∧
      tvb_reported_length ⟨payload.take (spec_view_reported C O), spec_view_reported C O⟩ =
        spec_view_reported C O) ∧
    (C.val ≤ O.val → O.val < 2 ^ 31 →
      (⟨payload.take (spec_view_reported C O), spec_view_reported C O⟩ : tvbuff_t) =
        ⟨payload, O⟩ ∧
      tvb_captured_length ⟨payload, O⟩ = C ∧ tvb_reported_length ⟨payload, O⟩ = O) ∧
    (2 ^ 31 ≤ O.val → O.val < 2 ^ 32 - 1 →
      dissect_e100 reg (spec_e100_frame P S ip0 ip1 ip2 ip3 M sec usec C O payload) (some t) =
        ⟨spec_e100_items t P S ip0 ip1 ip2 ip3 M sec usec C O, .error Exn.OutOfBounds⟩ ∧
      (dissect_e100_heur reg (spec_e100_frame P S ip0 ip1 ip2 ip3 M sec usec C O payload)
        (some t)).result = .error Exn.OutOfBounds) := by
  have hP := P.isLt
  have hS := S.isLt
  have hM := M.isLt
  have hsec := sec.isLt
  have husec := usec.isLt
  have hO := O.isLt
  have hlen : (spec_e100_header P S ip0 ip1 ip2 ip3 M sec usec C O ++ payload).length
      = 28 + C := by
    simp [spec_e100_header, hpay]; omega
  have h0 : byte_at ⟨spec_e100_header P S ip0 ip1 ip2 ip3 M sec usec C O ++ payload, 28 + C⟩ 0
      = 1 := by
    simp [byte_at, spec_e100_header, low_byte_val]
  have h1 : byte_at ⟨spec_e100_header P S ip0 ip1 ip2 ip3 M sec usec C O ++ payload, 28 + C⟩ 1
      = P := by
    simp [byte_at, spec_e100_header, low_byte_val]
  have h2 : be16_at ⟨spec_e100_header P S ip0 ip1 ip2 ip3 M sec usec C O ++ payload, 28 + C⟩ 2
      = S := by
    simp [be16_at, byte_at, spec_e100_header, low_byte_val]
    omega
  have h4 : ((spec_e100_header P S ip0 ip1 ip2 ip3 M sec usec C O ++ payload).drop 4).take 4
      = [ip0, ip1, ip2, ip3] := by
    simp [spec_e100_header]
  have h8 : be32_at ⟨spec_e100_header P S ip0 ip1 ip2 ip3 M sec usec C O ++ payload, 28 + C⟩ 8
      = M := by
    simp [be32_at, byte_at, spec_e100_header, low_byte_val]
    omega
  have h12 : be32_at ⟨spec_e100_header P S ip0 ip1 ip2 ip3 M sec usec C O ++ payload, 28 + C⟩ 12
      = sec := by
    simp [be32_at, byte_at, spec_e100_header, low_byte_val]
    omega
  have h16 : be32_at ⟨spec_e100_header P S ip0 ip1 ip2 ip3 M sec usec C O ++ payload, 28 + C⟩ 16
      = usec := by
    simp [be32_at, byte_at, spec_e100_header, low_byte_val]
    omega
  have h20 : be32_at ⟨spec_e100_header P S ip0 ip1 ip2 ip3 M sec usec C O ++ payload, 28 + C⟩ 20
      = C := by
    simp [be32_at, byte_at, spec_e100_header, low_byte_val]
    omega
  have h24 : be32_at ⟨spec_e100_header P S ip0 ip1 ip2 ip3 M sec usec C O ++ payload, 28 + C⟩ 24
      = O := by
    simp [be32_at, byte_at, spec_e100_header, low_byte_val]
    omega
  have hpl : ((spec_e100_header P S ip0 ip1 ip2 ip3 M sec usec C O ++ payload).drop 28).take C
      = payload := by
    simp [spec_e100_header, ← hpay]
  have hsub : guint_sub (28 + C.val) 28 = C := by
    unfold guint_sub
    omega
  have hrep : e100_view_reported
      ⟨spec_e100_header P S ip0 ip1 ip2 ip3 M sec usec C O ++ payload, 28 + C⟩ =
      spec_view_reported C O := by
    simp only [e100_view_reported, spec_view_reported, h24, tvb_reported_length, hsub]
  have hview : e100_view
      ⟨spec_e100_header P S ip0 ip1 ip2 ip3 M sec usec C O ++ payload, 28 + C⟩ =
      ⟨payload.take (spec_view_reported C O), spec_view_reported C O⟩ := by
    simp only [e100_view, hrep, h20, hpl]
  have hacc : ∀ tree, dissect_e100 reg
      ⟨spec_e100_header P S ip0 ip1 ip2 ip3 M sec usec C O ++ payload, 28 + C⟩ tree = _ :=
    fun tree => dissect_e100_accept reg _ tree (by simp only [hlen]; omega) h0
      (by rw [h20]; exact hsub.symm)
  have hgood : O.val < 2 ^ 31 ∨ O.val = 2 ^ 32 - 1 → e100_slice_good
      ⟨spec_e100_header P S ip0 ip1 ip2 ip3 M sec usec C O ++ payload, 28 + C⟩ := by
    intro h
    refine ⟨by rw [h20]; exact hC, ?_, by rw [h24]; exact h⟩
    rw [h20]
    simp only [tvb_captured_length, hlen]
    omega
  refine ⟨?_, ?_, ?_⟩
  · intro hOk
    have key : dissect_e100 reg
        ⟨spec_e100_header P S ip0 ip1 ip2 ip3 M sec usec C O ++ payload, 28 + C⟩ (some t) =
        ⟨spec_e100_items t P S ip0 ip1 ip2 ip3 M sec usec C O ++
          [Event.call eth
            ⟨payload.take (spec_view_reported C O), spec_view_reported C O⟩ (some t)],
          .ok (28 + C)⟩ := by
      rw [hacc (some t), e100_payload_stage_ok reg _ (some t) eth (hgood hOk) hreg, hview]
      simp only [Dissect.prepend_mk, e100_header_trace, e100_header_items, spec_e100_items, hlen,
        h0, h1, h2, h4, h8, h12, h16, h20, h24, List.cons_append, List.nil_append]
    refine ⟨key, ?_, ?_, ?_, rfl⟩
    · simp only [spec_e100_frame]
      rw [dissect_e100_heur_eq, key, Dissect.seq_mk_ok]
      simp [Dissect.prepend, Dissect.ret]
    · simp only [spec_e100_frame]
      rw [hacc Option.none, e100_payload_stage_ok reg _ Option.none eth (hgood hOk) hreg, hview]
      simp only [Dissect.prepend_mk, e100_header_trace, hlen, List.cons_append,
        List.nil_append, List.append_nil]
    · simp only [tvb_captured_length, List.length_take, hpay]
      omega
  · intro hle hlt
    have hne : O.val ≠ 2 ^ 32 - 1 := by omega
    have hR : spec_view_reported C O = O := by
      simp only [spec_view_reported, if_neg hne]
    rw [hR, List.take_of_length_le (by omega)]
    exact ⟨rfl, hpay, rfl⟩
  · intro hge hlt
    have hbad : ¬ e100_slice_good
        ⟨spec_e100_header P S ip0 ip1 ip2 ip3 M sec usec C O ++ payload, 28 + C⟩ := by
      rintro ⟨_, _, h⟩
      rw [h24] at h
      omega
    have key : dissect_e100 reg
        ⟨spec_e100_header P S ip0 ip1 ip2 ip3 M sec usec C O ++ payload, 28 + C⟩ (some t) =
        ⟨spec_e100_items t P S ip0 ip1 ip2 ip3 M sec usec C O, .error Exn.OutOfBounds⟩ := by
      rw [hacc (some t), e100_payload_stage_oob reg _ (some t) (by rw [h20]; omega) hbad]
      simp only [Dissect.prepend_mk, e100_header_trace, e100_header_items, spec_e100_items, hlen,
        h0, h1, h2, h4, h8, h12, h16, h20, h24, List.cons_append, List.nil_append,
        List.append_nil]
    refine ⟨key, ?_⟩
    simp only [spec_e100_frame]
    rw [dissect_e100_heur_eq, key, Dissect.seq_mk_error]

/-- Claim C1, witness: port 2, sequence 3, address 10.0.0.1, monitor id 9,
timestamp (1, 2), two payload bytes; with bytes original 5 the Ethernet handler
gets both bytes with reported length 5, with bytes original 1 it gets one byte
with reported length 1. -/
theorem e100_round_trip_witness :
    (⟨some 1, some 2, []⟩ : Registry).eth_handle = some 1 ∧
    ([0xAA, 0xBB] : List guint8).length = (2 : Fin 4294967296).val ∧
    (2 : Fin 4294967296).val < 2 ^ 31 ∧
    (dissect_e100 ⟨some 1, some 2, []⟩
        (spec_e100_frame (2 : Fin 256) (3 : Fin 65536) 10 0 0 1 (9 : Fin 4294967296)
          (1 : Fin 4294967296) (2 : Fin 4294967296) (2 : Fin 4294967296)
          (5 : Fin 4294967296) [0xAA, 0xBB])
        Option.none).sink.map Event.callTarget =
      [Option.none, Option.none, some (1, ⟨[0xAA, 0xBB], 5⟩)] ∧
    (dissect_e100 ⟨some 1, some 2, []⟩
        (spec_e100_frame (2 : Fin 256) (3 : Fin 65536) 10 0 0 1 (9 : Fin 4294967296)
          (1 : Fin 4294967296) (2 : Fin 4294967296) (2 : Fin 4294967296)
          (1 : Fin 4294967296) [0xAA, 0xBB])
        Option.none).sink.map Event.callTarget =
      [Option.none, Option.none, some (1, ⟨[0xAA], 1⟩)] :=
  ⟨rfl, rfl, by decide, by
    rw [((e100_round_trip ⟨some 1, some 2, []⟩ 1 TreeNode.top 2 3 10 0 0 1 9 1 2 2 5
      [0xAA, 0xBB] rfl rfl (by decide)).1 (Or.inl (by decide))).2.2.1]
    rfl, by
    rw [((e100_round_trip ⟨some 1, some 2, []⟩ 1 TreeNode.top 2 3 10 0 0 1 9 1 2 2 1
      [0xAA, 0xBB] rfl rfl (by decide)).1 (Or.inl (by decide))).2.2.1]
    rfl⟩

/-- Claim C1 as stated fails: with bytes captured `0`, bytes original `1`, no
payload, captured length `28 + 0` and reported length `28 + 1`, the buffer is
turned down: `dissect_e100` returns `0` and `dissect_e100_heur` returns false. -/
theorem e100_round_trip_as_stated_fails :
    tvb_captured_length ⟨spec_e100_header 0 0 0 0 0 0 0 0 0 0 1 ++ [], 28 + 1⟩ = 28 + 0 ∧
    tvb_reported_length ⟨spec_e100_header 0 0 0 0 0 0 0 0 0 0 1 ++ [], 28 + 1⟩ = 28 + 1 ∧
    dissect_e100 ⟨some 1, some 2, []⟩
      ⟨spec_e100_header 0 0 0 0 0 0 0 0 0 0 1 ++ [], 28 + 1⟩ (some TreeNode.top) = ⟨[], .ok 0⟩ ∧
    (dissect_e100_heur ⟨some 1, some 2, []⟩
      ⟨spec_e100_header 0 0 0 0 0 0 0 0 0 0 1 ++ [], 28 + 1⟩ (some TreeNode.top)).result
      = .ok false := by
  refine ⟨rfl, rfl, rfl, rfl⟩

/-! ## Claim C2 -/

/-- Claim C2, as amended. For every buffer whose captured length does not exceed
its reported length: `dissect_e100` rejects (returns `0`, emits nothing, and
`dissect_e100_heur` returns false) if and only if one of the three checks fails
(captured length at least 28, byte 0 equal to 1, big-endian 32-bit value at
offset 20 equal to the reported length minus 28). When all three hold it never
returns `0`, and what it does is decided by the payload slice, which goes
through exactly when the buffer is not truncated (captured = reported), is
shorter than `2 ^ 31 + 28` bytes, and bytes original is below `2 ^ 31` or is
0xFFFFFFFF: if the slice goes through and the Ethernet handle is wired,
`dissect_e100` returns the non-zero captured length and the heuristic true; if
it goes through and no Ethernet handle is wired, both raise
`UnboundDependency`; if it does not go through, both raise `OutOfBounds`. A
buffer whose byte 0 is not 1 is rejected whatever else it holds. The length
check has to come first; behind it the two value checks can be swapped without
any change to the test or to `dissect_e100`. -/
theorem e100_matcher_characterisation (reg : Registry) (tvb : tvbuff_t) (tree : proto_tree)
    (hwf : tvb_wf tvb) :
    (¬ e100_matcher tvb ↔ dissect_e100 reg tvb tree = ⟨[], .ok 0⟩) ∧
    (¬ e100_matcher tvb ↔ dissect_e100_heur reg tvb tree = ⟨[], .ok false⟩) ∧
    (e100_matcher tvb → (dissect_e100 reg tvb tree).result ≠ .ok 0 ∧
      (dissect_e100_heur reg tvb tree).result ≠ .ok false) ∧
    (e100_matcher tvb →
      (e100_slice_good tvb ↔
        tvb_captured_length tvb = tvb_reported_length tvb ∧
        tvb_captured_length tvb < 2 ^ 31 + 28 ∧
        (be32_at tvb 24 < 2 ^ 31 ∨ be32_at tvb 24 = 2 ^ 32 - 1))) ∧
    (e100_matcher tvb → e100_slice_good tvb → ∀ eth, reg.eth_handle = some eth →
      (dissect_e100 reg tvb tree).result = .ok (tvb_captured_length tvb) ∧
      0 < tvb_captured_length tvb ∧
      (dissect_e100_heur reg tvb tree).result = .ok true) ∧
    (e100_matcher tvb → e100_slice_good tvb → reg.eth_handle = Option.none →
      (dissect_e100 reg tvb tree).result = .error Exn.UnboundDependency ∧
      (dissect_e100_heur reg tvb tree).result = .error Exn.UnboundDependency) ∧
    (e100_matcher tvb → ¬ e100_slice_good tvb →
      (dissect_e100 reg tvb tree).result = .error Exn.OutOfBounds ∧
      (dissect_e100_heur reg tvb tree).result = .error Exn.OutOfBounds) ∧
    (byte_at tvb 0 ≠ 1 → dissect_e100 reg tvb tree = ⟨[], .ok 0⟩ ∧
      dissect_e100_heur reg tvb tree = ⟨[], .ok false⟩) ∧
    e100_heuristic_test_values_swapped tvb = e100_heuristic_test tvb ∧
    dissect_e100 reg tvb tree =
      Dissect.seq (Dissect.lift (e100_heuristic_test_values_swapped tvb)) fun reject =>
        if reject then Dissect.ret 0
        else Dissect.prepend (e100_header_trace tvb tree) (e100_payload_stage reg tvb tree) := by
  have hne : e100_matcher tvb → (dissect_e100 reg tvb tree).result ≠ .ok 0 := by
    intro hm
    rw [dissect_e100_matched reg tvb tree hwf hm]
    exact e100_payload_stage_ne_zero reg tvb tree hm.1 (e100_matched_cap_lt tvb hwf hm)
  have hne2 : e100_matcher tvb → (dissect_e100_heur reg tvb tree).result ≠ .ok false := by
    intro hm hf
    rw [heur_result] at hf
    have h1 := hne hm
    cases hr : (dissect_e100 reg tvb tree).result with
    | error e => rw [hr] at hf; simp [Except.map] at hf
    | ok n =>
      rw [hr] at hf h1
      simp [Except.map] at hf h1
      omega
  have hsw : e100_heuristic_test_values_swapped tvb = e100_heuristic_test tvb := by
    rw [e100_heuristic_test_values_swapped_eq, e100_heuristic_test_eq]
  refine ⟨⟨fun hm => dissect_e100_reject reg tvb tree hwf hm, ?_⟩,
    ⟨fun hm => heur_of_reject reg tvb tree (dissect_e100_reject reg tvb tree hwf hm), ?_⟩,
    fun hm => ⟨hne hm, hne2 hm⟩, fun hm => e100_slice_good_iff tvb hwf hm, ?_, ?_, ?_, ?_, hsw,
    ?_⟩
  · intro h hm
    exact hne hm (by rw [h])
  · intro h hm
    exact hne2 hm (by rw [h])
  · intro hm hg eth hreg
    have h28 : 28 ≤ tvb.data.length := hm.1
    have hd : dissect_e100 reg tvb tree = _ := dissect_e100_matched reg tvb tree hwf hm
    rw [e100_payload_stage_ok reg tvb tree eth hg hreg] at hd
    refine ⟨by rw [hd]; rfl, by simp only [tvb_captured_length]; omega, ?_⟩
    rw [heur_result, hd]
    simp [Dissect.prepend, Except.map]
    omega
  · intro hm hg hreg
    have hd : dissect_e100 reg tvb tree = _ := dissect_e100_matched reg tvb tree hwf hm
    rw [e100_payload_stage_unbound reg tvb tree hg hreg] at hd
    have hr : (dissect_e100 reg tvb tree).result = .error Exn.UnboundDependency := by
      rw [hd]
      rfl
    exact ⟨hr, heur_error reg tvb tree _ hr⟩
  · intro hm hg
    have hd : dissect_e100 reg tvb tree = _ := dissect_e100_matched reg tvb tree hwf hm
    rw [e100_payload_stage_oob reg tvb tree (e100_matched_cap_lt tvb hwf hm) hg] at hd
    have hr : (dissect_e100 reg tvb tree).result = .error Exn.OutOfBounds := by
      rw [hd]
      rfl
    exact ⟨hr, heur_error reg tvb tree _ hr⟩
  · intro h0
    have hm : ¬ e100_matcher tvb := fun hm => h0 hm.2.1
    exact ⟨dissect_e100_reject reg tvb tree hwf hm,
      heur_of_reject reg tvb tree (dissect_e100_reject reg tvb tree hwf hm)⟩
  · rw [hsw]
    exact dissect_e100_factor reg tvb tree

/-- Claim C2, witness: a matching 30-byte frame never yields `0`, and with the
Ethernet handle wired it returns 30. -/
theorem e100_matcher_characterisation_witness :
    tvb_wf ⟨spec_e100_header 7 9 10 0 0 1 5 6 7 2 64 ++ [1, 2], 30⟩ ∧
    e100_matcher ⟨spec_e100_header 7 9 10 0 0 1 5 6 7 2 64 ++ [1, 2], 30⟩ ∧
    e100_slice_good ⟨spec_e100_header 7 9 10 0 0 1 5 6 7 2 64 ++ [1, 2], 30⟩ ∧
    (dissect_e100 ⟨some 1, some 2, []⟩ ⟨spec_e100_header 7 9 10 0 0 1 5 6 7 2 64 ++ [1, 2], 30⟩
      Option.none).result ≠ .ok 0 ∧
    (dissect_e100 ⟨some 1, some 2, []⟩ ⟨spec_e100_header 7 9 10 0 0 1 5 6 7 2 64 ++ [1, 2], 30⟩
      Option.none).result = .ok 30 :=
  ⟨by decide, by decide, by decide,
    ((e100_matcher_characterisation ⟨some 1, some 2, []⟩
      ⟨spec_e100_header 7 9 10 0 0 1 5 6 7 2 64 ++ [1, 2], 30⟩ Option.none
      (by decide)).2.2.1 (by decide)).1,
    ((e100_matcher_characterisation ⟨some 1, some 2, []⟩
      ⟨spec_e100_header 7 9 10 0 0 1 5 6 7 2 64 ++ [1, 2], 30⟩ Option.none
      (by decide)).2.2.2.2.1 (by decide) (by decide) 1 rfl).1⟩

/-- Claim C2 as stated fails. A 28-byte buffer with byte 0 equal to 1, bytes
captured 2 and reported length 30 passes all three checks, yet `dissect_e100`
does not return non-zero and `dissect_e100_heur` does not return true: the
payload slice raises `OutOfBounds`. And the order of the checks does change the
result: on the empty buffer the test of `dissect_e100` says "not ours" without
a read, while the same three checks with the version check first raise
`OutOfBounds`. -/
theorem e100_matcher_iff_accept_fails :
    tvb_wf ⟨spec_e100_header 0 0 0 0 0 0 0 0 0 2 2, 30⟩ ∧
    e100_matcher ⟨spec_e100_header 0 0 0 0 0 0 0 0 0 2 2, 30⟩ ∧
    (dissect_e100 ⟨some 1, some 2, []⟩ ⟨spec_e100_header 0 0 0 0 0 0 0 0 0 2 2, 30⟩
      (some TreeNode.top)).result = .error Exn.OutOfBounds ∧
    (dissect_e100_heur ⟨some 1, some 2, []⟩ ⟨spec_e100_header 0 0 0 0 0 0 0 0 0 2 2, 30⟩
      (some TreeNode.top)).result = .error Exn.OutOfBounds ∧
    e100_heuristic_test ⟨[], 0⟩ = .ok true ∧
    e100_heuristic_test_read_first ⟨[], 0⟩ = .error Exn.OutOfBounds := by
  refine ⟨by decide, by decide, rfl, rfl, rfl, rfl⟩

/-! ## Claim C3 -/

/-- Claim C3. The heuristic check of `dissect_interlink_heur` accepts, that is
goes on to run `dissect_interlink`, if and only if at least 4 bytes are
available and bytes 0..3 are 'I', 'L', 'N', 'K'; every other buffer, among them
every buffer shorter than 4 bytes, makes it return false with nothing emitted,
so without `dissect_interlink` having been invoked. -/
theorem interlink_matcher_characterisation (reg : Registry) (tvb : tvbuff_t)
    (tree : proto_tree) :
    (interlink_matcher tvb ↔
      dissect_interlink_heur reg tvb tree =
        Dissect.seq (dissect_interlink reg tvb tree) fun _ => Dissect.ret true) ∧
    (¬ interlink_matcher tvb ↔ dissect_interlink_heur reg tvb tree = ⟨[], .ok false⟩) ∧
    (tvb_captured_length tvb < 4 → dissect_interlink_heur reg tvb tree = ⟨[], .ok false⟩) := by
  have hseq : (Dissect.seq (dissect_interlink reg tvb tree) fun _ => Dissect.ret true).sink
      ≠ [] := by
    have h := dissect_interlink_sink_ne_nil reg tvb tree
    rcases hd : dissect_interlink reg tvb tree with ⟨s, r⟩
    rw [hd] at h
    cases r <;> simp [Dissect.seq, Dissect.ret] <;> exact h
  refine ⟨⟨dissect_interlink_heur_match reg tvb tree, ?_⟩,
    ⟨dissect_interlink_heur_reject reg tvb tree, ?_⟩, ?_⟩
  · intro h
    by_contra hm
    rw [dissect_interlink_heur_reject reg tvb tree hm] at h
    exact hseq (by rw [← h])
  · intro h hm
    rw [dissect_interlink_heur_match reg tvb tree hm] at h
    exact hseq (by rw [h])
  · intro h
    exact dissect_interlink_heur_reject reg tvb tree (fun hm => by have := hm.1; omega)

/-- Claim C3, witness: the three bytes "ILN" are turned down. -/
theorem interlink_matcher_characterisation_witness :
    tvb_captured_length ⟨[73, 76, 78], 3⟩ < 4 ∧
    dissect_interlink_heur ⟨some 1, some 2, []⟩ ⟨[73, 76, 78], 3⟩ Option.none
      = ⟨[], .ok false⟩ :=
  ⟨by decide, (interlink_matcher_characterisation ⟨some 1, some 2, []⟩ ⟨[73, 76, 78], 3⟩
    Option.none).2.2 (by decide)⟩

/-! ## Claim C4 -/

/-- Claim C4, as amended. The two files do not turn an out-of-bounds error into
"no match": for every buffer that starts with "ILNK" and has at most 15
captured bytes `dissect_interlink_heur` raises `OutOfBounds`, and for every
buffer accepted by the E100 matcher whose payload slice (offset 28, length
bytes captured) exceeds the captured data `dissect_e100` and
`dissect_e100_heur` raise `OutOfBounds`; neither returns false. -/
theorem errors_propagate_to_caller (reg : Registry) (tvb : tvbuff_t) (tree : proto_tree) :
    (interlink_matcher tvb → tvb_captured_length tvb ≤ 15 →
      (dissect_interlink_heur reg tvb tree).result = .error Exn.OutOfBounds) ∧
    (tvb_wf tvb → e100_matcher tvb → tvb_captured_length tvb < 28 + be32_at tvb 20 →
      (dissect_e100 reg tvb tree).result = .error Exn.OutOfBounds ∧
      (dissect_e100_heur reg tvb tree).result = .error Exn.OutOfBounds) := by
  constructor
  · intro hm hlen
    simp only [tvb_captured_length] at hlen
    obtain ⟨s, hs⟩ := dissect_interlink_short reg tvb tree (by omega)
    rw [dissect_interlink_heur_match reg tvb tree hm]
    exact Dissect.seq_result_error _ _ s _ hs
  · intro hwf hm hlen
    simp only [tvb_captured_length] at hlen
    have hbad : ¬ e100_slice_good tvb := by
      rintro ⟨_, hfit, _⟩
      simp only [tvb_captured_length] at hfit
      omega
    have hd : (dissect_e100 reg tvb tree).result = .error Exn.OutOfBounds := by
      rw [dissect_e100_matched reg tvb tree hwf hm,
        e100_payload_stage_oob reg tvb tree (e100_matched_cap_lt tvb hwf hm) hbad]
      rfl
    refine ⟨hd, ?_⟩
    rw [heur_result, hd]
    rfl

/-- Claim C4, witness: "ILNK" followed by two bytes, with a tree; and an E100
frame that announces four captured bytes and carries one. -/
theorem errors_propagate_to_caller_witness :
    interlink_matcher ⟨[73, 76, 78, 75, 3, 0], 6⟩ ∧
    tvb_captured_length ⟨[73, 76, 78, 75, 3, 0], 6⟩ ≤ 15 ∧
    (dissect_interlink_heur ⟨some 1, some 2, []⟩ ⟨[73, 76, 78, 75, 3, 0], 6⟩
      (some TreeNode.top)).result = .error Exn.OutOfBounds ∧
    tvb_wf ⟨spec_e100_header 7 9 10 0 0 1 5 6 7 4 64 ++ [1], 32⟩ ∧
    e100_matcher ⟨spec_e100_header 7 9 10 0 0 1 5 6 7 4 64 ++ [1], 32⟩ ∧
    tvb_captured_length ⟨spec_e100_header 7 9 10 0 0 1 5 6 7 4 64 ++ [1], 32⟩ <
      28 + be32_at ⟨spec_e100_header 7 9 10 0 0 1 5 6 7 4 64 ++ [1], 32⟩ 20 ∧
    (dissect_e100_heur ⟨some 1, some 2, []⟩
      ⟨spec_e100_header 7 9 10 0 0 1 5 6 7 4 64 ++ [1], 32⟩ Option.none).result
      = .error Exn.OutOfBounds :=
  ⟨by decide, by decide,
    (errors_propagate_to_caller ⟨some 1, some 2, []⟩ ⟨[73, 76, 78, 75, 3, 0], 6⟩
      (some TreeNode.top)).1 (by decide) (by decide),
    by decide, by decide, by decide,
    ((errors_propagate_to_caller ⟨some 1, some 2, []⟩
      ⟨spec_e100_header 7 9 10 0 0 1 5 6 7 4 64 ++ [1], 32⟩ Option.none).2
      (by decide) (by decide) (by decide)).2⟩

/-- Claim C4 as stated fails: on the four bytes "ILNK" `dissect_interlink_heur`
raises `OutOfBounds`; it does not return false. -/
theorem errors_become_nomatch_fails :
    interlink_matcher ⟨[73, 76, 78, 75], 4⟩ ∧
    4 ≤ tvb_captured_length ⟨[73, 76, 78, 75], 4⟩ ∧
    tvb_captured_length ⟨[73, 76, 78, 75], 4⟩ ≤ 15 ∧
    (dissect_interlink_heur ⟨some 1, some 2, []⟩ ⟨[73, 76, 78, 75], 4⟩ Option.none).result
      = .error Exn.OutOfBounds ∧
    (dissect_interlink_heur ⟨some 1, some 2, []⟩ ⟨[73, 76, 78, 75], 4⟩ Option.none).result
      ≠ .ok false := by
  refine ⟨by decide, by decide, by decide, rfl, ?_⟩
  intro h
  cases h

/-! ## Claim C5 -/

/-- Claim C5, as amended. For every buffer accepted by the E100 matcher on which
`dissect_e100` returns, the Ethernet handler is called once, after the header
trace, with a view that starts at offset 28 of the input. Its reported length is
the big-endian 32-bit value at offset 24 (bytes original), and for the bit
pattern 0xFFFFFFFF the reported length of the input minus 28. Its captured
length is the smaller of the big-endian 32-bit value at offset 20 (bytes
captured) and that reported length, and its bytes are the input bytes from 28
on. When bytes original is at least bytes captured, the view has captured
length bytes captured and holds the input bytes 28 .. 28 + bytes captured - 1. -/
theorem e100_payload_window (reg : Registry) (tvb : tvbuff_t) (tree : proto_tree) (n : Nat)
    (hwf : tvb_wf tvb) (hm : e100_matcher tvb)
    (hok : (dissect_e100 reg tvb tree).result = .ok n) :
    ∃ eth next_tvb,
      reg.eth_handle = some eth ∧
      (dissect_e100 reg tvb tree).sink =
        e100_header_trace tvb tree ++ [Event.call eth next_tvb tree] ∧
      tvb_reported_length next_tvb =
        (if be32_at tvb 24 = 2 ^ 32 - 1 then tvb_reported_length tvb - 28
          else be32_at tvb 24) ∧
      tvb_captured_length next_tvb = min (be32_at tvb 20) (tvb_reported_length next_tvb) ∧
      next_tvb.data = (tvb.data.drop 28).take (tvb_captured_length next_tvb) ∧
      (∀ i, i < tvb_captured_length next_tvb → byte_at next_tvb i = byte_at tvb (28 + i)) ∧
      (be32_at tvb 20 ≤ be32_at tvb 24 →
        tvb_captured_length next_tvb = be32_at tvb 20 ∧
        next_tvb.data = (tvb.data.drop 28).take (be32_at tvb 20)) := by
  obtain ⟨hg, eth, hreg, hd⟩ := dissect_e100_completes reg tvb tree n hwf hm hok
  obtain ⟨hcap, hfit, horig⟩ := hg
  obtain ⟨hle, h32⟩ := hwf
  obtain ⟨h28, _, hc⟩ := hm
  simp only [tvb_captured_length, tvb_reported_length] at hle h32 h28 hc hfit
  have hR : e100_view_reported tvb =
      (if be32_at tvb 24 = 2 ^ 32 - 1 then tvb.reported_length - 28 else be32_at tvb 24) := by
    have hs : guint_sub tvb.reported_length 28 = tvb.reported_length - 28 :=
      guint_sub_eq _ _ (by omega) h32
    simp only [e100_view_reported, tvb_reported_length, hs]
  have hlen : (e100_view tvb).data.length = min (be32_at tvb 20) (e100_view_reported tvb) := by
    simp only [e100_view, List.length_take, List.length_drop]
    omega
  have hdata : (e100_view tvb).data =
      (tvb.data.drop 28).take (min (be32_at tvb 20) (e100_view_reported tvb)) := by
    simp only [e100_view, List.take_take, Nat.min_comm]
  refine ⟨eth, e100_view tvb, hreg, by rw [hd], ?_, ?_, ?_, ?_, ?_⟩
  · simp only [tvb_reported_length]
    exact hR
  · simp only [tvb_captured_length, tvb_reported_length]
    exact hlen
  · simp only [tvb_captured_length, hlen]
    exact hdata
  · intro i hi
    simp only [tvb_captured_length, hlen] at hi
    have hv : e100_view tvb =
        ⟨(tvb.data.drop 28).take (min (be32_at tvb 20) (e100_view_reported tvb)),
          e100_view_reported tvb⟩ := by
      rw [← hdata]
      rfl
    rw [hv]
    exact byte_at_window tvb.data 28 _ _ tvb.reported_length i hi
  · intro hge
    have hmin : min (be32_at tvb 20) (e100_view_reported tvb) = be32_at tvb 20 := by
      rw [hR]
      split <;> omega
    refine ⟨?_, ?_⟩
    · simp only [tvb_captured_length, hlen, hmin]
    · rw [hdata, hmin]

/-- Claim C5, witness: a 30-byte frame with two payload bytes and bytes original
64. -/
theorem e100_payload_window_witness :
    tvb_wf ⟨spec_e100_header 7 9 10 0 0 1 5 6 7 2 64 ++ [0xAA, 0xBB], 30⟩ ∧
    e100_matcher ⟨spec_e100_header 7 9 10 0 0 1 5 6 7 2 64 ++ [0xAA, 0xBB], 30⟩ ∧
    (dissect_e100 ⟨some 1, some 2, []⟩
      ⟨spec_e100_header 7 9 10 0 0 1 5 6 7 2 64 ++ [0xAA, 0xBB], 30⟩
      (some TreeNode.top)).result = .ok 30 ∧
    ∃ eth next_tvb,
      (dissect_e100 ⟨some 1, some 2, []⟩
        ⟨spec_e100_header 7 9 10 0 0 1 5 6 7 2 64 ++ [0xAA, 0xBB], 30⟩
        (some TreeNode.top)).sink =
        e100_header_trace ⟨spec_e100_header 7 9 10 0 0 1 5 6 7 2 64 ++ [0xAA, 0xBB], 30⟩
          (some TreeNode.top) ++ [Event.call eth next_tvb (some TreeNode.top)] ∧
      tvb_captured_length next_tvb = 2 ∧ tvb_reported_length next_tvb = 64 :=
  ⟨by decide, by decide, rfl, by
    obtain ⟨eth, next_tvb, _, hs, hr, _, _, _, hc⟩ :=
      e100_payload_window ⟨some 1, some 2, []⟩
        ⟨spec_e100_header 7 9 10 0 0 1 5 6 7 2 64 ++ [0xAA, 0xBB], 30⟩ (some TreeNode.top) 30
        (by decide) (by decide) (by rfl)
    exact ⟨eth, next_tvb, hs, (hc (by decide)).1, hr⟩⟩

/-- Claim C5 as stated fails. An accepted frame with bytes captured 2, bytes
original 1 and two payload bytes returns 30 and hands the Ethernet handler a
view of captured length 1, not 2, that holds the input byte 28 only. An
accepted frame with bytes captured 2 and bytes original 0xFFFFFFFF returns 30
and hands over a view of reported length 2, not 0xFFFFFFFF. -/
theorem e100_payload_window_as_stated_fails :
    tvb_wf ⟨spec_e100_header 7 9 10 0 0 1 5 6 7 2 1 ++ [0xAA, 0xBB], 30⟩ ∧
    e100_matcher ⟨spec_e100_header 7 9 10 0 0 1 5 6 7 2 1 ++ [0xAA, 0xBB], 30⟩ ∧
    be32_at ⟨spec_e100_header 7 9 10 0 0 1 5 6 7 2 1 ++ [0xAA, 0xBB], 30⟩ 20 = 2 ∧
    dissect_e100 ⟨some 1, some 2, []⟩
        ⟨spec_e100_header 7 9 10 0 0 1 5 6 7 2 1 ++ [0xAA, 0xBB], 30⟩ Option.none =
      ⟨[ Event.col_set_str Column.COL_PROTOCOL "e100",
         Event.col_set_str Column.COL_INFO "E100 Encapsulated Packet",
         Event.call 1 ⟨[0xAA], 1⟩ Option.none ], .ok 30⟩ ∧
    tvb_captured_length ⟨[0xAA], 1⟩ ≠
      be32_at ⟨spec_e100_header 7 9 10 0 0 1 5 6 7 2 1 ++ [0xAA, 0xBB], 30⟩ 20 ∧
    tvb_wf ⟨spec_e100_header 7 9 10 0 0 1 5 6 7 2 4294967295 ++ [0xAA, 0xBB], 30⟩ ∧
    e100_matcher ⟨spec_e100_header 7 9 10 0 0 1 5 6 7 2 4294967295 ++ [0xAA, 0xBB], 30⟩ ∧
    be32_at ⟨spec_e100_header 7 9 10 0 0 1 5 6 7 2 4294967295 ++ [0xAA, 0xBB], 30⟩ 24 =
      4294967295 ∧
    dissect_e100 ⟨some 1, some 2, []⟩
        ⟨spec_e100_header 7 9 10 0 0 1 5 6 7 2 4294967295 ++ [0xAA, 0xBB], 30⟩ Option.none =
      ⟨[ Event.col_set_str Column.COL_PROTOCOL "e100",
         Event.col_set_str Column.COL_INFO "E100 Encapsulated Packet",
         Event.call 1 ⟨[0xAA, 0xBB], 2⟩ Option.none ], .ok 30⟩ ∧
    tvb_reported_length ⟨[0xAA, 0xBB], 2⟩ ≠
      be32_at ⟨spec_e100_header 7 9 10 0 0 1 5 6 7 2 4294967295 ++ [0xAA, 0xBB], 30⟩ 24 := by
  refine ⟨by decide, by decide, by decide, rfl, by decide, by decide, by decide, by decide, rfl,
    by decide⟩

/-! ## Claim C6 -/

/-- Claim C6. For every buffer accepted by the E100 matcher, `dissect_e100` reports
in this order version = byte 0, port = byte 1, sequence = big-endian 16 bits at
offset 2, the four address bytes at offset 4, monitor id = big-endian 32 bits at
offset 8, timestamp = (big-endian 32 bits at 12, big-endian 32 bits at 16),
bytes captured = big-endian 32 bits at 20, bytes original = big-endian 32 bits
at 24, and then runs the payload stage; without a tree it goes straight to the
payload stage. Every schema window is in bounds, and an exception can only come
from the payload stage: `OutOfBounds` when the payload window runs past the
captured data or one of the two lengths is below `-1` as a signed 32-bit
number, `UnboundDependency` when no Ethernet handle is wired. -/
theorem e100_field_decoding (reg : Registry) (tvb : tvbuff_t) (t : TreeNode)
    (hwf : tvb_wf tvb) (hm : e100_matcher tvb) :
    dissect_e100 reg tvb (some t) =
      Dissect.prepend
        [ Event.col_set_str Column.COL_PROTOCOL "e100",
          Event.col_set_str Column.COL_INFO "E100 Encapsulated Packet",
          Event.item t Hf.proto_e100 0 28 Value.none,
          Event.item (TreeNode.sub Ett.ett_e100) Hf.hf_e100_header 0 1
            (Value.uint (byte_at tvb 0)),
          Event.item (TreeNode.sub Ett.ett_e100) Hf.hf_e100_port 1 1
            (Value.uint (byte_at tvb 1)),
          Event.item (TreeNode.sub Ett.ett_e100) Hf.hf_e100_seq 2 2
            (Value.uint (byte_at tvb 2 * 256 + byte_at tvb 3)),
          Event.item (TreeNode.sub Ett.ett_e100) Hf.hf_e100_ip 4 4
            (Value.ipv4 ((tvb.data.drop 4).take 4)),
          Event.item (TreeNode.sub Ett.ett_e100) Hf.hf_e100_mon_pkt_id 8 4
            (Value.uint (be32_at tvb 8)),
          Event.item (TreeNode.sub Ett.ett_e100) Hf.hf_e100_pkt_ts 12 8
            (Value.abstime (be32_at tvb 12) (be32_at tvb 16)),
          Event.item (TreeNode.sub Ett.ett_e100) Hf.hf_e100_bytes_cap 20 4
            (Value.uint (be32_at tvb 20)),
          Event.item (TreeNode.sub Ett.ett_e100) Hf.hf_e100_bytes_orig 24 4
            (Value.uint (be32_at tvb 24)) ]
        (e100_payload_stage reg tvb (some t)) ∧
    dissect_e100 reg tvb Option.none =
      Dissect.prepend
        [ Event.col_set_str Column.COL_PROTOCOL "e100",
          Event.col_set_str Column.COL_INFO "E100 Encapsulated Packet" ]
        (e100_payload_stage reg tvb Option.none) ∧
    ((tvb.data.drop 4).take 4).length = 4 ∧
    (∀ f ∈ [e100_header_ver, e100_port_recv, e100_seq, e100_ip, e100_mon_pkt_id, e100_ts,
        e100_bytes_cap, e100_bytes_orig], tvb_bytes_exist tvb f.offset f.len = true) ∧
    (∀ e, (dissect_e100 reg tvb (some t)).result = .error e →
      (e = Exn.OutOfBounds ∧
        (tvb_captured_length tvb < 28 + be32_at tvb 20 ∨ 2 ^ 31 ≤ be32_at tvb 20 ∨
          (2 ^ 31 ≤ be32_at tvb 24 ∧ be32_at tvb 24 < 2 ^ 32 - 1))) ∨
      (e = Exn.UnboundDependency ∧ reg.eth_handle = Option.none)) := by
  have hd := dissect_e100_matched reg tvb (some t) hwf hm
  have h28 : 28 ≤ tvb.data.length := hm.1
  refine ⟨hd, ?_, ?_, ?_, ?_⟩
  · rw [dissect_e100_matched reg tvb Option.none hwf hm]
    simp [e100_header_trace]
  · simp
    omega
  · intro f hf
    simp only [List.mem_cons, List.mem_singleton, List.not_mem_nil, or_false] at hf
    rcases hf with rfl | rfl | rfl | rfl | rfl | rfl | rfl | rfl <;>
      simp [tvb_bytes_exist, tvb_captured_length, e100_header_ver, e100_port_recv, e100_seq,
        e100_ip, e100_mon_pkt_id, e100_ts, e100_bytes_cap, e100_bytes_orig] <;> omega
  · intro e he
    rw [hd] at he
    by_cases hg : e100_slice_good tvb
    · cases hreg : reg.eth_handle with
      | none =>
        rw [e100_payload_stage_unbound reg tvb (some t) hg hreg] at he
        injection he with he
        exact Or.inr ⟨he.symm, rfl⟩
      | some eth =>
        rw [e100_payload_stage_ok reg tvb (some t) eth hg hreg] at he
        cases he
    · rw [e100_payload_stage_oob reg tvb (some t) (e100_matched_cap_lt tvb hwf hm) hg] at he
      injection he with he
      refine Or.inl ⟨he.symm, ?_⟩
      have h24 := be32_at_lt tvb 24
      by_contra hcon
      exact hg ⟨by omega, by omega, by omega⟩

/-- Claim C6, witness: the timestamp window of a matching 30-byte frame is in
bounds. -/
theorem e100_field_decoding_witness :
    tvb_wf ⟨spec_e100_header 7 9 10 0 0 1 5 6 7 2 64 ++ [0xAA, 0xBB], 30⟩ ∧
    e100_matcher ⟨spec_e100_header 7 9 10 0 0 1 5 6 7 2 64 ++ [0xAA, 0xBB], 30⟩ ∧
    tvb_bytes_exist ⟨spec_e100_header 7 9 10 0 0 1 5 6 7 2 64 ++ [0xAA, 0xBB], 30⟩
      e100_ts.offset e100_ts.len = true :=
  ⟨by decide, by decide,
    (e100_field_decoding ⟨some 1, some 2, []⟩
      ⟨spec_e100_header 7 9 10 0 0 1 5 6 7 2 64 ++ [0xAA, 0xBB], 30⟩ TreeNode.top
      (by decide) (by decide)).2.2.2.1 e100_ts (by simp)⟩

/-! ## Claim C7 -/

/-- Claim C7. For every buffer with at least 16 captured bytes `dissect_interlink`
looks the handler up under the key `byte 12 * 256 + byte 13`, which is what
`type << 8 | version` comes to, with or without the 16-bit truncation; the key
is at most 65535, equals the big-endian 16-bit value at offset 12, depends on
bytes 12 and 13 only, and is 1282 for block type 5 and block version 2. -/
theorem interlink_dispatch_key (reg : Registry) (tvb : tvbuff_t) (tree : proto_tree)
    (h16 : 16 ≤ tvb_captured_length tvb) :
    dissect_interlink reg tvb tree =
      Dissect.prepend (interlink_header_trace tvb tree)
        (Dissect.seq
          (call_dissector
            (match dissector_get_uint_handle reg.subdissector_table
                (byte_at tvb 12 * 256 + byte_at tvb 13) with
              | some h => some h
              | Option.none => reg.data_handle)
            ⟨tvb.data.drop 16, tvb.reported_length - 16⟩ tree)
          fun _ => Dissect.ret (tvb_captured_length tvb)) ∧
    (byte_at tvb 12 <<< 8 ||| byte_at tvb 13) % 2 ^ 16 = byte_at tvb 12 * 256 + byte_at tvb 13 ∧
    byte_at tvb 12 <<< 8 ||| byte_at tvb 13 = byte_at tvb 12 * 256 + byte_at tvb 13 ∧
    byte_at tvb 12 * 256 + byte_at tvb 13 ≤ 65535 ∧
    byte_at tvb 12 * 256 + byte_at tvb 13 = be_uint ((tvb.data.drop 12).take 2) ∧
    (∀ tvb' : tvbuff_t, byte_at tvb' 12 = byte_at tvb 12 → byte_at tvb' 13 = byte_at tvb 13 →
      interlink_key tvb' = interlink_key tvb) ∧
    (∀ len0 len1, interlink_key (spec_interlink_example len0 len1) = 1282) := by
  simp only [tvb_captured_length] at h16
  have h12 := byte_at_lt tvb 12
  have h13 := byte_at_lt tvb 13
  refine ⟨?_, ?_, shl8_or _ _ h13, by omega, ?_, ?_, ?_⟩
  · have hb : tvb_get_bytes tvb 16 (tvb.data.length - 16) = .ok (tvb.data.drop 16) := by
      rw [tvb_get_bytes_ok tvb 16 _ (by omega)]
      simp
    rw [dissect_interlink_run reg tvb tree h16]
    simp only [interlink_payload_stage, tvb_new_subset_remaining, tvb_captured_length, hb,
      Except.map, Dissect.seq_lift_ok, interlink_key_eq, tvb_reported_length]
    rfl
  · rw [shl8_or _ _ h13]
    omega
  · rw [be_uint_window2 tvb 12 (by omega)]
    rfl
  · intro tvb' e12 e13
    rw [interlink_key_eq, interlink_key_eq, e12, e13]
  · exact spec_interlink_example_key

/-- Claim C7, witness: the example frame of the spec. -/
theorem interlink_dispatch_key_witness :
    16 ≤ tvb_captured_length (spec_interlink_example 0 0) ∧
    (byte_at (spec_interlink_example 0 0) 12 <<< 8 ||| byte_at (spec_interlink_example 0 0) 13)
      % 2 ^ 16 = 1282 :=
  ⟨by decide, (interlink_dispatch_key ⟨some 1, some 2, []⟩ (spec_interlink_example 0 0)
      Option.none (by decide)).2.1⟩

/-! ## Claim C8 -/

/-- Claim C8. For every buffer with at least 16 captured bytes the view handed to
the resolved handler is the input from offset 16 to its end (empty for exactly
16 bytes) and the return value is the captured length; overwriting bytes 14..15
(the block length) leaves the captured length, the dispatch key, the call with
its payload view and the return value as they were. In the example of the spec
the handler registered under 1282 receives exactly 0xAA 0xBB. -/
theorem interlink_payload_ignores_block_length (reg : Registry) (tvb : tvbuff_t)
    (tree : proto_tree) (h16 : 16 ≤ tvb_captured_length tvb) :
    (∀ h, interlink_resolve reg (interlink_key tvb) = some h →
      dissect_interlink reg tvb tree =
        ⟨interlink_header_trace tvb tree ++
            [Event.call h ⟨tvb.data.drop 16, tvb.reported_length - 16⟩ tree],
          .ok (tvb_captured_length tvb)⟩) ∧
    (∀ i, byte_at ⟨tvb.data.drop 16, tvb.reported_length - 16⟩ i = byte_at tvb (16 + i)) ∧
    (tvb_captured_length tvb = 16 → tvb.data.drop 16 = []) ∧
    (∀ x y : guint8,
      tvb_captured_length (tvb_patch tvb 14 [x, y]) = tvb_captured_length tvb ∧
      interlink_key (tvb_patch tvb 14 [x, y]) = interlink_key tvb ∧
      interlink_payload_stage reg (tvb_patch tvb 14 [x, y]) tree =
        interlink_payload_stage reg tvb tree ∧
      dissect_interlink reg (tvb_patch tvb 14 [x, y]) tree =
        Dissect.prepend (interlink_header_trace (tvb_patch tvb 14 [x, y]) tree)
          (interlink_payload_stage reg tvb tree) ∧
      dissect_interlink reg tvb tree =
        Dissect.prepend (interlink_header_trace tvb tree)
          (interlink_payload_stage reg tvb tree)) ∧
    (∀ len0 len1, dissect_interlink ⟨some 1, some 2, [(1282, 7)]⟩
        (spec_interlink_example len0 len1) Option.none =
      ⟨[ Event.col_set_str Column.COL_PROTOCOL "INTERLINK",
         Event.col_clear Column.COL_INFO,
         Event.col_append_fstr Column.COL_INFO "Type: %d, Version: %d" [5, 2],
         Event.call 7 ⟨[0xAA, 0xBB], 2⟩ Option.none ], .ok 18⟩) := by
  simp only [tvb_captured_length] at h16
  refine ⟨fun h hres => dissect_interlink_ok reg tvb tree h h16 hres, ?_, ?_, ?_, ?_⟩
  · intro i
    simp [byte_at, List.getD_eq_getElem?_getD, List.getElem?_drop]
  · intro h
    simp only [tvb_captured_length] at h
    simp [h]
  · intro x y
    have hp : 14 + ([x, y] : List guint8).length ≤ tvb.data.length := by
      simpa using h16
    have hlen := tvb_patch_length tvb 14 [x, y] hp
    have hdrop := tvb_patch_drop tvb 14 16 [x, y] hp (by simp)
    have hkey : interlink_key (tvb_patch tvb 14 [x, y]) = interlink_key tvb := by
      simp only [interlink_key, tvb_patch_byte_before tvb 14 12 [x, y] hp (by omega),
        tvb_patch_byte_before tvb 14 13 [x, y] hp (by omega)]
    have hb : ∀ t : tvbuff_t, 16 ≤ t.data.length →
        tvb_get_bytes t 16 (t.data.length - 16) = .ok (t.data.drop 16) := by
      intro t ht
      rw [tvb_get_bytes_ok t 16 _ (by omega)]
      simp
    have hb' : tvb_get_bytes (tvb_patch tvb 14 [x, y]) 16 (tvb.data.length - 16) =
        .ok (tvb.data.drop 16) := by
      have := hb (tvb_patch tvb 14 [x, y]) (by omega)
      rwa [hlen, hdrop] at this
    have hstage : interlink_payload_stage reg (tvb_patch tvb 14 [x, y]) tree =
        interlink_payload_stage reg tvb tree := by
      simp only [interlink_payload_stage, tvb_new_subset_remaining, tvb_captured_length,
        hkey, hlen, hb', hb tvb h16, tvb_reported_length]
      rfl
    refine ⟨hlen, hkey, hstage, ?_, dissect_interlink_run reg tvb tree h16⟩
    rw [dissect_interlink_run reg _ tree (by omega), hstage]
  · intro len0 len1
    have hres : interlink_resolve ⟨some 1, some 2, [(1282, 7)]⟩
        (interlink_key (spec_interlink_example len0 len1)) = some 7 := by
      rw [spec_interlink_example_key]
      rfl
    rw [dissect_interlink_ok _ _ _ 7 (by simp [spec_interlink_example]) hres]
    simp [interlink_header_trace, byte_at, spec_interlink_example]
    rfl

/-- Claim C8, witness: block length 0xFFFF in the example frame. -/
theorem interlink_payload_ignores_block_length_witness :
    16 ≤ tvb_captured_length (spec_interlink_example 0 0) ∧
    interlink_payload_stage ⟨some 1, some 2, []⟩
        (tvb_patch (spec_interlink_example 0 0) 14 [255, 255]) (some TreeNode.top) =
      interlink_payload_stage ⟨some 1, some 2, []⟩ (spec_interlink_example 0 0)
        (some TreeNode.top) :=
  ⟨by decide, ((interlink_payload_ignores_block_length ⟨some 1, some 2, []⟩
      (spec_interlink_example 0 0) (some TreeNode.top) (by decide)).2.2.2.1 255 255).2.2.1⟩

/-! ## Claim C9 -/

/-- Claim C9. For every buffer with at least 16 captured bytes: when the table has
an entry for the dispatch key, the payload goes to a handler registered under
exactly that key; when it has none, the payload goes to the "data" handle; with
the "data" handle wired the run returns the captured length and calls exactly
one handler. -/
theorem interlink_dispatch_fallback (reg : Registry) (tvb : tvbuff_t) (tree : proto_tree)
    (h16 : 16 ≤ tvb_captured_length tvb) :
    (∀ h, dissector_get_uint_handle reg.subdissector_table (interlink_key tvb) = some h →
      (interlink_key tvb, h) ∈ reg.subdissector_table ∧
      dissect_interlink reg tvb tree =
        ⟨interlink_header_trace tvb tree ++
            [Event.call h ⟨tvb.data.drop 16, tvb.reported_length - 16⟩ tree],
          .ok (tvb_captured_length tvb)⟩) ∧
    (dissector_get_uint_handle reg.subdissector_table (interlink_key tvb) = Option.none →
      (∀ h, (interlink_key tvb, h) ∉ reg.subdissector_table) ∧
      ∀ d, reg.data_handle = some d →
        dissect_interlink reg tvb tree =
          ⟨interlink_header_trace tvb tree ++
              [Event.call d ⟨tvb.data.drop 16, tvb.reported_length - 16⟩ tree],
            .ok (tvb_captured_length tvb)⟩) ∧
    (∀ d, reg.data_handle = some d →
      ∃ h, (dissect_interlink reg tvb tree).result = .ok (tvb_captured_length tvb) ∧
        (dissect_interlink reg tvb tree).sink.filter Event.isCall =
          [Event.call h ⟨tvb.data.drop 16, tvb.reported_length - 16⟩ tree]) := by
  simp only [tvb_captured_length] at h16
  refine ⟨?_, ?_, ?_⟩
  · intro h hl
    refine ⟨lookup_some_mem _ _ _ hl, ?_⟩
    exact dissect_interlink_ok reg tvb tree h h16 (by simp [interlink_resolve, hl])
  · intro hl
    refine ⟨lookup_none_not_mem _ _ hl, ?_⟩
    intro d hd
    exact dissect_interlink_ok reg tvb tree d h16 (by simp [interlink_resolve, hl, hd])
  · intro d hd
    have hres : ∃ h, interlink_resolve reg (interlink_key tvb) = some h := by
      cases hl : dissector_get_uint_handle reg.subdissector_table (interlink_key tvb) with
      | none => exact ⟨d, by simp [interlink_resolve, hl, hd]⟩
      | some h => exact ⟨h, by simp [interlink_resolve, hl]⟩
    obtain ⟨h, hres⟩ := hres
    refine ⟨h, ?_, ?_⟩
    · rw [dissect_interlink_ok reg tvb tree h h16 hres]
      rfl
    · rw [dissect_interlink_ok reg tvb tree h h16 hres]
      simp [List.filter_append, interlink_header_trace_no_call, Event.isCall]

/-- Claim C9, witness: the example frame against a table without its key. -/
theorem interlink_dispatch_fallback_witness :
    16 ≤ tvb_captured_length (spec_interlink_example 0 0) ∧
    (⟨some 1, some 2, [(7, 9)]⟩ : Registry).data_handle = some 2 ∧
    ∃ h, (dissect_interlink ⟨some 1, some 2, [(7, 9)]⟩ (spec_interlink_example 0 0)
        Option.none).result = .ok (tvb_captured_length (spec_interlink_example 0 0)) ∧
      (dissect_interlink ⟨some 1, some 2, [(7, 9)]⟩ (spec_interlink_example 0 0)
        Option.none).sink.filter Event.isCall =
        [Event.call h ⟨(spec_interlink_example 0 0).data.drop 16,
          (spec_interlink_example 0 0).reported_length - 16⟩ Option.none] :=
  ⟨by decide, rfl, (interlink_dispatch_fallback ⟨some 1, some 2, [(7, 9)]⟩
      (spec_interlink_example 0 0) Option.none (by decide)).2.2 2 rfl⟩

/-! ## Claim C10 -/

/-- Claim C10. For every pair of bytes stored at offsets 10 and 11 of a buffer of
at least 16 bytes, with `f` their little-endian 16-bit value, `dissect_interlink`
reports REQ_ACK = (`f & 0x0001` is not zero), which is bit 0 of `f`, and
INC_ACK_PORT = (`f & 0x0002` is not zero), which is bit 1 of `f`; whatever the
two bytes are, the captured length, the dispatch key, the call with its payload
view and the return value stay those of the original buffer. For `f = 0x0003`
both flags are true. -/
theorem interlink_flags (reg : Registry) (tvb : tvbuff_t) (t : TreeNode) (x y : guint8)
    (h16 : 16 ≤ tvb_captured_length tvb) :
    le16_at (tvb_patch tvb 10 [x, y]) 10 = x.val + y.val * 256 ∧
    Event.item (TreeNode.sub Ett.ett_interlink_flags) Hf.hf_interlink_flags_req_ack 10 2
        (Value.boolean (decide ((x.val + y.val * 256) &&& 0x0001 ≠ 0))) ∈
      (dissect_interlink reg (tvb_patch tvb 10 [x, y]) (some t)).sink ∧
    Event.item (TreeNode.sub Ett.ett_interlink_flags) Hf.hf_interlink_flags_inc_ack_port 10 2
        (Value.boolean (decide ((x.val + y.val * 256) &&& 0x0002 ≠ 0))) ∈
      (dissect_interlink reg (tvb_patch tvb 10 [x, y]) (some t)).sink ∧
    ((x.val + y.val * 256) &&& 0x0001 ≠ 0 ↔ (x.val + y.val * 256) % 2 = 1) ∧
    ((x.val + y.val * 256) &&& 0x0002 ≠ 0 ↔ (x.val + y.val * 256) / 2 % 2 = 1) ∧
    tvb_captured_length (tvb_patch tvb 10 [x, y]) = tvb_captured_length tvb ∧
    interlink_key (tvb_patch tvb 10 [x, y]) = interlink_key tvb ∧
    (∀ tree, dissect_interlink reg (tvb_patch tvb 10 [x, y]) tree =
      Dissect.prepend (interlink_header_trace (tvb_patch tvb 10 [x, y]) tree)
        (interlink_payload_stage reg tvb tree)) ∧
    (∀ tree, dissect_interlink reg tvb tree =
      Dissect.prepend (interlink_header_trace tvb tree) (interlink_payload_stage reg tvb tree)) ∧
    (∀ len0 len1,
      Event.item (TreeNode.sub Ett.ett_interlink_flags) Hf.hf_interlink_flags_req_ack 10 2
          (Value.boolean true) ∈
        (dissect_interlink reg (spec_interlink_example len0 len1) (some t)).sink ∧
      Event.item (TreeNode.sub Ett.ett_interlink_flags) Hf.hf_interlink_flags_inc_ack_port 10 2
          (Value.boolean true) ∈
        (dissect_interlink reg (spec_interlink_example len0 len1) (some t)).sink) := by
  simp only [tvb_captured_length] at h16
  have hp : 10 + ([x, y] : List guint8).length ≤ tvb.data.length := by
    simp
    omega
  have hlen := tvb_patch_length tvb 10 [x, y] hp
  have hdrop := tvb_patch_drop tvb 10 16 [x, y] hp (by simp)
  have hxy := tvb_patch_byte_first tvb 10 x y (by omega)
  have hf : le16_at (tvb_patch tvb 10 [x, y]) 10 = x.val + y.val * 256 := by
    simp only [le16_at, hxy.1, hxy.2]
  have hkey : interlink_key (tvb_patch tvb 10 [x, y]) = interlink_key tvb := by
    simp only [interlink_key, tvb_patch_byte_after tvb 10 12 [x, y] hp (by simp),
      tvb_patch_byte_after tvb 10 13 [x, y] hp (by simp)]
  have hb : ∀ u : tvbuff_t, 16 ≤ u.data.length →
      tvb_get_bytes u 16 (u.data.length - 16) = .ok (u.data.drop 16) := by
    intro u hu
    rw [tvb_get_bytes_ok u 16 _ (by omega)]
    simp
  have hb' : tvb_get_bytes (tvb_patch tvb 10 [x, y]) 16 (tvb.data.length - 16) =
      .ok (tvb.data.drop 16) := by
    have := hb (tvb_patch tvb 10 [x, y]) (by omega)
    rwa [hlen, hdrop] at this
  have hstage : ∀ tree, interlink_payload_stage reg (tvb_patch tvb 10 [x, y]) tree =
      interlink_payload_stage reg tvb tree := by
    intro tree
    simp only [interlink_payload_stage, tvb_new_subset_remaining, tvb_captured_length,
      hkey, hlen, hb', hb tvb h16, tvb_reported_length]
    rfl
  have hrun : ∀ tree, dissect_interlink reg (tvb_patch tvb 10 [x, y]) tree =
      Dissect.prepend (interlink_header_trace (tvb_patch tvb 10 [x, y]) tree)
        (interlink_payload_stage reg tvb tree) := by
    intro tree
    rw [dissect_interlink_run reg _ tree (by omega), hstage]
  refine ⟨hf, ?_, ?_, ?_, and_two_ne_zero_iff _, hlen, hkey, hrun,
    fun tree => dissect_interlink_run reg tvb tree h16, ?_⟩
  · rw [hrun]
    simp [Dissect.prepend, interlink_header_trace, interlink_header_items, hf]
  · rw [hrun]
    simp [Dissect.prepend, interlink_header_trace, interlink_header_items, hf]
  · rw [Nat.and_one_is_mod]
    omega
  · intro len0 len1
    rw [dissect_interlink_run reg _ (some t) (by simp [spec_interlink_example])]
    simp only [Dissect.prepend, interlink_header_trace, interlink_header_items,
      List.cons_append, List.nil_append, List.mem_append, List.mem_cons]
    have hv : le16_at (spec_interlink_example len0 len1) 10 = 3 := by
      simp [le16_at, byte_at, spec_interlink_example]
      rfl
    rw [hv]
    simp

/-- Claim C10, witness: flags 0xFFFD written into the example frame. -/
theorem interlink_flags_witness :
    16 ≤ tvb_captured_length (spec_interlink_example 0 0) ∧
    le16_at (tvb_patch (spec_interlink_example 0 0) 10 [0xFD, 0xFF]) 10
      = (0xFD : guint8).val + (0xFF : guint8).val * 256 ∧
    interlink_key (tvb_patch (spec_interlink_example 0 0) 10 [0xFD, 0xFF])
      = interlink_key (spec_interlink_example 0 0) :=
  ⟨by decide,
    (interlink_flags ⟨some 1, some 2, []⟩ (spec_interlink_example 0 0) TreeNode.top 0xFD 0xFF
      (by decide)).1,
    (interlink_flags ⟨some 1, some 2, []⟩ (spec_interlink_example 0 0) TreeNode.top 0xFD 0xFF
      (by decide)).2.2.2.2.2.2.1⟩

/-! ## Claim C11 -/

/-- Claim C11. Whenever `dissect_e100` returns on a buffer accepted by the
matcher, it returns the captured length, which is at least 28 and so not zero.
Whenever `dissect_interlink` returns, it returns the captured length, it has
called exactly one handler, and the captured length is 16 plus the captured
length of the view it handed over. A buffer the E100 matcher turns down yields
`0`, and a buffer that does not spell "ILNK" yields false. -/
theorem consumed_bytes (reg : Registry) (tvb : tvbuff_t) (tree : proto_tree) (n : Nat) :
    (tvb_wf tvb → e100_matcher tvb → (dissect_e100 reg tvb tree).result = .ok n →
      n = tvb_captured_length tvb ∧ 28 ≤ n ∧ n ≠ 0) ∧
    ((dissect_interlink reg tvb tree).result = .ok n →
      n = tvb_captured_length tvb ∧
      ∃ h next_tvb,
        (dissect_interlink reg tvb tree).sink.filter Event.isCall
          = [Event.call h next_tvb tree] ∧
        tvb_captured_length tvb = 16 + tvb_captured_length next_tvb) ∧
    (tvb_wf tvb → ¬ e100_matcher tvb → dissect_e100 reg tvb tree = ⟨[], .ok 0⟩) ∧
    (¬ interlink_matcher tvb → dissect_interlink_heur reg tvb tree = ⟨[], .ok false⟩) := by
  refine ⟨?_, ?_, fun hwf hm => dissect_e100_reject reg tvb tree hwf hm,
    fun hm => dissect_interlink_heur_reject reg tvb tree hm⟩
  · intro hwf hm hok
    obtain ⟨_, eth, _, hd⟩ := dissect_e100_completes reg tvb tree n hwf hm hok
    rw [hd] at hok
    injection hok with hn
    have h28 : 28 ≤ tvb.data.length := hm.1
    simp only [tvb_captured_length]
    omega
  · intro hok
    obtain ⟨h16, h, _, hd⟩ := dissect_interlink_completes reg tvb tree n hok
    rw [hd] at hok
    injection hok with hn
    refine ⟨hn.symm, h, ⟨tvb.data.drop 16, tvb.reported_length - 16⟩, ?_, ?_⟩
    · rw [hd]
      simp [List.filter_append, interlink_header_trace_no_call, Event.isCall]
    · simp [tvb_captured_length]
      omega

/-- Claim C11, witness: the example frame of the spec is consumed whole, 18
bytes. -/
theorem consumed_bytes_witness :
    (dissect_interlink ⟨some 1, some 2, []⟩ (spec_interlink_example 0 0)
      (some TreeNode.top)).result = .ok 18 ∧
    18 = tvb_captured_length (spec_interlink_example 0 0) :=
  ⟨by
      rw [dissect_interlink_ok ⟨some 1, some 2, []⟩ (spec_interlink_example 0 0)
        (some TreeNode.top) 2 (by decide) (by rw [spec_interlink_example_key]; rfl)]
      rfl,
    ((consumed_bytes ⟨some 1, some 2, []⟩ (spec_interlink_example 0 0) (some TreeNode.top)
      18).2.1 (by
        rw [dissect_interlink_ok ⟨some 1, some 2, []⟩ (spec_interlink_example 0 0)
          (some TreeNode.top) 2 (by decide) (by rw [spec_interlink_example_key]; rfl)]
        rfl)).1⟩

/-! ## Claim C12 -/

/-- Claim C12, as amended. Header fields are reported one by one, and what was
reported stays when a later field is out of bounds. The E100 header cannot fail
on a buffer the matcher accepted, so its items are always in the sink together.
With fewer than 16 captured bytes `dissect_interlink` raises `OutOfBounds`;
without a tree it has then reported no item at all, with a tree and at least 4
bytes it has already reported the magic. -/
theorem header_reporting_is_incremental (reg : Registry) (tvb : tvbuff_t) (t : TreeNode) :
    (tvb_wf tvb → e100_matcher tvb →
      ∃ post, (dissect_e100 reg tvb (some t)).sink = e100_header_trace tvb (some t) ++ post) ∧
    (tvb_captured_length tvb < 16 →
      ∃ s, dissect_interlink reg tvb Option.none = ⟨s, .error Exn.OutOfBounds⟩ ∧
        s.filterMap Event.window = []) ∧
    (4 ≤ tvb_captured_length tvb → tvb_captured_length tvb < 16 →
      ∃ s, dissect_interlink reg tvb (some t) = ⟨s, .error Exn.OutOfBounds⟩ ∧
        Event.item (TreeNode.sub Ett.ett_interlink_header) Hf.hf_interlink_id 0 4
          (Value.string (tvb.data.take 4)) ∈ s) := by
  refine ⟨?_, ?_, ?_⟩
  · intro hwf hm
    rw [dissect_e100_matched reg tvb (some t) hwf hm]
    exact ⟨_, rfl⟩
  · intro h
    exact dissect_interlink_short_no_tree reg tvb h
  · intro h4 h
    exact dissect_interlink_short_tree reg tvb t h4 h

/-- Claim C12, witness: "ILNK" followed by two bytes, with a tree. -/
theorem header_reporting_is_incremental_witness :
    4 ≤ tvb_captured_length ⟨[73, 76, 78, 75, 3, 0], 6⟩ ∧
    tvb_captured_length ⟨[73, 76, 78, 75, 3, 0], 6⟩ < 16 ∧
    ∃ s, dissect_interlink ⟨some 1, some 2, []⟩ ⟨[73, 76, 78, 75, 3, 0], 6⟩
        (some TreeNode.top) = ⟨s, .error Exn.OutOfBounds⟩ ∧
      Event.item (TreeNode.sub Ett.ett_interlink_header) Hf.hf_interlink_id 0 4
        (Value.string ((⟨[73, 76, 78, 75, 3, 0], 6⟩ : tvbuff_t).data.take 4)) ∈ s :=
  ⟨by decide, by decide,
    (header_reporting_is_incremental ⟨some 1, some 2, []⟩ ⟨[73, 76, 78, 75, 3, 0], 6⟩
      TreeNode.top).2.2 (by decide) (by decide)⟩

/-- Claim C12 as stated fails: on the four bytes "ILNK" with a tree
`dissect_interlink` raises `OutOfBounds` after the magic item has been
reported. -/
theorem atomic_header_reporting_fails :
    interlink_matcher ⟨[73, 76, 78, 75], 4⟩ ∧
    tvb_captured_length ⟨[73, 76, 78, 75], 4⟩ < 16 ∧
    dissect_interlink ⟨some 1, some 2, []⟩ ⟨[73, 76, 78, 75], 4⟩ (some TreeNode.top) =
      ⟨[ Event.col_set_str Column.COL_PROTOCOL "INTERLINK",
         Event.col_clear Column.COL_INFO,
         Event.item TreeNode.top Hf.proto_interlink 0 16 Value.none,
         Event.subtree (TreeNode.sub Ett.ett_interlink) Ett.ett_interlink_header 0 12
           "Interlink Header",
         Event.item (TreeNode.sub Ett.ett_interlink_header) Hf.hf_interlink_id 0 4
           (Value.string [73, 76, 78, 75]) ],
       .error Exn.OutOfBounds⟩ := by
  refine ⟨by decide, by decide, rfl⟩

/-! ## Claim C13 -/

/-- Claim C13. For every buffer with fewer than 28 captured bytes `dissect_e100`
returns `0` and `dissect_e100_heur` returns false; the sink stays empty, so no
field is reported and the Ethernet handler is not called. -/
theorem short_buffers_not_e100 (reg : Registry) (tvb : tvbuff_t) (tree : proto_tree)
    (h : tvb_captured_length tvb < 28) :
    dissect_e100 reg tvb tree = ⟨[], .ok 0⟩ ∧
    dissect_e100_heur reg tvb tree = ⟨[], .ok false⟩ ∧
    (dissect_e100 reg tvb tree).sink = [] ∧
    (dissect_e100_heur reg tvb tree).sink = [] ∧
    (dissect_e100 reg tvb tree).sink.filter Event.isCall = [] := by
  simp only [tvb_captured_length] at h
  have hd := dissect_e100_reject_short reg tvb tree h
  have hh := heur_of_reject reg tvb tree hd
  refine ⟨hd, hh, ?_, ?_, ?_⟩
  · rw [hd]
  · rw [hh]
  · rw [hd]
    rfl

/-- Claim C13, witness: the empty buffer. -/
theorem short_buffers_not_e100_witness :
    tvb_captured_length ⟨[], 0⟩ < 28 ∧
    dissect_e100 ⟨some 1, some 2, []⟩ ⟨[], 0⟩ (some TreeNode.top) = ⟨[], .ok 0⟩ ∧
    dissect_e100_heur ⟨some 1, some 2, []⟩ ⟨[], 0⟩ (some TreeNode.top) = ⟨[], .ok false⟩ :=
  ⟨by decide,
    (short_buffers_not_e100 ⟨some 1, some 2, []⟩ ⟨[], 0⟩ (some TreeNode.top) (by decide)).1,
    (short_buffers_not_e100 ⟨some 1, some 2, []⟩ ⟨[], 0⟩ (some TreeNode.top) (by decide)).2.1⟩

/-! ## Claim C14 -/

/-- Claim C14. Every payload view the decoders construct has a reported length at
least its captured length. Whatever `dissect_e100` hands to a handler, on any
buffer and for every value of the bytes original field, is the slice at offset
28 made from bytes captured and bytes original, and every view that slice
returns has a reported length at least its captured length; on an accepted
buffer on which `dissect_e100` returns there is exactly one such view. The view
`dissect_interlink` hands over when it returns has a reported length at least
its captured length whenever the input has. -/
theorem payload_view_invariant (reg : Registry) (tvb : tvbuff_t) (tree : proto_tree) (n : Nat) :
    (tvb_captured_length tvb ≤ tvb_reported_length tvb →
      (dissect_interlink reg tvb tree).result = .ok n →
      ∃ h next_tvb,
        (dissect_interlink reg tvb tree).sink.filter Event.isCall
          = [Event.call h next_tvb tree] ∧
        tvb_captured_length next_tvb ≤ tvb_reported_length next_tvb) ∧
    (∀ h next_tvb,
      (h, next_tvb) ∈ (dissect_e100 reg tvb tree).sink.filterMap Event.callTarget →
      tvb_new_subset_length_caplen tvb 28 (guint32_to_gint (be32_at tvb 20))
        (guint32_to_gint (be32_at tvb 24)) = .ok next_tvb ∧
      tvb_captured_length next_tvb ≤ tvb_reported_length next_tvb) ∧
    (∀ (bytes_captured bytes_original : Nat) (next_tvb : tvbuff_t),
      tvb_new_subset_length_caplen tvb 28 (guint32_to_gint bytes_captured)
        (guint32_to_gint bytes_original) = .ok next_tvb →
      tvb_captured_length next_tvb ≤ tvb_reported_length next_tvb) ∧
    (tvb_wf tvb → e100_matcher tvb → (dissect_e100 reg tvb tree).result = .ok n →
      ∃ eth next_tvb,
        (dissect_e100 reg tvb tree).sink.filter Event.isCall
          = [Event.call eth next_tvb tree] ∧
        tvb_captured_length next_tvb = min (be32_at tvb 20) (tvb_reported_length next_tvb) ∧
        tvb_captured_length next_tvb ≤ tvb_reported_length next_tvb) := by
  refine ⟨?_, ?_, ?_, ?_⟩
  · intro hle hok
    obtain ⟨h16, h, _, hd⟩ := dissect_interlink_completes reg tvb tree n hok
    simp only [tvb_captured_length, tvb_reported_length] at hle
    refine ⟨h, ⟨tvb.data.drop 16, tvb.reported_length - 16⟩, ?_, ?_⟩
    · rw [hd]
      simp [List.filter_append, interlink_header_trace_no_call, Event.isCall]
    · simp [tvb_captured_length, tvb_reported_length]
      omega
  · intro h v hmem
    rw [dissect_e100_factor, e100_heuristic_test_eq, Dissect.seq_lift_ok] at hmem
    by_cases hc : 28 ≤ tvb.data.length ∧ byte_at tvb 0 = 1 ∧
        be32_at tvb 20 = guint_sub tvb.reported_length 28
    · simp only [hc, not_true_eq_false, decide_False, Bool.false_eq_true, if_false, and_self,
        Dissect.prepend, List.filterMap_append, e100_header_trace_no_target,
        List.nil_append] at hmem
      have hs := e100_payload_stage_targets reg tvb tree h v hmem
      exact ⟨hs, tvb_new_subset_length_caplen_invariant tvb 28 _ _ v hs⟩
    · simp [hc, Dissect.ret] at hmem
  · intro bc bo v hs
    exact tvb_new_subset_length_caplen_invariant tvb 28 _ _ v hs
  · intro hwf hm hok
    obtain ⟨hg, eth, _, hd⟩ := dissect_e100_completes reg tvb tree n hwf hm hok
    refine ⟨eth, e100_view tvb, ?_, ?_, ?_⟩
    · rw [hd]
      simp [List.filter_append, e100_header_trace_no_call, Event.isCall]
    · simp only [tvb_captured_length, tvb_reported_length, e100_view, List.length_take,
        List.length_drop]
      obtain ⟨_, hfit, _⟩ := hg
      simp only [tvb_captured_length] at hfit
      omega
    · simp only [tvb_captured_length, tvb_reported_length, e100_view, List.length_take]
      omega

/-- Claim C14, witness: the example frame of the spec hands over a view of two
captured and two reported bytes, and an E100 frame with bytes captured 2 and
bytes original 1 hands over a view of one captured and one reported byte. -/
theorem payload_view_invariant_witness :
    tvb_captured_length (spec_interlink_example 0 0) ≤
      tvb_reported_length (spec_interlink_example 0 0) ∧
    (∃ h next_tvb,
      (dissect_interlink ⟨some 1, some 2, []⟩ (spec_interlink_example 0 0)
        Option.none).sink.filter Event.isCall = [Event.call h next_tvb Option.none] ∧
      tvb_captured_length next_tvb ≤ tvb_reported_length next_tvb) ∧
    (1, (⟨[0xAA], 1⟩ : tvbuff_t)) ∈
      (dissect_e100 ⟨some 1, some 2, []⟩
        ⟨spec_e100_header 7 9 10 0 0 1 5 6 7 2 1 ++ [0xAA, 0xBB], 30⟩
        Option.none).sink.filterMap Event.callTarget ∧
    tvb_captured_length ⟨[0xAA], 1⟩ ≤ tvb_reported_length ⟨[0xAA], 1⟩ :=
  ⟨by decide,
    (payload_view_invariant ⟨some 1, some 2, []⟩ (spec_interlink_example 0 0) Option.none
      18).1 (by decide) (by
        rw [dissect_interlink_ok ⟨some 1, some 2, []⟩ (spec_interlink_example 0 0)
          Option.none 2 (by decide) (by rw [spec_interlink_example_key]; rfl)]
        rfl),
    List.mem_singleton.2 rfl,
    ((payload_view_invariant ⟨some 1, some 2, []⟩
      ⟨spec_e100_header 7 9 10 0 0 1 5 6 7 2 1 ++ [0xAA, 0xBB], 30⟩ Option.none 30).2.1
      1 ⟨[0xAA], 1⟩ (List.mem_singleton.2 rfl)).2⟩

/-! ## Claim C15 -/

/-- Claim C15. For every buffer of any length the two heuristic tests return a
boolean and never raise: the E100 test reads byte 0 and the four bytes at offset
20 only when 28 bytes are captured, where both windows exist, and returns
without reading otherwise; the Interlink test reads bytes 0..3 only when four
bytes exist. Each dissector is its test followed by the rest, and the test
itself puts nothing into the sink. -/
theorem matchers_read_in_bounds (reg : Registry) (tvb : tvbuff_t) (tree : proto_tree) :
    e100_heuristic_test tvb =
      .ok (decide (¬ (28 ≤ tvb_captured_length tvb ∧ byte_at tvb 0 = 1 ∧
        be32_at tvb 20 = guint_sub (tvb_reported_length tvb) 28))) ∧
    interlink_heuristic_test tvb = .ok (decide (¬ interlink_matcher tvb)) ∧
    (28 ≤ tvb_captured_length tvb →
      tvb_bytes_exist tvb 0 1 = true ∧ tvb_bytes_exist tvb 20 4 = true) ∧
    (tvb_captured_length tvb < 28 → e100_heuristic_test tvb = .ok true) ∧
    (tvb_bytes_exist tvb 0 4 = true →
      tvb_bytes_exist tvb 0 1 = true ∧ tvb_bytes_exist tvb 1 1 = true ∧
      tvb_bytes_exist tvb 2 1 = true ∧ tvb_bytes_exist tvb 3 1 = true) ∧
    (tvb_bytes_exist tvb 0 4 = false → interlink_heuristic_test tvb = .ok true) ∧
    dissect_e100 reg tvb tree =
      (Dissect.seq (Dissect.lift (e100_heuristic_test tvb)) fun reject =>
        if reject then Dissect.ret 0
        else Dissect.prepend (e100_header_trace tvb tree) (e100_payload_stage reg tvb tree)) ∧
    dissect_interlink_heur reg tvb tree =
      (Dissect.seq (Dissect.lift (interlink_heuristic_test tvb)) fun reject =>
        if reject then Dissect.ret false
        else Dissect.seq (dissect_interlink reg tvb tree) fun _ => Dissect.ret true) ∧
    (Dissect.lift (e100_heuristic_test tvb)).sink = [] ∧
    (Dissect.lift (interlink_heuristic_test tvb)).sink = [] := by
  refine ⟨e100_heuristic_test_eq tvb, interlink_heuristic_test_eq tvb, ?_, ?_, ?_, ?_,
    dissect_e100_factor reg tvb tree, dissect_interlink_heur_factor reg tvb tree, rfl, rfl⟩
  · intro h
    simp only [tvb_captured_length] at h
    simp [tvb_bytes_exist, tvb_captured_length]
    omega
  · intro h
    simp only [tvb_captured_length] at h
    rw [e100_heuristic_test_eq]
    have : ¬ 28 ≤ tvb.data.length := by omega
    simp [this]
  · intro h
    simp [tvb_bytes_exist, tvb_captured_length] at h ⊢
    omega
  · intro h
    rw [interlink_heuristic_test_eq]
    have h4 : ¬ 4 ≤ tvb.data.length := by
      simpa [tvb_bytes_exist, tvb_captured_length] using h
    simp [interlink_matcher, tvb_captured_length, h4]

/-- Claim C15, witness: the empty buffer. -/
theorem matchers_read_in_bounds_witness :
    tvb_captured_length ⟨[], 0⟩ < 28 ∧ e100_heuristic_test ⟨[], 0⟩ = .ok true ∧
    tvb_bytes_exist ⟨[], 0⟩ 0 4 = false ∧ interlink_heuristic_test ⟨[], 0⟩ = .ok true :=
  ⟨by decide,
    (matchers_read_in_bounds ⟨some 1, some 2, []⟩ ⟨[], 0⟩ Option.none).2.2.2.1 (by decide),
    by decide,
    (matchers_read_in_bounds ⟨some 1, some 2, []⟩ ⟨[], 0⟩ Option.none).2.2.2.2.2.1 (by decide)⟩

/-! ## Claim C16 -/

/-- Claim C16. The eight E100 descriptors are (0,1), (1,1), (2,2), (4,4), (8,4),
(12,8), (20,4), (24,4): pairwise disjoint, each starting where the previous one
ends, starting at 0, with lengths that add up to `e100_encap_len` = 28. The
eight fields `dissect_interlink` reports on a buffer of at least 16 bytes have
the windows (0,4), (4,2), (6,2), (8,2), (10,2), (12,1), (13,1), (14,2):
contiguous from 0, disjoint, with widths that add up to 16; no window runs past
the header length. -/
theorem schema_layout (reg : Registry) (tvb : tvbuff_t) (t : TreeNode)
    (h16 : 16 ≤ tvb_captured_length tvb) :
    e100_schema.map (fun f => (f.offset, f.len)) =
      [(0, 1), (1, 1), (2, 2), (4, 4), (8, 4), (12, 8), (20, 4), (24, 4)] ∧
    e100_schema.Pairwise (fun a b => a.offset + a.len ≤ b.offset) ∧
    e100_schema.Chain' (fun a b => b.offset = a.offset + a.len) ∧
    e100_schema.head?.map (fun f => f.offset) = some 0 ∧
    (e100_schema.map fun f => f.len).sum = e100_encap_len ∧
    e100_encap_len = 28 ∧
    (∀ f ∈ e100_schema, f.offset + f.len ≤ e100_encap_len) ∧
    field_windows interlink_fields (dissect_interlink reg tvb (some t)).sink =
      [(0, 4), (4, 2), (6, 2), (8, 2), (10, 2), (12, 1), (13, 1), (14, 2)] ∧
    List.Chain' (fun a b : Nat × Nat => b.1 = a.1 + a.2)
      [(0, 4), (4, 2), (6, 2), (8, 2), (10, 2), (12, 1), (13, 1), (14, 2)] ∧
    List.Pairwise (fun a b : Nat × Nat => a.1 + a.2 ≤ b.1)
      [(0, 4), (4, 2), (6, 2), (8, 2), (10, 2), (12, 1), (13, 1), (14, 2)] ∧
    (([(0, 4), (4, 2), (6, 2), (8, 2), (10, 2), (12, 1), (13, 1), (14, 2)] :
      List (Nat × Nat)).map fun w => w.2).sum = 16 ∧
    (∀ w ∈ field_windows interlink_fields (dissect_interlink reg tvb (some t)).sink,
      w.1 + w.2 ≤ 16) := by
  simp only [tvb_captured_length] at h16
  have hw : field_windows interlink_fields (dissect_interlink reg tvb (some t)).sink =
      [(0, 4), (4, 2), (6, 2), (8, 2), (10, 2), (12, 1), (13, 1), (14, 2)] := by
    rw [dissect_interlink_run reg tvb (some t) h16]
    simp only [field_windows, Dissect.prepend, List.filterMap_append,
      interlink_payload_stage_no_window reg tvb (some t) h16, List.append_nil]
    simp [interlink_header_trace, interlink_header_items, Event.window, interlink_fields]
  refine ⟨rfl, by decide, ?_, rfl, rfl, rfl, by decide, hw, ?_, by decide, rfl, ?_⟩
  · simp [e100_schema, e100_header_ver, e100_port_recv, e100_seq, e100_ip, e100_mon_pkt_id,
      e100_ts, e100_bytes_cap, e100_bytes_orig]
  · simp
  rw [hw]
  decide

/-- Claim C16, witness: the example frame of the spec. -/
theorem schema_layout_witness :
    16 ≤ tvb_captured_length (spec_interlink_example 0 0) ∧
    field_windows interlink_fields
        (dissect_interlink ⟨some 1, some 2, []⟩ (spec_interlink_example 0 0)
          (some TreeNode.top)).sink =
      [(0, 4), (4, 2), (6, 2), (8, 2), (10, 2), (12, 1), (13, 1), (14, 2)] :=
  ⟨by decide, (schema_layout ⟨some 1, some 2, []⟩ (spec_interlink_example 0 0) TreeNode.top
    (by decide)).2.2.2.2.2.2.2.1⟩

/-! ## Claim C17 -/

/-- Claim C17, as amended. For every buffer accepted by the E100 matcher, with
reported length at least the captured length: the payload window (offset 28,
length bytes captured) lies within the captured data if and only if captured
and reported length are equal. A truncated buffer makes the slice, and with it
`dissect_e100`, raise `OutOfBounds`. An untruncated buffer shorter than
`2 ^ 31 + 28` bytes yields as payload exactly the bytes after the 28-byte
header when bytes original is at least bytes captured and below `2 ^ 31`, or
is 0xFFFFFFFF; when bytes original is below bytes captured the payload is cut
to the first bytes original bytes after the header; for any other value of
bytes original the slice, and with it `dissect_e100`, raises `OutOfBounds`. -/
theorem e100_slice_fits_iff_untruncated (reg : Registry) (tvb : tvbuff_t) (tree : proto_tree)
    (hwf : tvb_wf tvb) (hm : e100_matcher tvb) :
    (tvb_bytes_exist tvb 28 (be32_at tvb 20) = true ↔
      tvb_captured_length tvb = tvb_reported_length tvb) ∧
    (tvb_captured_length tvb < tvb_reported_length tvb →
      tvb_new_subset_length_caplen tvb 28 (guint32_to_gint (be32_at tvb 20))
        (guint32_to_gint (be32_at tvb 24)) = .error Exn.OutOfBounds ∧
      (dissect_e100 reg tvb tree).result = .error Exn.OutOfBounds) ∧
    (tvb_captured_length tvb = tvb_reported_length tvb →
      tvb_captured_length tvb < 2 ^ 31 + 28 →
      (be32_at tvb 20 ≤ be32_at tvb 24 → be32_at tvb 24 < 2 ^ 31 →
        tvb_new_subset_length_caplen tvb 28 (guint32_to_gint (be32_at tvb 20))
          (guint32_to_gint (be32_at tvb 24)) = .ok ⟨tvb.data.drop 28, be32_at tvb 24⟩ ∧
        ∀ eth, reg.eth_handle = some eth →
          dissect_e100 reg tvb tree =
            ⟨e100_header_trace tvb tree ++
                [Event.call eth ⟨tvb.data.drop 28, be32_at tvb 24⟩ tree],
              .ok (tvb_captured_length tvb)⟩) ∧
      (be32_at tvb 24 = 2 ^ 32 - 1 →
        tvb_new_subset_length_caplen tvb 28 (guint32_to_gint (be32_at tvb 20))
          (guint32_to_gint (be32_at tvb 24)) =
            .ok ⟨tvb.data.drop 28, tvb_reported_length tvb - 28⟩ ∧
        ∀ eth, reg.eth_handle = some eth →
          dissect_e100 reg tvb tree =
            ⟨e100_header_trace tvb tree ++
                [Event.call eth ⟨tvb.data.drop 28, tvb_reported_length tvb - 28⟩ tree],
              .ok (tvb_captured_length tvb)⟩) ∧
      (be32_at tvb 24 < be32_at tvb 20 →
        tvb_new_subset_length_caplen tvb 28 (guint32_to_gint (be32_at tvb 20))
          (guint32_to_gint (be32_at tvb 24)) =
            .ok ⟨(tvb.data.drop 28).take (be32_at tvb 24), be32_at tvb 24⟩ ∧
        ∀ eth, reg.eth_handle = some eth →
          dissect_e100 reg tvb tree =
            ⟨e100_header_trace tvb tree ++
                [Event.call eth ⟨(tvb.data.drop 28).take (be32_at tvb 24), be32_at tvb 24⟩
                  tree],
              .ok (tvb_captured_length tvb)⟩) ∧
      (2 ^ 31 ≤ be32_at tvb 24 → be32_at tvb 24 < 2 ^ 32 - 1 →
        tvb_new_subset_length_caplen tvb 28 (guint32_to_gint (be32_at tvb 20))
          (guint32_to_gint (be32_at tvb 24)) = .error Exn.OutOfBounds ∧
        (dissect_e100 reg tvb tree).result = .error Exn.OutOfBounds)) := by
  have hcaplt := e100_matched_cap_lt tvb hwf hm
  have hdis := dissect_e100_matched reg tvb tree hwf hm
  obtain ⟨hle, h32⟩ := hwf
  obtain ⟨h28, h0, hc⟩ := hm
  simp only [tvb_captured_length, tvb_reported_length] at hle h32 h28 hc ⊢
  have hraise : ¬ e100_slice_good tvb →
      tvb_new_subset_length_caplen tvb 28 (guint32_to_gint (be32_at tvb 20))
        (guint32_to_gint (be32_at tvb 24)) = .error Exn.OutOfBounds ∧
      (dissect_e100 reg tvb tree).result = .error Exn.OutOfBounds := by
    intro hbad
    refine ⟨e100_slice_raise tvb hcaplt hbad, ?_⟩
    rw [hdis, e100_payload_stage_oob reg tvb tree hcaplt hbad]
    rfl
  have hgo : ∀ v : tvbuff_t, e100_slice_good tvb → e100_view tvb = v →
      tvb_new_subset_length_caplen tvb 28 (guint32_to_gint (be32_at tvb 20))
        (guint32_to_gint (be32_at tvb 24)) = .ok v ∧
      ∀ eth, reg.eth_handle = some eth →
        dissect_e100 reg tvb tree =
          ⟨e100_header_trace tvb tree ++ [Event.call eth v tree], .ok tvb.data.length⟩ := by
    intro v hg hv
    subst hv
    refine ⟨e100_slice_ok tvb hg, ?_⟩
    intro eth hreg
    rw [hdis, e100_payload_stage_ok reg tvb tree eth hg hreg]
    rfl
  refine ⟨?_, ?_, ?_⟩
  · simp [tvb_bytes_exist, tvb_captured_length]
    omega
  · intro hlt
    apply hraise
    rintro ⟨_, hfit, _⟩
    simp only [tvb_captured_length] at hfit
    omega
  · intro heq hshort
    have hfit : 28 + be32_at tvb 20 ≤ tvb.data.length := by omega
    have htake : (tvb.data.drop 28).take (be32_at tvb 20) = tvb.data.drop 28 := by
      apply List.take_of_length_le
      simp
      omega
    have hsub : guint_sub tvb.reported_length 28 = tvb.reported_length - 28 :=
      guint_sub_eq _ _ (by omega) h32
    refine ⟨?_, ?_, ?_, ?_⟩
    · intro hge hlt
      have hne : be32_at tvb 24 ≠ 2 ^ 32 - 1 := by omega
      apply hgo _ ⟨by omega, by simp only [tvb_captured_length]; omega, Or.inl hlt⟩
      simp only [e100_view, e100_view_reported, if_neg hne, htake]
      rw [List.take_of_length_le]
      simp
      omega
    · intro hff
      apply hgo _ ⟨by omega, by simp only [tvb_captured_length]; omega, Or.inr hff⟩
      simp only [e100_view, e100_view_reported, if_pos hff, htake, tvb_reported_length, hsub]
      rw [List.take_of_length_le]
      simp
      omega
    · intro hlt
      have hne : be32_at tvb 24 ≠ 2 ^ 32 - 1 := by omega
      apply hgo _ ⟨by omega, by simp only [tvb_captured_length]; omega, Or.inl (by omega)⟩
      simp only [e100_view, e100_view_reported, if_neg hne, htake]
    · intro hge hlt
      apply hraise
      rintro ⟨_, _, h⟩
      omega

/-- Claim C17, witness: a frame that announces four captured bytes and carries
one, and an untruncated frame with two payload bytes and bytes original 64. -/
theorem e100_slice_fits_iff_untruncated_witness :
    tvb_wf ⟨spec_e100_header 7 9 10 0 0 1 5 6 7 4 64 ++ [1], 32⟩ ∧
    e100_matcher ⟨spec_e100_header 7 9 10 0 0 1 5 6 7 4 64 ++ [1], 32⟩ ∧
    (tvb_bytes_exist ⟨spec_e100_header 7 9 10 0 0 1 5 6 7 4 64 ++ [1], 32⟩ 28
        (be32_at ⟨spec_e100_header 7 9 10 0 0 1 5 6 7 4 64 ++ [1], 32⟩ 20) = true ↔
      tvb_captured_length ⟨spec_e100_header 7 9 10 0 0 1 5 6 7 4 64 ++ [1], 32⟩ =
        tvb_reported_length ⟨spec_e100_header 7 9 10 0 0 1 5 6 7 4 64 ++ [1], 32⟩) ∧
    tvb_wf ⟨spec_e100_header 7 9 10 0 0 1 5 6 7 2 64 ++ [0xAA, 0xBB], 30⟩ ∧
    e100_matcher ⟨spec_e100_header 7 9 10 0 0 1 5 6 7 2 64 ++ [0xAA, 0xBB], 30⟩ ∧
    tvb_new_subset_length_caplen
        ⟨spec_e100_header 7 9 10 0 0 1 5 6 7 2 64 ++ [0xAA, 0xBB], 30⟩ 28
        (guint32_to_gint (be32_at
          ⟨spec_e100_header 7 9 10 0 0 1 5 6 7 2 64 ++ [0xAA, 0xBB], 30⟩ 20))
        (guint32_to_gint (be32_at
          ⟨spec_e100_header 7 9 10 0 0 1 5 6 7 2 64 ++ [0xAA, 0xBB], 30⟩ 24)) =
      .ok ⟨(⟨spec_e100_header 7 9 10 0 0 1 5 6 7 2 64 ++ [0xAA, 0xBB], 30⟩ :
          tvbuff_t).data.drop 28,
        be32_at ⟨spec_e100_header 7 9 10 0 0 1 5 6 7 2 64 ++ [0xAA, 0xBB], 30⟩ 24⟩ :=
  ⟨by decide, by decide,
    (e100_slice_fits_iff_untruncated ⟨some 1, some 2, []⟩
      ⟨spec_e100_header 7 9 10 0 0 1 5 6 7 4 64 ++ [1], 32⟩ Option.none
      (by decide) (by decide)).1,
    by decide, by decide,
    (((e100_slice_fits_iff_untruncated ⟨some 1, some 2, []⟩
      ⟨spec_e100_header 7 9 10 0 0 1 5 6 7 2 64 ++ [0xAA, 0xBB], 30⟩ Option.none
      (by decide) (by decide)).2.2 (by decide) (by decide)).1 (by decide) (by decide)).1⟩

/-- Claim C17 as stated fails. An accepted, untruncated 30-byte frame with
bytes captured 2 and bytes original 1 does not yield all bytes after the header
as payload: the Ethernet handler gets the first of the two. An accepted,
untruncated 30-byte frame with bytes original `2 ^ 31` yields no payload at
all: the slice raises `OutOfBounds`. -/
theorem e100_untruncated_payload_fails :
    tvb_wf ⟨spec_e100_header 7 9 10 0 0 1 5 6 7 2 1 ++ [0xAA, 0xBB], 30⟩ ∧
    e100_matcher ⟨spec_e100_header 7 9 10 0 0 1 5 6 7 2 1 ++ [0xAA, 0xBB], 30⟩ ∧
    tvb_captured_length ⟨spec_e100_header 7 9 10 0 0 1 5 6 7 2 1 ++ [0xAA, 0xBB], 30⟩ =
      tvb_reported_length ⟨spec_e100_header 7 9 10 0 0 1 5 6 7 2 1 ++ [0xAA, 0xBB], 30⟩ ∧
    (⟨spec_e100_header 7 9 10 0 0 1 5 6 7 2 1 ++ [0xAA, 0xBB], 30⟩ : tvbuff_t).data.drop 28 =
      [0xAA, 0xBB] ∧
    dissect_e100 ⟨some 1, some 2, []⟩
        ⟨spec_e100_header 7 9 10 0 0 1 5 6 7 2 1 ++ [0xAA, 0xBB], 30⟩ Option.none =
      ⟨[ Event.col_set_str Column.COL_PROTOCOL "e100",
         Event.col_set_str Column.COL_INFO "E100 Encapsulated Packet",
         Event.call 1 ⟨[0xAA], 1⟩ Option.none ], .ok 30⟩ ∧
    tvb_wf ⟨spec_e100_header 7 9 10 0 0 1 5 6 7 2 2147483648 ++ [0xAA, 0xBB], 30⟩ ∧
    e100_matcher ⟨spec_e100_header 7 9 10 0 0 1 5 6 7 2 2147483648 ++ [0xAA, 0xBB], 30⟩ ∧
    tvb_captured_length
        ⟨spec_e100_header 7 9 10 0 0 1 5 6 7 2 2147483648 ++ [0xAA, 0xBB], 30⟩ =
      tvb_reported_length
        ⟨spec_e100_header 7 9 10 0 0 1 5 6 7 2 2147483648 ++ [0xAA, 0xBB], 30⟩ ∧
    dissect_e100 ⟨some 1, some 2, []⟩
        ⟨spec_e100_header 7 9 10 0 0 1 5 6 7 2 2147483648 ++ [0xAA, 0xBB], 30⟩ Option.none =
      ⟨[ Event.col_set_str Column.COL_PROTOCOL "e100",
         Event.col_set_str Column.COL_INFO "E100 Encapsulated Packet" ],
        .error Exn.OutOfBounds⟩ := by
  refine ⟨by decide, by decide, by decide, rfl, rfl, by decide, by decide, by decide, rfl⟩

/-! ## Claim C18 -/

/-- Claim C18. On a buffer of at least 16 bytes `dissect_interlink` slices the
payload at offset 0+4+2+2+2+2+1+1+2 = 16 with a tree and at 0+10+2+4 = 16
without one; both runs resolve the handler from the same key, give the same
result, and call the same handler on the same view. -/
theorem interlink_tree_independent (reg : Registry) (tvb : tvbuff_t) (t : TreeNode)
    (h16 : 16 ≤ tvb_captured_length tvb) :
    dissect_interlink reg tvb (some t) =
      Dissect.prepend (interlink_header_trace tvb (some t))
        (Dissect.seq
          (Dissect.lift (tvb_new_subset_remaining tvb (0 + 4 + 2 + 2 + 2 + 2 + 1 + 1 + 2)))
          fun next_tvb =>
            Dissect.seq (call_dissector (interlink_resolve reg (interlink_key tvb)) next_tvb
              (some t)) fun _ => Dissect.ret (tvb_captured_length tvb)) ∧
    dissect_interlink reg tvb Option.none =
      Dissect.prepend (interlink_header_trace tvb Option.none)
        (Dissect.seq (Dissect.lift (tvb_new_subset_remaining tvb (0 + 10 + 2 + 4)))
          fun next_tvb =>
            Dissect.seq (call_dissector (interlink_resolve reg (interlink_key tvb)) next_tvb
              Option.none) fun _ => Dissect.ret (tvb_captured_length tvb)) ∧
    0 + 4 + 2 + 2 + 2 + 2 + 1 + 1 + 2 = 16 ∧ 0 + 10 + 2 + 4 = 16 ∧
    (dissect_interlink reg tvb (some t)).result =
      (dissect_interlink reg tvb Option.none).result ∧
    (dissect_interlink reg tvb (some t)).sink.filterMap Event.callTarget =
      (dissect_interlink reg tvb Option.none).sink.filterMap Event.callTarget ∧
    (∀ h, interlink_resolve reg (interlink_key tvb) = some h →
      (dissect_interlink reg tvb (some t)).sink.filterMap Event.callTarget =
        [(h, ⟨tvb.data.drop 16, tvb.reported_length - 16⟩)] ∧
      (dissect_interlink reg tvb Option.none).sink.filterMap Event.callTarget =
        [(h, ⟨tvb.data.drop 16, tvb.reported_length - 16⟩)] ∧
      (dissect_interlink reg tvb (some t)).result = .ok (tvb_captured_length tvb) ∧
      (dissect_interlink reg tvb Option.none).result = .ok (tvb_captured_length tvb)) := by
  simp only [tvb_captured_length] at h16
  have hs := interlink_payload_stage_result reg tvb t h16
  refine ⟨dissect_interlink_run reg tvb (some t) h16,
    dissect_interlink_run reg tvb Option.none h16, rfl, rfl, ?_, ?_, ?_⟩
  · rw [dissect_interlink_run reg tvb (some t) h16,
      dissect_interlink_run reg tvb Option.none h16]
    exact hs.1
  · rw [dissect_interlink_run reg tvb (some t) h16,
      dissect_interlink_run reg tvb Option.none h16]
    simp only [Dissect.prepend, List.filterMap_append, interlink_header_trace_no_target,
      List.nil_append]
    exact hs.2
  · intro h hres
    rw [dissect_interlink_ok reg tvb (some t) h h16 hres,
      dissect_interlink_ok reg tvb Option.none h h16 hres]
    simp only [List.filterMap_append, interlink_header_trace_no_target, List.nil_append]
    exact ⟨rfl, rfl, rfl, rfl⟩

/-- Claim C18, witness: the example frame of the spec. -/
theorem interlink_tree_independent_witness :
    16 ≤ tvb_captured_length (spec_interlink_example 0 0) ∧
    (dissect_interlink ⟨some 1, some 2, [(1282, 7)]⟩ (spec_interlink_example 0 0)
      (some TreeNode.top)).result =
    (dissect_interlink ⟨some 1, some 2, [(1282, 7)]⟩ (spec_interlink_example 0 0)
      Option.none).result :=
  ⟨by decide, (interlink_tree_independent ⟨some 1, some 2, [(1282, 7)]⟩
    (spec_interlink_example 0 0) TreeNode.top (by decide)).2.2.2.2.1⟩

/-! ## Claim C19 -/

/-- Claim C19. For all bytes `t1 v1 t2 v2`, `t1 << 8 | v1 = t2 << 8 | v2` forces
`t1 = t2` and `v1 = v2`; the value is below `2 ^ 16`, so storing it in the
16-bit `type_version` loses nothing. In `dissect_interlink` this means: with
the table holding the single entry `(k, h)` and another handler as fallback, a
buffer of at least 16 bytes is handed to `h` exactly when `k` is its block type
shifted left by 8 or-ed with its block version, and to the fallback otherwise;
and for every table whose handlers are pairwise distinct, two buffers that are
handed to the same handler other than the fallback agree in block type and
block version, so two distinct type/version pairs never resolve through the
same table entry. -/
theorem interlink_key_injective (reg : Registry) (tvb1 tvb2 : tvbuff_t) (tree : proto_tree)
    (t1 v1 t2 v2 : guint8) (k h d : Nat)
    (h1 : 16 ≤ tvb_captured_length tvb1) (h2 : 16 ≤ tvb_captured_length tvb2) :
    (t1.val <<< 8 ||| v1.val = t2.val <<< 8 ||| v2.val → t1 = t2 ∧ v1 = v2) ∧
    t1.val <<< 8 ||| v1.val < 2 ^ 16 ∧
    (t1.val <<< 8 ||| v1.val) % 2 ^ 16 = t1.val <<< 8 ||| v1.val ∧
    (h ≠ d →
      ((dissect_interlink ⟨reg.eth_handle, some d, [(k, h)]⟩ tvb1 tree).sink.filterMap
          Event.callTarget = [(h, ⟨tvb1.data.drop 16, tvb1.reported_length - 16⟩)] ↔
        k = byte_at tvb1 12 <<< 8 ||| byte_at tvb1 13) ∧
      ((dissect_interlink ⟨reg.eth_handle, some d, [(k, h)]⟩ tvb1 tree).sink.filterMap
          Event.callTarget = [(d, ⟨tvb1.data.drop 16, tvb1.reported_length - 16⟩)] ↔
        k ≠ byte_at tvb1 12 <<< 8 ||| byte_at tvb1 13)) ∧
    ((reg.subdissector_table.map Prod.snd).Nodup →
      reg.data_handle = some d → h ≠ d →
      h ∈ ((dissect_interlink reg tvb1 tree).sink.filterMap Event.callTarget).map Prod.fst →
      h ∈ ((dissect_interlink reg tvb2 tree).sink.filterMap Event.callTarget).map Prod.fst →
      byte_at tvb1 12 = byte_at tvb2 12 ∧ byte_at tvb1 13 = byte_at tvb2 13) := by
  have ht1 := t1.isLt
  have hv1 := v1.isLt
  have ht2 := t2.isLt
  have hv2 := v2.isLt
  simp only [tvb_captured_length] at h1 h2
  have hlt : t1.val <<< 8 ||| v1.val < 2 ^ 16 := by
    rw [shl8_or _ _ hv1]
    omega
  have hkey : ∀ tvb : tvbuff_t,
      interlink_key tvb = byte_at tvb 12 <<< 8 ||| byte_at tvb 13 := by
    intro tvb
    rw [interlink_key_eq, shl8_or _ _ (byte_at_lt tvb 13)]
  have hhit : ∀ tvb : tvbuff_t, 16 ≤ tvb.data.length →
      h ∈ ((dissect_interlink reg tvb tree).sink.filterMap Event.callTarget).map Prod.fst →
      reg.data_handle = some d → h ≠ d →
      (interlink_key tvb, h) ∈ reg.subdissector_table := by
    intro tvb h16 hmem hdata hne
    rw [dissect_interlink_targets reg tvb tree h16] at hmem
    unfold interlink_resolve at hmem
    cases hl : dissector_get_uint_handle reg.subdissector_table (interlink_key tvb) with
    | none =>
      rw [hl, hdata] at hmem
      simp at hmem
      exact absurd hmem hne
    | some x =>
      rw [hl] at hmem
      simp at hmem
      subst hmem
      exact lookup_some_mem _ _ _ hl
  refine ⟨?_, hlt, Nat.mod_eq_of_lt hlt, ?_, ?_⟩
  · intro heq
    obtain ⟨ht, hv⟩ := shl8_or_inj _ _ _ _ hv1 hv2 heq
    exact ⟨Fin.ext ht, Fin.ext hv⟩
  · intro hne
    rw [dissect_interlink_targets _ tvb1 tree h1, ← hkey tvb1]
    by_cases hk : k = interlink_key tvb1
    · subst hk
      simp [interlink_resolve, dissector_get_uint_handle, List.lookup, hne]
    · have hb : (interlink_key tvb1 == k) = false := by
        simpa using fun e => hk e.symm
      simp [interlink_resolve, dissector_get_uint_handle, List.lookup, hb, hk, hne]
      exact fun e => hne e.symm
  · intro hnd hdata hne hm1 hm2
    have e1 := hhit tvb1 h1 hm1 hdata hne
    have e2 := hhit tvb2 h2 hm2 hdata hne
    have hk := table_key_of_handler _ _ _ _ hnd e1 e2
    rw [interlink_key_eq, interlink_key_eq] at hk
    have a1 := byte_at_lt tvb1 13
    have a2 := byte_at_lt tvb2 13
    omega

/-- Claim C19, witness: with the one entry (1282, 7) in the table and 2 as
fallback, the example frame of the spec (type 5, version 2) is handed to 7, and
the same frame with type 2 and version 5 is handed to 2. -/
theorem interlink_key_injective_witness :
    16 ≤ tvb_captured_length (spec_interlink_example 0 0) ∧
    16 ≤ tvb_captured_length (tvb_patch (spec_interlink_example 0 0) 12 [2, 5]) ∧
    (7 : Nat) ≠ 2 ∧
    (dissect_interlink ⟨some 1, some 2, [(1282, 7)]⟩ (spec_interlink_example 0 0)
        Option.none).sink.filterMap Event.callTarget = [(7, ⟨[0xAA, 0xBB], 2⟩)] ∧
    (dissect_interlink ⟨some 1, some 2, [(1282, 7)]⟩
        (tvb_patch (spec_interlink_example 0 0) 12 [2, 5])
        Option.none).sink.filterMap Event.callTarget = [(2, ⟨[0xAA, 0xBB], 2⟩)] :=
  ⟨by decide, by decide, by decide,
    ((interlink_key_injective ⟨some 1, some 2, [(1282, 7)]⟩ (spec_interlink_example 0 0)
      (tvb_patch (spec_interlink_example 0 0) 12 [2, 5]) Option.none 0 0 0 0 1282 7 2
      (by decide) (by decide)).2.2.2.1 (by decide)).1.2 (by decide),
    ((interlink_key_injective ⟨some 1, some 2, [(1282, 7)]⟩
      (tvb_patch (spec_interlink_example 0 0) 12 [2, 5])
      (spec_interlink_example 0 0) Option.none 0 0 0 0 1282 7 2
      (by decide) (by decide)).2.2.2.1 (by decide)).2.2 (by decide)⟩

end Wireshark
